import Mathlib

/-!
# FiXiF generated sum-of-products stages

A shallow embedding of the generated C sources of the FiPoGen code generator
(`Generated/Code/**/codeN.c`).  Every generated file holds up to three renderings
of one filter stage:

* `SoP_float`     : the real-valued weighted sum (the reference),
* `C_int` / `SoP_int` : the integer multiply / shift / modulo rendering,
* `SoP_ac_fixed`  : the `ac_fixed<W,I,true,AC_TRN>` rendering.

Machine integers are modelled as `Int` with explicit two's-complement wraparound.
`double` values are modelled as exact rationals: every coefficient literal is a
dyadic rational and the inputs considered are 16-bit integers scaled by powers of
two, so the sums below are exactly representable.

The integer functions are given twice: as `let` chains that follow the C text line
by line, and as statement lists (`Program`) from which the order of the leaf products
and of the additions is read; the two are linked by the `prog_*_rootValue` lemmas.
The Python wrapper `WCPG_pyWCPG` of `_pyWCPG.c` is modelled over an oracle for the
external routine `WCPG_ABCD`.
-/

namespace FiXiF

/-! ## Machine arithmetic -/

/-- Two's-complement wraparound of `x` into the signed `w`-bit range. -/
def wrapSigned (w : Nat) (x : Int) : Int :=
  (x + 2 ^ (w - 1)) % 2 ^ w - 2 ^ (w - 1)

/-- Range of the C type `int16_t`. -/
def InInt16 (x : Int) : Prop := -32768 ≤ x ∧ x ≤ 32767

/-- Range of the C type `int32_t`. -/
def InInt32 (x : Int) : Prop := -2147483648 ≤ x ∧ x ≤ 2147483647

instance (x : Int) : Decidable (InInt16 x) := by
  unfold InInt16
  infer_instance

instance (x : Int) : Decidable (InInt32 x) := by
  unfold InInt32
  infer_instance

/-- Product of two `int` operands, stored in 32 bits (wraparound on overflow). -/
def mul32 (a b : Int) : Int := wrapSigned 32 (a * b)

/-- Sum of two `int32_t` registers, stored in 32 bits (wraparound on overflow). -/
def add32 (a b : Int) : Int := wrapSigned 32 (a + b)

/-- Left shift `r << k` of an `int32_t` register, stored in 32 bits. -/
def shl32 (a : Int) (k : Nat) : Int := wrapSigned 32 (a * 2 ^ k)

/-- Arithmetic right shift `r >> k` of a signed register (rounds toward minus infinity). -/
def asr (x : Int) (k : Nat) : Int := x >>> k

/-- The C remainder `r % k` for a register `r` and a positive constant `k`: the
remainder of the division truncating toward zero, stored back into 32 bits.  The
constants used (`2^18` .. `2^33`) are evaluated in a type wide enough to hold them. -/
def mod32 (r k : Int) : Int := wrapSigned 32 (Int.tmod r k)

/-- Conversion of an `int32_t` value to the `int16_t` return type. -/
def toInt16 (x : Int) : Int := wrapSigned 16 x

/-! ## `rhoDFIIt/code13.c` -/

namespace rhoDFIIt.code13

/-- The function `SoP_float` of `rhoDFIIt/code13.c`. -/
def SoP_float (v0 v1 v2 v3 : ℚ) : ℚ :=
  0.795928955078125 * v1 + 0.023296356201171875 * v2 + 0.12245845794677734375 * v0 + 1 * v3

/-- The value of the expression `r0 >> 2` that `C_int` of `rhoDFIIt/code13.c`
hands to its `return` statement, before the conversion to `int16_t`. -/
def C_int_root (v0 v1 v2 v3 : Int) : Int :=
  -- Computation of c1*v1 in r0
  let r0 := asr (mul32 52162 v1) 18
  -- Computation of c2*v2 in r1
  let r1 := asr (mul32 6107 v2) 16
  -- Computation of r0+r1 in r0
  let r0 := add32 r0 r1
  -- Computation of c0*v0 in r1
  let r1 := asr (mul32 256814 v0) 20
  -- Computation of c3*v3 in r2
  let r2 := asr (mul32 16384 v3) 13
  -- Computation of r1+r2 in r1
  let r1 := add32 r1 r2
  -- Computation of r0+r1 in r0
  let r0 := add32 r0 r1
  -- The result is returned with a final right shift
  asr r0 2

/-- The function `C_int` of `rhoDFIIt/code13.c`. -/
def C_int (v0 v1 v2 v3 : Int) : Int :=
  toInt16 (C_int_root v0 v1 v2 v3)

/-- The reference value at the output scale: `SoP_float` applied to the taps read
in their declared input formats (`L1 = tab[1]*2^-9`, `L2 = tab[2]*2^-5`,
`L0 = tab[0]*2^-6`, `L3 = tab[3]*2^-6`) and rescaled to the output format
`ac_fixed<16,11>` (5 fractional bits). -/
def S_out (v0 v1 v2 v3 : Int) : ℚ :=
  SoP_float ((v0 : ℚ) / 2 ^ 6) ((v1 : ℚ) / 2 ^ 9) ((v2 : ℚ) / 2 ^ 5) ((v3 : ℚ) / 2 ^ 6) * 2 ^ 5

end rhoDFIIt.code13

/-! ## The `ac_fixed` operand type -/

/-- Modelled from the spec: the quantization mode named `AC_TRN` in the generated
sources.  The header declaring `ac_fixed` is not among the sources; the spec fixes
the mode to truncation and names both conventions (toward minus infinity, toward
zero), so the mode is a parameter of the model. -/
inductive QMode where
  | towardNegInf : QMode
  | towardZero : QMode
  deriving DecidableEq, Repr

/-- Discard the `k` low-order bits of a raw value under the quantization mode `q`. -/
def dropBits (q : QMode) (x : Int) (k : Nat) : Int :=
  match q with
  | QMode.towardNegInf => asr x k
  | QMode.towardZero => Int.tdiv x (2 ^ k)

/-- Truncate a rational to an integer under the quantization mode `q`. -/
def truncRat (q : QMode) (x : ℚ) : Int :=
  match q with
  | QMode.towardNegInf => ⌊x⌋
  | QMode.towardZero => if 0 ≤ x then ⌊x⌋ else ⌈x⌉

/-- Modelled from the spec: a fixed-point operand, the raw integer `raw` read with
`frac` fractional bits (value `raw * 2^-frac`).  An `ac_fixed<W,I,true>` object has
`frac = W - I`. -/
structure AcValue where
  raw : Int
  frac : Int
  deriving DecidableEq, Repr

/-- Modelled from the spec: the product of two operands is the exact widened
product (no truncation at the multiply step). -/
def AcValue.mul (a b : AcValue) : AcValue :=
  ⟨a.raw * b.raw, a.frac + b.frac⟩

/-- Modelled from the spec: the sum of two operands is exact, at the finer of the
two binary points. -/
def AcValue.add (a b : AcValue) : AcValue :=
  let f := max a.frac b.frac
  ⟨a.raw * 2 ^ (f - a.frac).toNat + b.raw * 2 ^ (f - b.frac).toNat, f⟩

/-- Modelled from the spec: storing a value into an object declared
`ac_fixed<W,I,true,q>`: the low-order bits beyond `W - I` fractional bits are
truncated under `q`, the bits above the width `W` are discarded (wraparound). -/
def acStore (q : QMode) (W : Nat) (I : Int) (x : AcValue) : AcValue :=
  let f : Int := (W : Int) - I
  let r :=
    if x.frac ≤ f then x.raw * 2 ^ (f - x.frac).toNat
    else dropBits q x.raw (x.frac - f).toNat
  ⟨wrapSigned W r, f⟩

/-- Modelled from the spec: initialisation of an `ac_fixed<W,I,true,q>` object from
a real literal. -/
def acConst (q : QMode) (W : Nat) (I : Int) (c : ℚ) : AcValue :=
  ⟨wrapSigned W (truncRat q (c * 2 ^ ((W : Int) - I))), (W : Int) - I⟩

/-- An `ac_fixed<W,I,true,AC_TRN>` parameter holding the raw integer `raw`. -/
def acInput (W : Nat) (I : Int) (raw : Int) : AcValue :=
  ⟨raw, (W : Int) - I⟩

/-! ## `LGS/bis/code30.c` -/

namespace LGS.bis.code30

/-- The function `SoP_float` of `LGS/bis/code30.c`. -/
def SoP_float (v0 v1 : ℚ) : ℚ :=
  0.0156008899211883544921875 * v0 + 1 * v1

/-- The value of the expression `r0 >> 1` that `C_int` of `LGS/bis/code30.c` hands
to its `return` statement, before the conversion to `int16_t`. -/
def C_int_root (v0 v1 : Int) : Int :=
  -- Computation of c0*v0 in r0
  let r0 := asr (mul32 1046958 v0) 25
  -- Computation of c1*v1 in r1
  let r1 := asr (mul32 1024 v1) 6
  -- Computation of r0+r1 in r0
  let r0 := add32 r0 r1
  -- The result is returned with a final right shift
  asr r0 1

/-- The function `C_int` of `LGS/bis/code30.c`. -/
def C_int (v0 v1 : Int) : Int :=
  toInt16 (C_int_root v0 v1)

/-- The function `SoP_ac_fixed` of `LGS/bis/code30.c`; the result is the raw integer
of the returned `ac_fixed<18,11,true>` object (7 fractional bits). -/
def SoP_ac_fixed (AC_TRN : QMode) (v0 v1 : Int) : Int :=
  let v0 := acInput 18 11 v0
  let v1 := acInput 13 9 v1
  -- Declaration of sums sd and s
  let sd := acConst AC_TRN 19 11 0
  let s := acConst AC_TRN 18 11 0
  -- Computation of c0*v0 in sd
  let c0 := acConst AC_TRN 21 (-5) 0.0156008899211883544921875
  let sd := acStore AC_TRN 19 11 (sd.add (c0.mul v0))
  -- Computation of c1*v1 in sd
  let c1 := acConst AC_TRN 12 2 1
  let sd := acStore AC_TRN 19 11 (sd.add (c1.mul v1))
  -- Computation of the final right shift
  let s := acStore AC_TRN 18 11 (s.add sd)
  s.raw

end LGS.bis.code30

/-! ## `LGS/bis/code37.c` -/

namespace LGS.bis.code37

/-- The function `SoP_float` of `LGS/bis/code37.c`. -/
def SoP_float (v0 v1 v2 v3 v4 v5 v6 v7 v8 : ℚ) : ℚ :=
  -0.7138824462890625 * v5 + -0.59698486328125 * v6 + -0.61952972412109375 * v0
    + 0.38153076171875 * v3 + -0.94012451171875 * v8 + -0.209686279296875 * v4
    + -0.3147125244140625 * v7 + 0.3603668212890625 * v2 + 0.3055572509765625 * v1

/-- The value of the expression `r0 >> 4` that `C_int` of `LGS/bis/code37.c` hands
to its `return` statement, before the conversion to `int16_t`. -/
def C_int_root (v0 v1 v2 v3 v4 v5 v6 v7 v8 : Int) : Int :=
  -- Computation of c5*v5 in r0
  let r0 := asr (mul32 (-46785) v5) 18
  -- Computation of c6*v6 in r1
  let r1 := asr (mul32 (-39124) v6) 17
  -- Computation of r0+r1 in r0
  let r0 := add32 r0 r1
  -- Computation of c0*v0 in r1
  let r1 := asr (mul32 (-81203) v0) 21
  -- Computation of r0+r1 in r0
  let r0 := add32 r0 r1
  -- Computation of c3*v3 in r1
  let r1 := asr (mul32 25004 v3) 18
  -- Computation of c8*v8 in r2
  let r2 := asr (mul32 (-15403) v8) 13
  -- Computation of r1+r2 in r1
  let r1 := add32 r1 r2
  -- Computation of r0+r1 in r0
  let r0 := asr r0 1
  let r1 := asr r1 1
  let r0 := add32 r0 r1
  -- Computation of c4*v4 in r1
  let r1 := asr (mul32 (-13742) v4) 18
  -- Computation of c7*v7 in r2
  let r2 := asr (mul32 (-20625) v7) 17
  -- Computation of r1+r2 in r1
  let r1 := add32 r1 r2
  -- Computation of c2*v2 in r2
  let r2 := asr (mul32 23617 v2) 18
  -- Computation of r1+r2 in r1
  let r1 := add32 r1 r2
  -- Computation of c1*v1 in r2
  let r2 := asr (mul32 20025 v1) 18
  -- Computation of r1+r2 in r1
  let r1 := add32 r1 r2
  -- Computation of r0+r1 in r0
  let r0 := asr r0 1
  let r1 := asr r1 1
  let r0 := add32 r0 r1
  -- The result is returned with a final right shift
  asr r0 4

/-- The function `C_int` of `LGS/bis/code37.c`. -/
def C_int (v0 v1 v2 v3 v4 v5 v6 v7 v8 : Int) : Int :=
  toInt16 (C_int_root v0 v1 v2 v3 v4 v5 v6 v7 v8)

/-- The reference value at the output scale: `SoP_float` applied to the taps read
in the input formats declared by `SoP_ac_fixed` (fractional bits `W - I`:
`v5` 7, `v6` 6, `v0` 9, `v3` 7, `v8` 4, `v4` 7, `v7` 6, `v2` 7, `v1` 7) and rescaled
to the output format `ac_fixed<13,12,true>` (1 fractional bit). -/
def S_out (v0 v1 v2 v3 v4 v5 v6 v7 v8 : Int) : ℚ :=
  SoP_float ((v0 : ℚ) / 2 ^ 9) ((v1 : ℚ) / 2 ^ 7) ((v2 : ℚ) / 2 ^ 7) ((v3 : ℚ) / 2 ^ 7)
    ((v4 : ℚ) / 2 ^ 7) ((v5 : ℚ) / 2 ^ 7) ((v6 : ℚ) / 2 ^ 6) ((v7 : ℚ) / 2 ^ 6)
    ((v8 : ℚ) / 2 ^ 4) * 2 ^ 1

end LGS.bis.code37

/-! ## `ss6/bis/log/code3.c` -/

namespace ss6.bis.log.code3

/-- The function `SoP_float` of `ss6/bis/log/code3.c`. -/
def SoP_float (v0 v1 v2 v3 v4 v5 v6 v7 v8 : ℚ) : ℚ :=
  0.3917083740234375 * v6 + -0.146331787109375 * v8 + -0.045719146728515625 * v4
    + 0.9490966796875 * v1 + 0.4874725341796875 * v5 + 1.1043701171875 * v7
    + 1.4510498046875 * v3 + 0.517974853515625 * v2 + 1.28887939453125 * v0

/-- The value of the expression `r0 >> 16` that `C_int` of `ss6/bis/log/code3.c`
hands to its `return` statement, before the conversion to `int16_t`. -/
def C_int_root (v0 v1 v2 v3 v4 v5 v6 v7 v8 : Int) : Int :=
  -- Computation of c6*v6 in r0
  let r0 := mul32 25671 v6
  -- Computation of c8*v8 in r1
  let r1 := mul32 (-19180) v8
  -- Computation of r0+r1 in r0
  let r0 := add32 r0 r1
  -- Computation of c4*v4 in r1
  let r1 := mul32 (-23970) v4
  -- Computation of r0+r1 in r0
  let r1 := mod32 r1 8589934592
  let r0 := add32 r0 r1
  -- Computation of c1*v1 in r1
  let r1 := mul32 31100 v1
  -- Computation of r0+r1 in r0
  let r0 := mod32 r0 8589934592
  let r1 := mod32 r1 2147483648
  let r0 := add32 r0 r1
  -- Computation of c5*v5 in r1
  let r1 := mul32 31947 v5
  -- Computation of c7*v7 in r2
  let r2 := mul32 18094 v7
  -- Computation of r1+r2 in r1
  let r2 := mod32 r2 1073741824
  let r1 := add32 r1 r2
  -- Computation of c3*v3 in r2
  let r2 := mul32 23774 v3
  -- Computation of r1+r2 in r1
  let r2 := mod32 r2 1073741824
  let r1 := add32 r1 r2
  -- Computation of c2*v2 in r2
  let r2 := mul32 16973 v2
  -- Computation of r1+r2 in r1
  let r2 := mod32 r2 1073741824
  let r1 := add32 r1 r2
  -- Computation of c0*v0 in r2
  let r2 := mul32 21117 v0
  -- Computation of r1+r2 in r1
  let r2 := mod32 r2 1073741824
  let r1 := add32 r1 r2
  -- Computation of r0+r1 in r0
  let r0 := add32 r0 r1
  -- The result is returned with a final right shift
  asr r0 16

/-- The function `C_int` of `ss6/bis/log/code3.c`. -/
def C_int (v0 v1 v2 v3 v4 v5 v6 v7 v8 : Int) : Int :=
  toInt16 (C_int_root v0 v1 v2 v3 v4 v5 v6 v7 v8)

/-- The local object `r16` of `SoP_ac_fixed` of `ss6/bis/log/code3.c`: the root of
the register tree `r0 .. r16` that the function computes.  The parameters are in
the order of the source: `v6, v8, v4, v1, v5, v7, v3, v2, v0`. -/
def SoP_ac_fixed_r16 (AC_TRN : QMode) (v6 v8 v4 v1 v5 v7 v3 v2 v0 : Int) : AcValue :=
  let v6 := acInput 16 8 v6
  let v8 := acInput 16 9 v8
  let v4 := acInput 16 10 v4
  let v1 := acInput 16 9 v1
  let v5 := acInput 16 9 v5
  let v7 := acInput 16 9 v7
  let v3 := acInput 16 9 v3
  let v2 := acInput 16 10 v2
  let v0 := acInput 16 9 v0
  -- Computation of c6*v6 in register r0
  let c6 := acConst AC_TRN 16 0 0.3917083740234375
  let r0 := acStore AC_TRN 32 8 (c6.mul v6)
  -- Computation of c8*v8 in register r1
  let c8 := acConst AC_TRN 16 (-1) (-0.146331787109375)
  let r1 := acStore AC_TRN 32 8 (c8.mul v8)
  -- Computation of r0+r1 in register r2
  let r2 := acStore AC_TRN 32 8 (r0.add r1)
  -- Computation of c4*v4 in register r3
  let c4 := acConst AC_TRN 16 (-3) (-0.045719146728515625)
  let r3 := acStore AC_TRN 32 7 (c4.mul v4)
  -- Computation of r2+r3 in register r4
  let r4 := acStore AC_TRN 32 8 (r2.add r3)
  -- Computation of c1*v1 in register r5
  let c1 := acConst AC_TRN 16 1 0.9490966796875
  let r5 := acStore AC_TRN 32 10 (c1.mul v1)
  -- Computation of r4+r5 in register r6
  let r6 := acStore AC_TRN 32 9 (r4.add r5)
  -- Computation of c5*v5 in register r7
  let c5 := acConst AC_TRN 16 0 0.4874725341796875
  let r7 := acStore AC_TRN 32 9 (c5.mul v5)
  -- Computation of c7*v7 in register r8
  let c7 := acConst AC_TRN 16 2 1.1043701171875
  let r8 := acStore AC_TRN 32 11 (c7.mul v7)
  -- Computation of r7+r8 in register r9
  let r9 := acStore AC_TRN 32 9 (r7.add r8)
  -- Computation of c3*v3 in register r10
  let c3 := acConst AC_TRN 16 2 1.4510498046875
  let r10 := acStore AC_TRN 32 11 (c3.mul v3)
  -- Computation of r9+r10 in register r11
  let r11 := acStore AC_TRN 32 9 (r9.add r10)
  -- Computation of c2*v2 in register r12
  let c2 := acConst AC_TRN 16 1 0.517974853515625
  let r12 := acStore AC_TRN 32 11 (c2.mul v2)
  -- Computation of r11+r12 in register r13
  let r13 := acStore AC_TRN 32 9 (r11.add r12)
  -- Computation of c0*v0 in register r14
  let c0 := acConst AC_TRN 16 2 1.28887939453125
  let r14 := acStore AC_TRN 32 11 (c0.mul v0)
  -- Computation of r13+r14 in register r15
  let r15 := acStore AC_TRN 32 9 (r13.add r14)
  -- Computation of r6+r15 in register r16
  acStore AC_TRN 32 9 (r6.add r15)

/-- The function `SoP_ac_fixed` of `ss6/bis/log/code3.c`; the result is the raw
integer of the returned `ac_fixed<16,9,true>` object (7 fractional bits).  The
registers `r0 .. r16` (see `SoP_ac_fixed_r16`) are local objects that the returned
expression `s + sd` does not read; the parameters are in the order of the source:
`v6, v8, v4, v1, v5, v7, v3, v2, v0`. -/
def SoP_ac_fixed (AC_TRN : QMode) (v6 v8 v4 v1 v5 v7 v3 v2 v0 : Int) : Int :=
  -- Declaration of sums sd and s
  let sd := acConst AC_TRN 32 9 0
  let s := acConst AC_TRN 16 9 0
  -- Computation of the registers r0 .. r16
  let _r16 := SoP_ac_fixed_r16 AC_TRN v6 v8 v4 v1 v5 v7 v3 v2 v0
  -- Computation of the final right shift
  let s := acStore AC_TRN 16 9 (s.add sd)
  s.raw

end ss6.bis.log.code3

/-! ## `rhoDFIIt/bis/code3.c` and `rhoDFIIt/bis/code6.c` -/

/-- How control leaves the body of a generated function: through a `return`
statement carrying a value, or by reaching the closing brace without one (the
final content of register `r0` is recorded). -/
inductive Outcome where
  | returned : Int → Outcome
  | noReturn : Int → Outcome
  deriving DecidableEq, Repr

namespace rhoDFIIt.bis.code3

/-- The function `SoP_float` of `rhoDFIIt/bis/code3.c`. -/
def SoP_float (v0 : ℚ) : ℚ :=
  0.88358306884765625 * v0

/-- The function `C_int` of `rhoDFIIt/bis/code3.c`.  Its body is the single
statement `r0 = 231626*v0>> 18;` followed by the line
`// The result is returned 	return r0;`, which is a comment as a whole: the body
holds no `return` statement.  (No declaration of `r0` is emitted either; it is
taken to be an `int32_t` register as in the other generated functions.) -/
def C_int (v0 : Int) : Outcome :=
  -- Computation of c0*v0 in r0
  let r0 := asr (mul32 231626 v0) 18
  Outcome.noReturn r0

end rhoDFIIt.bis.code3

namespace rhoDFIIt.bis.code6

/-- The function `SoP_float` of `rhoDFIIt/bis/code6.c`. -/
def SoP_float (v0 : ℚ) : ℚ :=
  0.7612762451171875 * v0

/-- The function `C_int` of `rhoDFIIt/bis/code6.c`.  Its body is the single
statement `r0 = 99782*v0>> 17;` followed by the line
`// The result is returned 	return r0;`, which is a comment as a whole: the body
holds no `return` statement.  (No declaration of `r0` is emitted either; it is
taken to be an `int32_t` register as in the other generated functions.) -/
def C_int (v0 : Int) : Outcome :=
  -- Computation of c0*v0 in r0
  let r0 := asr (mul32 99782 v0) 17
  Outcome.noReturn r0

end rhoDFIIt.bis.code6

/-! ## `tags/0.1/Generated/Code/code4.c` -/

namespace tags01.code4

/-- The untruncated results of the six operations of `SoP_int` of `code4.c` that
are stored into `int32` registers: `c*x1`, `c*x2`, `r0 + (r1 >> 7)`, `c*x0`,
`r0 << 1` and `(r2 >> 1) + (r0 << 1)`.  Each operation reads the registers as they
were stored (32-bit wraparound) and its own result is given before it is stored.
The types `int16` and `int32` of the source are read as `int16_t` and `int32_t`. -/
structure Intermediates where
  prod1 : Int
  prod2 : Int
  sum1 : Int
  prod0 : Int
  shl0 : Int
  sum2 : Int
  deriving DecidableEq, Repr

/-- The intermediates of `SoP_int` at the input `(x0, x1, x2)`. -/
def SoP_int_intermediates (x0 x1 x2 : Int) : Intermediates :=
  -- Computation of c1*x1 in register r0
  let c := toInt16 (-18611)
  let prod1 := c * x1
  let r0 := wrapSigned 32 prod1
  -- Computation of c2*x2 in register r1
  let c := toInt16 18234
  let prod2 := c * x2
  let r1 := wrapSigned 32 prod2
  -- Computation of r0+r1 in register r2
  let sum1 := r0 + asr r1 7
  let r2 := wrapSigned 32 sum1
  -- Computation of c0*x0 in register r0
  let c := toInt16 28863
  let prod0 := c * x0
  let r0 := wrapSigned 32 prod0
  -- Computation of r2+r0 in register r1
  let shl0 := r0 * 2 ^ 1
  let sum2 := asr r2 1 + wrapSigned 32 shl0
  ⟨prod1, prod2, sum1, prod0, shl0, sum2⟩

/-- The value of the register `r2` that `SoP_int` of `code4.c` hands to its
`return` statement, before the conversion to `int16_t`. -/
def SoP_int_root (x0 x1 x2 : Int) : Int :=
  -- Computation of c1*x1 in register r0
  let c := toInt16 (-18611)
  let r0 := mul32 c x1
  -- Computation of c2*x2 in register r1
  let c := toInt16 18234
  let r1 := mul32 c x2
  -- Computation of r0+r1 in register r2
  let r2 := add32 r0 (asr r1 7)
  -- Computation of c0*x0 in register r0
  let c := toInt16 28863
  let r0 := mul32 c x0
  -- Computation of r2+r0 in register r1
  let r1 := add32 (asr r2 1) (shl32 r0 1)
  -- Computation of the final right shift
  asr r1 16

/-- The function `SoP_int` of `code4.c`. -/
def SoP_int (x0 x1 x2 : Int) : Int :=
  toInt16 (SoP_int_root x0 x1 x2)

end tags01.code4

/-! ## `LGS/bis/code28.c` -/

namespace LGS.bis.code28

/-- The function `SoP_float` of `LGS/bis/code28.c`. -/
def SoP_float (v0 v1 : ℚ) : ℚ :=
  2.8862152099609375 * v0 + 4.209686279296875 * v1

/-- The value of the expression `r0 >> 1` that `C_int` of `LGS/bis/code28.c` hands
to its `return` statement, before the conversion to `int16_t`. -/
def C_int_root (v0 v1 : Int) : Int :=
  -- Computation of c0*v0 in r0
  let r0 := asr (mul32 378302 v0) 5
  -- Computation of c1*v1 in r1
  let r1 := asr (mul32 275886 v1) 5
  -- Computation of r0+r1 in r0
  let r0 := mod32 r0 262144
  let r0 := add32 r0 r1
  -- The result is returned with a final right shift
  asr r0 1

/-- The function `C_int` of `LGS/bis/code28.c`. -/
def C_int (v0 v1 : Int) : Int :=
  toInt16 (C_int_root v0 v1)

/-- The body of `C_int` of `LGS/bis/code28.c` with the line `r0 = r0 % 262144;`
deleted. -/
def C_int_root_noMod (v0 v1 : Int) : Int :=
  -- Computation of c0*v0 in r0
  let r0 := asr (mul32 378302 v0) 5
  -- Computation of c1*v1 in r1
  let r1 := asr (mul32 275886 v1) 5
  -- Computation of r0+r1 in r0
  let r0 := add32 r0 r1
  -- The result is returned with a final right shift
  asr r0 1

/-- The function `SoP_ac_fixed` of `LGS/bis/code28.c`; the result is the raw integer
of the returned `ac_fixed<17,11,true>` object (6 fractional bits). -/
def SoP_ac_fixed (AC_TRN : QMode) (v0 v1 : Int) : Int :=
  let v0 := acInput 5 10 v0
  let v1 := acInput 5 9 v1
  -- Declaration of sums sd and s
  let sd := acConst AC_TRN 18 11 0
  let s := acConst AC_TRN 17 11 0
  -- Computation of c0*v0 in sd
  let c0 := acConst AC_TRN 20 3 2.8862152099609375
  let sd := acStore AC_TRN 18 11 (sd.add (c0.mul v0))
  -- Computation of c1*v1 in sd
  let c1 := acConst AC_TRN 20 4 4.209686279296875
  let sd := acStore AC_TRN 18 11 (sd.add (c1.mul v1))
  -- Computation of the final right shift
  let s := acStore AC_TRN 17 11 (s.add sd)
  s.raw

end LGS.bis.code28

/-! ## `ss5/bis/code8.c` -/

namespace ss5.bis.code8

/-- The value of the expression `r0 >> 4` that `C_int` of `ss5/bis/code8.c` hands to
its `return` statement, before the conversion to `int16_t`. -/
def C_int_root (v0 v1 v2 v3 v4 v5 v6 v7 v8 : Int) : Int :=
  -- Computation of c5*v5 in r0
  let r0 := asr (mul32 457612 v5) 19
  -- Computation of c6*v6 in r1
  let r1 := asr (mul32 146539 v6) 17
  -- Computation of r0+r1 in r0
  let r0 := add32 r0 r1
  -- Computation of c0*v0 in r1
  let r1 := asr (mul32 625924 v0) 17
  -- Computation of r0+r1 in r0
  let r0 := add32 r0 r1
  -- Computation of c3*v3 in r1
  let r1 := asr (mul32 367011 v3) 17
  -- Computation of c8*v8 in r2
  let r2 := asr (mul32 (-61613) v8) 15
  -- Computation of r1+r2 in r1
  let r1 := add32 r1 r2
  -- Computation of r0+r1 in r0
  let r0 := add32 r0 r1
  -- Computation of c4*v4 in r1
  let r1 := asr (mul32 154670 v4) 17
  -- Computation of c7*v7 in r2
  let r2 := asr (mul32 349027 v7) 17
  -- Computation of r1+r2 in r1
  let r1 := add32 r1 r2
  -- Computation of c2*v2 in r2
  let r2 := asr (mul32 362383 v2) 18
  -- Computation of r1+r2 in r1
  let r1 := add32 r1 r2
  -- Computation of c1*v1 in r2
  let r2 := asr (mul32 690491 v1) 18
  -- Computation of r1+r2 in r1
  let r2 := mod32 r2 1048576
  let r1 := add32 r1 r2
  -- Computation of r0+r1 in r0
  let r0 := add32 r0 r1
  -- The result is returned with a final right shift
  asr r0 4

/-- The function `C_int` of `ss5/bis/code8.c`. -/
def C_int (v0 v1 v2 v3 v4 v5 v6 v7 v8 : Int) : Int :=
  toInt16 (C_int_root v0 v1 v2 v3 v4 v5 v6 v7 v8)

/-- The body of `C_int` of `ss5/bis/code8.c` with the line `r2 = r2 % 1048576;`
deleted. -/
def C_int_root_noMod (v0 v1 v2 v3 v4 v5 v6 v7 v8 : Int) : Int :=
  -- Computation of c5*v5 in r0
  let r0 := asr (mul32 457612 v5) 19
  -- Computation of c6*v6 in r1
  let r1 := asr (mul32 146539 v6) 17
  -- Computation of r0+r1 in r0
  let r0 := add32 r0 r1
  -- Computation of c0*v0 in r1
  let r1 := asr (mul32 625924 v0) 17
  -- Computation of r0+r1 in r0
  let r0 := add32 r0 r1
  -- Computation of c3*v3 in r1
  let r1 := asr (mul32 367011 v3) 17
  -- Computation of c8*v8 in r2
  let r2 := asr (mul32 (-61613) v8) 15
  -- Computation of r1+r2 in r1
  let r1 := add32 r1 r2
  -- Computation of r0+r1 in r0
  let r0 := add32 r0 r1
  -- Computation of c4*v4 in r1
  let r1 := asr (mul32 154670 v4) 17
  -- Computation of c7*v7 in r2
  let r2 := asr (mul32 349027 v7) 17
  -- Computation of r1+r2 in r1
  let r1 := add32 r1 r2
  -- Computation of c2*v2 in r2
  let r2 := asr (mul32 362383 v2) 18
  -- Computation of r1+r2 in r1
  let r1 := add32 r1 r2
  -- Computation of c1*v1 in r2
  let r2 := asr (mul32 690491 v1) 18
  -- Computation of r1+r2 in r1
  let r1 := add32 r1 r2
  -- Computation of r0+r1 in r0
  let r0 := add32 r0 r1
  -- The result is returned with a final right shift
  asr r0 4

end ss5.bis.code8

/-! ## `ss3/code6.c` and `ss5/code0.c` -/

namespace ss3.code6

/-- The value of the expression `r0 >> 4` that `C_int` of `ss3/code6.c` hands to its
`return` statement, before the conversion to `int16_t`. -/
def C_int_root (v0 v1 v2 v3 v4 v5 v6 v7 v8 : Int) : Int :=
  -- Computation of c0*v0 in r0
  let r0 := asr (mul32 1062546 v0) 17
  -- Computation of c1*v1 in r1
  let r1 := asr (mul32 255672 v1) 17
  -- Computation of r0+r1 in r0
  let r0 := add32 r0 r1
  -- Computation of c2*v2 in r1
  let r1 := asr (mul32 370691 v2) 14
  -- Computation of r0+r1 in r0
  let r0 := add32 r0 r1
  -- Computation of c3*v3 in r1
  let r1 := asr (mul32 (-2517702) v3) 18
  -- Computation of r0+r1 in r0
  let r0 := add32 r0 r1
  -- Computation of c4*v4 in r1
  let r1 := asr (mul32 684827 v4) 17
  -- Computation of r0+r1 in r0
  let r0 := add32 r0 r1
  -- Computation of c5*v5 in r1
  let r1 := asr (mul32 3210496 v5) 18
  -- Computation of r0+r1 in r0
  let r0 := add32 r0 r1
  -- Computation of c6*v6 in r1
  let r1 := asr (mul32 3932554 v6) 19
  -- Computation of r0+r1 in r0
  let r0 := add32 r0 r1
  -- Computation of c7*v7 in r1
  let r1 := asr (mul32 (-235968) v7) 15
  -- Computation of r0+r1 in r0
  let r0 := add32 r0 r1
  -- Computation of c8*v8 in r1
  let r1 := asr (mul32 554251 v8) 17
  -- Computation of r0+r1 in r0
  let r0 := asr r0 1
  let r1 := asr r1 1
  let r0 := add32 r0 r1
  -- The result is returned with a final right shift
  asr r0 4

/-- The function `C_int` of `ss3/code6.c`. -/
def C_int (v0 v1 v2 v3 v4 v5 v6 v7 v8 : Int) : Int :=
  toInt16 (C_int_root v0 v1 v2 v3 v4 v5 v6 v7 v8)

end ss3.code6

namespace ss5.code0

/-- The value of the expression `r0 >> 4` that `C_int` of `ss5/code0.c` hands to its
`return` statement, before the conversion to `int16_t`. -/
def C_int_root (v0 v1 v2 v3 v4 v5 v6 v7 v8 : Int) : Int :=
  -- Computation of c0*v0 in r0
  let r0 := asr (mul32 (-1858550) v0) 20
  -- Computation of c1*v1 in r1
  let r1 := asr (mul32 (-10675334) v1) 20
  -- Computation of r0+r1 in r0
  let r0 := add32 r0 r1
  -- Computation of c2*v2 in r1
  let r1 := asr (mul32 412199 v2) 17
  -- Computation of r0+r1 in r0
  let r0 := add32 r0 r1
  -- Computation of c3*v3 in r1
  let r1 := asr (mul32 (-3217837) v3) 19
  -- Computation of r0+r1 in r0
  let r0 := add32 r0 r1
  -- Computation of c4*v4 in r1
  let r1 := asr (mul32 2113528 v4) 18
  -- Computation of r0+r1 in r0
  let r0 := add32 r0 r1
  -- Computation of c5*v5 in r1
  let r1 := asr (mul32 8134823 v5) 19
  -- Computation of r0+r1 in r0
  let r0 := add32 r0 r1
  -- Computation of c6*v6 in r1
  let r1 := asr (mul32 (-1375448) v6) 19
  -- Computation of r0+r1 in r0
  let r0 := asr r0 1
  let r1 := asr r1 1
  let r0 := add32 r0 r1
  -- Computation of c7*v7 in r1
  let r1 := asr (mul32 8051114 v7) 19
  -- Computation of r0+r1 in r0
  let r0 := add32 r0 r1
  -- Computation of c8*v8 in r1
  let r1 := asr (mul32 (-1789923) v8) 17
  -- Computation of r0+r1 in r0
  let r0 := add32 r0 r1
  -- The result is returned with a final right shift
  asr r0 4

/-- The function `C_int` of `ss5/code0.c`. -/
def C_int (v0 v1 v2 v3 v4 v5 v6 v7 v8 : Int) : Int :=
  toInt16 (C_int_root v0 v1 v2 v3 v4 v5 v6 v7 v8)

end ss5.code0

/-! ## `ss6/bis/log/code3.c` without its modulo lines -/

namespace ss6.bis.log.code3

/-- The body of `C_int` of `ss6/bis/log/code3.c` with its seven modulo lines
deleted. -/
def C_int_root_noMod (v0 v1 v2 v3 v4 v5 v6 v7 v8 : Int) : Int :=
  -- Computation of c6*v6 in r0
  let r0 := mul32 25671 v6
  -- Computation of c8*v8 in r1
  let r1 := mul32 (-19180) v8
  -- Computation of r0+r1 in r0
  let r0 := add32 r0 r1
  -- Computation of c4*v4 in r1
  let r1 := mul32 (-23970) v4
  -- Computation of r0+r1 in r0
  let r0 := add32 r0 r1
  -- Computation of c1*v1 in r1
  let r1 := mul32 31100 v1
  -- Computation of r0+r1 in r0
  let r0 := add32 r0 r1
  -- Computation of c5*v5 in r1
  let r1 := mul32 31947 v5
  -- Computation of c7*v7 in r2
  let r2 := mul32 18094 v7
  -- Computation of r1+r2 in r1
  let r1 := add32 r1 r2
  -- Computation of c3*v3 in r2
  let r2 := mul32 23774 v3
  -- Computation of r1+r2 in r1
  let r1 := add32 r1 r2
  -- Computation of c2*v2 in r2
  let r2 := mul32 16973 v2
  -- Computation of r1+r2 in r1
  let r1 := add32 r1 r2
  -- Computation of c0*v0 in r2
  let r2 := mul32 21117 v0
  -- Computation of r1+r2 in r1
  let r1 := add32 r1 r2
  -- Computation of r0+r1 in r0
  let r0 := add32 r0 r1
  -- The result is returned with a final right shift
  asr r0 16

end ss6.bis.log.code3

/-! ## Taps and their quantized multipliers -/

/-- One tap of a generated stage, as it appears in the three renderings: the index
`var` of its input variable, the coefficient literal `coeff` of `SoP_float`, the
integer constant `mant` that multiplies the input in the integer function, the
right shift `shift` written next to that product (`0` when there is none), and the
format `ac_fixed<cW,cI,true,AC_TRN>` declared for the constant in `SoP_ac_fixed`. -/
structure Tap where
  var : Nat
  coeff : ℚ
  mant : Int
  shift : Nat
  cW : Nat
  cI : Int

/-- Number of fractional bits `W - I` of the declared constant format of a tap. -/
def Tap.fracBits (t : Tap) : Int := (t.cW : Int) - t.cI

/-- The partial product `mant*v >> shift` of a tap in the integer function. -/
def Tap.leafProduct (t : Tap) (v : Int) : Int := asr (mul32 t.mant v) t.shift

/-- The taps of `rhoDFIIt/code13.c`, in the order of their products in the integer function. -/
def taps_rhoDFIIt_code13 : List Tap :=
  [⟨1, 0.795928955078125, 52162, 18, 17, 1⟩,
   ⟨2, 0.023296356201171875, 6107, 16, 14, (-4)⟩,
   ⟨0, 0.12245845794677734375, 256814, 20, 19, (-2)⟩,
   ⟨3, 1, 16384, 13, 16, 2⟩]

/-- The taps of `rhoDFIIt/bis/code3.c`, in the order of their products in the integer function. -/
def taps_rhoDFIIt_bis_code3 : List Tap :=
  [⟨0, 0.88358306884765625, 231626, 18, 19, 1⟩]

/-- The taps of `rhoDFIIt/bis/code6.c`, in the order of their products in the integer function. -/
def taps_rhoDFIIt_bis_code6 : List Tap :=
  [⟨0, 0.7612762451171875, 99782, 17, 18, 1⟩]

/-- The taps of `LGS/bis/code28.c`, in the order of their products in the integer function. -/
def taps_LGS_bis_code28 : List Tap :=
  [⟨0, 2.8862152099609375, 378302, 5, 20, 3⟩,
   ⟨1, 4.209686279296875, 275886, 5, 20, 4⟩]

/-- The taps of `LGS/bis/code30.c`, in the order of their products in the integer function. -/
def taps_LGS_bis_code30 : List Tap :=
  [⟨0, 0.0156008899211883544921875, 1046958, 25, 21, (-5)⟩,
   ⟨1, 1, 1024, 6, 12, 2⟩]

/-- The taps of `LGS/bis/code37.c`, in the order of their products in the integer function. -/
def taps_LGS_bis_code37 : List Tap :=
  [⟨5, (-0.7138824462890625), (-46785), 18, 17, 1⟩,
   ⟨6, (-0.59698486328125), (-39124), 17, 17, 1⟩,
   ⟨0, (-0.61952972412109375), (-81203), 21, 18, 1⟩,
   ⟨3, 0.38153076171875, 25004, 18, 16, 0⟩,
   ⟨8, (-0.94012451171875), (-15403), 13, 15, 1⟩,
   ⟨4, (-0.209686279296875), (-13742), 18, 15, (-1)⟩,
   ⟨7, (-0.3147125244140625), (-20625), 17, 16, 0⟩,
   ⟨2, 0.3603668212890625, 23617, 18, 16, 0⟩,
   ⟨1, 0.3055572509765625, 20025, 18, 16, 0⟩]

/-- The taps of `ss3/code6.c`, in the order of their products in the integer function. -/
def taps_ss3_code6 : List Tap :=
  [⟨0, 0.253330707550048828125, 1062546, 17, 22, 0⟩,
   ⟨1, 0.0609569549560546875, 255672, 17, 19, (-3)⟩,
   ⟨2, 0.176759243011474609375, 370691, 14, 20, (-1)⟩,
   ⟨3, (-0.3001334667205810546875), (-2517702), 18, 23, 0⟩,
   ⟨4, 0.1632754802703857421875, 684827, 17, 21, (-1)⟩,
   ⟨5, 0.382720947265625, 3210496, 18, 23, 0⟩,
   ⟨6, 0.4687969684600830078125, 3932554, 19, 23, 0⟩,
   ⟨7, (-0.112518310546875), (-235968), 15, 19, (-2)⟩,
   ⟨8, 0.264287471771240234375, 554251, 17, 21, 0⟩]

/-- The taps of `ss5/code0.c`, in the order of their products in the integer function. -/
def taps_ss5_code0 : List Tap :=
  [⟨0, (-0.11077821254730224609375), (-1858550), 20, 22, (-2)⟩,
   ⟨1, (-0.318149745464324951171875), (-10675334), 20, 25, 0⟩,
   ⟨2, 0.024568974971771240234375, 412199, 17, 20, (-4)⟩,
   ⟨3, (-0.191798031330108642578125), (-3217837), 19, 23, (-1)⟩,
   ⟨4, 0.25195217132568359375, 2113528, 18, 23, 0⟩,
   ⟨5, 0.484873235225677490234375, 8134823, 19, 24, 0⟩,
   ⟨6, (-0.081983089447021484375), (-1375448), 19, 22, (-2)⟩,
   ⟨7, 0.239941895008087158203125, 8051114, 19, 24, (-1)⟩,
   ⟨8, (-0.21337544918060302734375), (-1789923), 17, 22, (-1)⟩]

/-- The taps of `ss5/bis/code8.c`, in the order of their products in the integer function. -/
def taps_ss5_bis_code8 : List Tap :=
  [⟨5, 6.98260498046875, 457612, 19, 20, 4⟩,
   ⟨6, 4.472015380859375, 146539, 17, 19, 4⟩,
   ⟨0, 9.55084228515625, 625924, 17, 21, 5⟩,
   ⟨3, 11.200286865234375, 367011, 17, 20, 5⟩,
   ⟨8, (-0.9401397705078125), (-61613), 15, 17, 1⟩,
   ⟨4, 2.360076904296875, 154670, 17, 19, 3⟩,
   ⟨7, 10.651458740234375, 349027, 17, 20, 5⟩,
   ⟨2, 2.76476287841796875, 362383, 18, 20, 3⟩,
   ⟨1, 10.5360565185546875, 690491, 18, 21, 5⟩]

/-- The taps of `ss6/bis/log/code3.c`, in the order of their products in the integer function. -/
def taps_ss6_bis_log_code3 : List Tap :=
  [⟨6, 0.3917083740234375, 25671, 0, 16, 0⟩,
   ⟨8, (-0.146331787109375), (-19180), 0, 16, (-1)⟩,
   ⟨4, (-0.045719146728515625), (-23970), 0, 16, (-3)⟩,
   ⟨1, 0.9490966796875, 31100, 0, 16, 1⟩,
   ⟨5, 0.4874725341796875, 31947, 0, 16, 0⟩,
   ⟨7, 1.1043701171875, 18094, 0, 16, 2⟩,
   ⟨3, 1.4510498046875, 23774, 0, 16, 2⟩,
   ⟨2, 0.517974853515625, 16973, 0, 16, 1⟩,
   ⟨0, 1.28887939453125, 21117, 0, 16, 2⟩]

/-- The taps of `code4.c`, in the order of their products in the integer function. -/
def taps_tags01_code4 : List Tap :=
  [⟨1, (-0.14199066162109375), (-18611), 0, 16, (-1)⟩,
   ⟨2, 0.0002717077732086181640625, 18234, 0, 16, (-10)⟩,
   ⟨0, 0.880828857421875, 28863, 0, 16, 1⟩]

/-- Every tap of every generated stage. -/
def allTaps : List Tap :=
  taps_rhoDFIIt_code13 ++ taps_rhoDFIIt_bis_code3 ++ taps_rhoDFIIt_bis_code6 ++ taps_LGS_bis_code28
    ++ taps_LGS_bis_code30 ++ taps_LGS_bis_code37 ++ taps_ss3_code6
    ++ taps_ss5_code0 ++ taps_ss5_bis_code8 ++ taps_ss6_bis_log_code3
    ++ taps_tags01_code4

/-! ## The coefficient quantizer -/

/-- Modelled from the spec: the mantissa obtained from the coefficient `c` at the
scale `2^s`, rounding to the nearest integer. -/
def mantissaAt (c : ℚ) (s : Int) : Int := round (c * 2 ^ s)

/-- Modelled from the spec: the mantissa `m` is within the budget of `b` bits when
`|m| < 2^(b-1)`. -/
def FitsBudget (b : Nat) (m : Int) : Prop := |m| < 2 ^ (b - 1)

instance (b : Nat) (m : Int) : Decidable (FitsBudget b m) := by
  unfold FitsBudget
  infer_instance

/-- Modelled from the spec: the CoefficientQuantizer, whose generator code is not
among the sources.  The coefficient is scaled by the largest power of two that
keeps `|m| < 2^(b-1)` and rounded to the nearest integer; the result is the pair
(mantissa, shift).  With `e = ⌊log2 |c|⌋` the largest such scale is `2^(b-2-e)`,
or one step below it when rounding at `2^(b-2-e)` reaches `2^(b-1)`. -/
def quantize (c : ℚ) (b : Nat) : Int × Int :=
  let s1 : Int := (b : Int) - 2 - Int.log 2 |c|
  if FitsBudget b (mantissaAt c s1) then (mantissaAt c s1, s1)
  else (mantissaAt c (s1 - 1), s1 - 1)

/-- A tap is well quantized when its integer constant is the coefficient scaled by
`2^(W - I)`, exactly, and uses the declared width `W` fully:
`2^(W-2) ≤ |mant| < 2^(W-1)`. -/
def Tap.WellQuantized (t : Tap) : Prop :=
  (t.mant : ℚ) = t.coeff * 2 ^ t.fracBits ∧ 2 ≤ t.cW
    ∧ 2 ^ (t.cW - 2) ≤ |t.mant| ∧ |t.mant| < 2 ^ (t.cW - 1)

instance (t : Tap) : Decidable t.WellQuantized := by
  unfold Tap.WellQuantized
  infer_instance

/-- The tap `c1` of `rhoDFIIt/code13.c`. -/
def tap_code13_c1 : Tap := ⟨1, 0.795928955078125, 52162, 18, 17, 1⟩

/-- The tap `c2` of `rhoDFIIt/code13.c`. -/
def tap_code13_c2 : Tap := ⟨2, 0.023296356201171875, 6107, 16, 14, (-4)⟩

/-- The tap `c0` of `rhoDFIIt/code13.c`. -/
def tap_code13_c0 : Tap := ⟨0, 0.12245845794677734375, 256814, 20, 19, (-2)⟩

/-- The tap `c3` (coefficient `1`) of `rhoDFIIt/code13.c`. -/
def tap_code13_c3 : Tap := ⟨3, 1, 16384, 13, 16, 2⟩

/-- The tap `c1` (coefficient `1`) of `LGS/bis/code30.c`. -/
def tap_code30_c1 : Tap := ⟨1, 1, 1024, 6, 12, 2⟩

namespace tags01.code4

/-- The expression written in the body of `SoP_float` of `code4.c`: the weighted sum of
the taps read with 11, 11 and 9 fractional bits (`pow(2,-11)`, `pow(2,-9)`).  In the
source this expression is neither assigned to `r` nor closed by a semicolon, so the
`return r*powf(2.f,-11);` that follows is not modelled. -/
def SoP_float_sum (x0 x1 x2 : ℚ) : ℚ :=
  ((-0.14199066162109375 * x1 * 2 ^ (-11 : Int)
      + 0.0002717077732086181640625 * x2 * 2 ^ (-9 : Int))
    + 0.880828857421875 * x0 * 2 ^ (-11 : Int))

/-- The reference value at the output scale: the sum of `SoP_float` rescaled to the
output format `ac_fixed<16,5,true>` (11 fractional bits). -/
def S_out (x0 x1 x2 : Int) : ℚ :=
  SoP_float_sum (x0 : ℚ) (x1 : ℚ) (x2 : ℚ) * 2 ^ 11

end tags01.code4

/-! ## The integer functions as statement lists -/

/-- One statement of the body of a generated integer function, over the registers
`r0, r1, ...` and the inputs `v0, v1, ...`. -/
inductive Stmt where
  /-- Statement `r<dst> = m*v<v> >> s;` (`s = 0`: no shift is written). -/
  | leaf (dst : Nat) (m : Int) (v : Nat) (s : Nat)
  /-- Statement `r<dst> = r<a> + r<b>;`. -/
  | add (dst a b : Nat)
  /-- Statement `r<dst> = (r<a> shifted by ka) + (r<b> shifted by kb);`: a positive count
  is a right shift, a negative one a left shift, `0` no shift. -/
  | addShifted (dst a : Nat) (ka : Int) (b : Nat) (kb : Int)
  /-- Statement `r<dst> = r<src> >> k;`. -/
  | shr (dst src : Nat) (k : Nat)
  /-- Statement `r<dst> = r<dst> % k;`. -/
  | rem (dst : Nat) (k : Int)
  deriving DecidableEq, Repr

/-- The body of a generated integer function, the register `rootReg` and the shift
`finalShift` of its `return r<rootReg> >> finalShift;` (`0`: no shift), and whether
the body holds the `return` statement at all. -/
structure Program where
  body : List Stmt
  rootReg : Nat
  finalShift : Nat
  returns : Bool
  deriving DecidableEq, Repr

/-- Register file after an assignment. -/
def setReg {α : Type} (regs : Nat → α) (d : Nat) (x : α) : Nat → α :=
  fun j => if j = d then x else regs j

/-- A register shifted by a signed count. -/
def shiftBy (r : Int) (k : Int) : Int :=
  if k = 0 then r else if 0 < k then asr r k.toNat else shl32 r (-k).toNat

/-- Effect of one statement on the 32-bit registers. -/
def Stmt.exec (inp : Nat → Int) (regs : Nat → Int) : Stmt → (Nat → Int)
  | Stmt.leaf d m v s =>
      setReg regs d (if s = 0 then mul32 m (inp v) else asr (mul32 m (inp v)) s)
  | Stmt.add d a b => setReg regs d (add32 (regs a) (regs b))
  | Stmt.addShifted d a ka b kb => setReg regs d (add32 (shiftBy (regs a) ka) (shiftBy (regs b) kb))
  | Stmt.shr d src k => setReg regs d (asr (regs src) k)
  | Stmt.rem d k => setReg regs d (mod32 (regs d) k)

/-- The value handed to `return`, before the conversion to `int16_t`. -/
def Program.rootValue (p : Program) (inp : Nat → Int) : Int :=
  let regs := p.body.foldl (fun regs st => st.exec inp regs) (fun _ => 0)
  if p.finalShift = 0 then regs p.rootReg else asr (regs p.rootReg) p.finalShift

/-- The order of the additions of leaf products: a leaf is the product of input
`v<v>`, a node the sum of two subtrees. -/
inductive AddTree where
  | leaf (v : Nat)
  | node (l r : AddTree)
  deriving DecidableEq, Repr

/-- Short form of `AddTree.leaf`. -/
@[reducible] def lf (v : Nat) : AddTree := AddTree.leaf v

/-- Short form of `AddTree.node`. -/
@[reducible] def nd (l r : AddTree) : AddTree := AddTree.node l r

/-- The leaves of a tree, left to right. -/
def AddTree.leaves : AddTree → List Nat
  | AddTree.leaf v => [v]
  | AddTree.node l r => l.leaves ++ r.leaves

/-- Effect of one statement on the addition trees held by the registers; shifts
and remainders keep the tree of their operand. -/
def Stmt.shape (regs : Nat → Option AddTree) : Stmt → (Nat → Option AddTree)
  | Stmt.leaf d _ v _ => setReg regs d (some (AddTree.leaf v))
  | Stmt.add d a b =>
      setReg regs d (match regs a, regs b with
        | some x, some y => some (AddTree.node x y)
        | _, _ => none)
  | Stmt.addShifted d a _ b _ =>
      setReg regs d (match regs a, regs b with
        | some x, some y => some (AddTree.node x y)
        | _, _ => none)
  | Stmt.shr d src _ => setReg regs d (regs src)
  | Stmt.rem _ _ => regs

/-- The addition tree computed into the root register. -/
def Program.addTree (p : Program) : Option AddTree :=
  (p.body.foldl (fun regs st => st.shape regs) (fun _ => none)) p.rootReg

/-- The input variables of the leaf products, in the order of the statements. -/
def Program.leafVars (p : Program) : List Nat :=
  p.body.filterMap (fun st => match st with
    | Stmt.leaf _ _ v _ => some v
    | _ => none)

/-- Modelled from the spec: one level of the AccumulationTreeBuilder, pairing the
nodes left to right; an odd node is carried up unpaired. -/
def pairUp : List AddTree → List AddTree
  | a :: b :: rest => AddTree.node a b :: pairUp rest
  | l => l

/-- Modelled from the spec: `n` levels of pairing, stopping when one root remains. -/
def reduceLevels : Nat → List AddTree → List AddTree
  | 0, l => l
  | n + 1, l =>
      match l with
      | [] => []
      | [a] => [a]
      | _ => reduceLevels n (pairUp l)

/-- Modelled from the spec: the AccumulationTreeBuilder (its generator code is not
among the sources): bottom-up pairwise reduction of the leaves, level by level,
until one root remains. -/
def pairwiseTree (leaves : List Nat) : Option AddTree :=
  (reduceLevels leaves.length (leaves.map AddTree.leaf)).head?

/-- The statements of `C_int` of `rhoDFIIt/code13.c`, ending with `return r0 >> 2;`. -/
def prog_rhoDFIIt_code13 : Program :=
  ⟨[Stmt.leaf 0 52162 1 18,
    Stmt.leaf 1 6107 2 16,
    Stmt.add 0 0 1,
    Stmt.leaf 1 256814 0 20,
    Stmt.leaf 2 16384 3 13,
    Stmt.add 1 1 2,
    Stmt.add 0 0 1],
   0, 2, true⟩

/-- The statements of `C_int` of `rhoDFIIt/bis/code3.c`; the `return r0;` of this file stands in a
comment. -/
def prog_rhoDFIIt_bis_code3 : Program :=
  ⟨[Stmt.leaf 0 231626 0 18],
   0, 0, false⟩

/-- The statements of `C_int` of `rhoDFIIt/bis/code6.c`; the `return r0;` of this file stands in a
comment. -/
def prog_rhoDFIIt_bis_code6 : Program :=
  ⟨[Stmt.leaf 0 99782 0 17],
   0, 0, false⟩

/-- The statements of `C_int` of `LGS/bis/code28.c`, ending with `return r0 >> 1;`. -/
def prog_LGS_bis_code28 : Program :=
  ⟨[Stmt.leaf 0 378302 0 5,
    Stmt.leaf 1 275886 1 5,
    Stmt.rem 0 262144,
    Stmt.add 0 0 1],
   0, 1, true⟩

/-- The statements of `C_int` of `LGS/bis/code30.c`, ending with `return r0 >> 1;`. -/
def prog_LGS_bis_code30 : Program :=
  ⟨[Stmt.leaf 0 1046958 0 25,
    Stmt.leaf 1 1024 1 6,
    Stmt.add 0 0 1],
   0, 1, true⟩

/-- The statements of `C_int` of `LGS/bis/code37.c`, ending with `return r0 >> 4;`. -/
def prog_LGS_bis_code37 : Program :=
  ⟨[Stmt.leaf 0 (-46785) 5 18,
    Stmt.leaf 1 (-39124) 6 17,
    Stmt.add 0 0 1,
    Stmt.leaf 1 (-81203) 0 21,
    Stmt.add 0 0 1,
    Stmt.leaf 1 25004 3 18,
    Stmt.leaf 2 (-15403) 8 13,
    Stmt.add 1 1 2,
    Stmt.shr 0 0 1,
    Stmt.shr 1 1 1,
    Stmt.add 0 0 1,
    Stmt.leaf 1 (-13742) 4 18,
    Stmt.leaf 2 (-20625) 7 17,
    Stmt.add 1 1 2,
    Stmt.leaf 2 23617 2 18,
    Stmt.add 1 1 2,
    Stmt.leaf 2 20025 1 18,
    Stmt.add 1 1 2,
    Stmt.shr 0 0 1,
    Stmt.shr 1 1 1,
    Stmt.add 0 0 1],
   0, 4, true⟩

/-- The statements of `C_int` of `ss3/code6.c`, ending with `return r0 >> 4;`. -/
def prog_ss3_code6 : Program :=
  ⟨[Stmt.leaf 0 1062546 0 17,
    Stmt.leaf 1 255672 1 17,
    Stmt.add 0 0 1,
    Stmt.leaf 1 370691 2 14,
    Stmt.add 0 0 1,
    Stmt.leaf 1 (-2517702) 3 18,
    Stmt.add 0 0 1,
    Stmt.leaf 1 684827 4 17,
    Stmt.add 0 0 1,
    Stmt.leaf 1 3210496 5 18,
    Stmt.add 0 0 1,
    Stmt.leaf 1 3932554 6 19,
    Stmt.add 0 0 1,
    Stmt.leaf 1 (-235968) 7 15,
    Stmt.add 0 0 1,
    Stmt.leaf 1 554251 8 17,
    Stmt.shr 0 0 1,
    Stmt.shr 1 1 1,
    Stmt.add 0 0 1],
   0, 4, true⟩

/-- The statements of `C_int` of `ss5/code0.c`, ending with `return r0 >> 4;`. -/
def prog_ss5_code0 : Program :=
  ⟨[Stmt.leaf 0 (-1858550) 0 20,
    Stmt.leaf 1 (-10675334) 1 20,
    Stmt.add 0 0 1,
    Stmt.leaf 1 412199 2 17,
    Stmt.add 0 0 1,
    Stmt.leaf 1 (-3217837) 3 19,
    Stmt.add 0 0 1,
    Stmt.leaf 1 2113528 4 18,
    Stmt.add 0 0 1,
    Stmt.leaf 1 8134823 5 19,
    Stmt.add 0 0 1,
    Stmt.leaf 1 (-1375448) 6 19,
    Stmt.shr 0 0 1,
    Stmt.shr 1 1 1,
    Stmt.add 0 0 1,
    Stmt.leaf 1 8051114 7 19,
    Stmt.add 0 0 1,
    Stmt.leaf 1 (-1789923) 8 17,
    Stmt.add 0 0 1],
   0, 4, true⟩

/-- The statements of `C_int` of `ss5/bis/code8.c`, ending with `return r0 >> 4;`. -/
def prog_ss5_bis_code8 : Program :=
  ⟨[Stmt.leaf 0 457612 5 19,
    Stmt.leaf 1 146539 6 17,
    Stmt.add 0 0 1,
    Stmt.leaf 1 625924 0 17,
    Stmt.add 0 0 1,
    Stmt.leaf 1 367011 3 17,
    Stmt.leaf 2 (-61613) 8 15,
    Stmt.add 1 1 2,
    Stmt.add 0 0 1,
    Stmt.leaf 1 154670 4 17,
    Stmt.leaf 2 349027 7 17,
    Stmt.add 1 1 2,
    Stmt.leaf 2 362383 2 18,
    Stmt.add 1 1 2,
    Stmt.leaf 2 690491 1 18,
    Stmt.rem 2 1048576,
    Stmt.add 1 1 2,
    Stmt.add 0 0 1],
   0, 4, true⟩

/-- The statements of `C_int` of `ss6/bis/log/code3.c`, ending with `return r0 >> 16;`. -/
def prog_ss6_bis_log_code3 : Program :=
  ⟨[Stmt.leaf 0 25671 6 0,
    Stmt.leaf 1 (-19180) 8 0,
    Stmt.add 0 0 1,
    Stmt.leaf 1 (-23970) 4 0,
    Stmt.rem 1 8589934592,
    Stmt.add 0 0 1,
    Stmt.leaf 1 31100 1 0,
    Stmt.rem 0 8589934592,
    Stmt.rem 1 2147483648,
    Stmt.add 0 0 1,
    Stmt.leaf 1 31947 5 0,
    Stmt.leaf 2 18094 7 0,
    Stmt.rem 2 1073741824,
    Stmt.add 1 1 2,
    Stmt.leaf 2 23774 3 0,
    Stmt.rem 2 1073741824,
    Stmt.add 1 1 2,
    Stmt.leaf 2 16973 2 0,
    Stmt.rem 2 1073741824,
    Stmt.add 1 1 2,
    Stmt.leaf 2 21117 0 0,
    Stmt.rem 2 1073741824,
    Stmt.add 1 1 2,
    Stmt.add 0 0 1],
   0, 16, true⟩

/-- The statements of `SoP_int` of `tags/0.1/Generated/Code/code4.c`, ending with
`r2= r1 >> 16 ; return r2;`. -/
def prog_tags01_code4 : Program :=
  ⟨[Stmt.leaf 0 (-18611) 1 0,
    Stmt.leaf 1 18234 2 0,
    Stmt.addShifted 2 0 0 1 7,
    Stmt.leaf 0 28863 0 0,
    Stmt.addShifted 1 2 1 0 (-1),
    Stmt.shr 2 1 16],
   2, 0, true⟩

/-- Inputs `v0, v1, ...` of a generated function. -/
def inputs (vs : List Int) : Nat → Int := fun i => vs.getD i 0


/-! ## The three renderings of every stage, term by term -/

/-- The terms `coefficient * v<k>` of the sum of `SoP_float` of `rhoDFIIt/code13.c`, in
the order they are written. -/
def floatTerms_rhoDFIIt_code13 : List (ℚ × Nat) :=
  [(0.795928955078125, 1), (0.023296356201171875, 2), (0.12245845794677734375, 0), (1, 3)]

/-- The products `c<k> * v<k>` of the commented-out `SoP_ac_fixed` of
`rhoDFIIt/code13.c`, in the order they are written, each with the literal of its
constant. -/
def acProducts_rhoDFIIt_code13 : List (ℚ × Nat) :=
  [(0.795928955078125, 1), (0.023296356201171875, 2), (0.12245845794677734375, 0), (1, 3)]

/-- The commented-out `SoP_ac_fixed` of `rhoDFIIt/code13.c` has no `ac_fixed` parameter list. -/
def acParams_rhoDFIIt_code13 : List Nat := []

/-- The terms `coefficient * v<k>` of the sum of `SoP_float` of `rhoDFIIt/bis/code3.c`,
in the order they are written. -/
def floatTerms_rhoDFIIt_bis_code3 : List (ℚ × Nat) :=
  [(0.88358306884765625, 0)]

/-- The products `c<k> * v<k>` of `SoP_ac_fixed` of `rhoDFIIt/bis/code3.c`, in the order they are
written, each with the literal of its constant. -/
def acProducts_rhoDFIIt_bis_code3 : List (ℚ × Nat) :=
  [(0.88358306884765625, 0)]

/-- The indices of the `ac_fixed` parameters of `SoP_ac_fixed` of
`rhoDFIIt/bis/code3.c`, in the order they are declared. -/
def acParams_rhoDFIIt_bis_code3 : List Nat := [0]

/-- The terms `coefficient * v<k>` of the sum of `SoP_float` of `rhoDFIIt/bis/code6.c`,
in the order they are written. -/
def floatTerms_rhoDFIIt_bis_code6 : List (ℚ × Nat) :=
  [(0.7612762451171875, 0)]

/-- The products `c<k> * v<k>` of `SoP_ac_fixed` of `rhoDFIIt/bis/code6.c`, in the order they are
written, each with the literal of its constant. -/
def acProducts_rhoDFIIt_bis_code6 : List (ℚ × Nat) :=
  [(0.7612762451171875, 0)]

/-- The indices of the `ac_fixed` parameters of `SoP_ac_fixed` of
`rhoDFIIt/bis/code6.c`, in the order they are declared. -/
def acParams_rhoDFIIt_bis_code6 : List Nat := [0]

/-- The terms `coefficient * v<k>` of the sum of `SoP_float` of `LGS/bis/code28.c`, in
the order they are written. -/
def floatTerms_LGS_bis_code28 : List (ℚ × Nat) :=
  [(2.8862152099609375, 0), (4.209686279296875, 1)]

/-- The products `c<k> * v<k>` of `SoP_ac_fixed` of `LGS/bis/code28.c`, in the order they are
written, each with the literal of its constant. -/
def acProducts_LGS_bis_code28 : List (ℚ × Nat) :=
  [(2.8862152099609375, 0), (4.209686279296875, 1)]

/-- The indices of the `ac_fixed` parameters of `SoP_ac_fixed` of `LGS/bis/code28.c`, in the order
they are declared. -/
def acParams_LGS_bis_code28 : List Nat := [0, 1]

/-- The terms `coefficient * v<k>` of the sum of `SoP_float` of `LGS/bis/code30.c`, in
the order they are written. -/
def floatTerms_LGS_bis_code30 : List (ℚ × Nat) :=
  [(0.0156008899211883544921875, 0), (1, 1)]

/-- The products `c<k> * v<k>` of `SoP_ac_fixed` of `LGS/bis/code30.c`, in the order they are
written, each with the literal of its constant. -/
def acProducts_LGS_bis_code30 : List (ℚ × Nat) :=
  [(0.0156008899211883544921875, 0), (1, 1)]

/-- The indices of the `ac_fixed` parameters of `SoP_ac_fixed` of `LGS/bis/code30.c`, in the order
they are declared. -/
def acParams_LGS_bis_code30 : List Nat := [0, 1]

/-- The terms `coefficient * v<k>` of the sum of `SoP_float` of `LGS/bis/code37.c`, in
the order they are written. -/
def floatTerms_LGS_bis_code37 : List (ℚ × Nat) :=
  [((-0.7138824462890625), 5), ((-0.59698486328125), 6), ((-0.61952972412109375), 0),
   (0.38153076171875, 3), ((-0.94012451171875), 8), ((-0.209686279296875), 4),
   ((-0.3147125244140625), 7), (0.3603668212890625, 2), (0.3055572509765625, 1)]

/-- The products `c<k> * v<k>` of `SoP_ac_fixed` of `LGS/bis/code37.c`, in the order they are
written, each with the literal of its constant. -/
def acProducts_LGS_bis_code37 : List (ℚ × Nat) :=
  [((-0.7138824462890625), 5), ((-0.59698486328125), 6), ((-0.61952972412109375), 0),
   (0.38153076171875, 3), ((-0.94012451171875), 8), ((-0.209686279296875), 4),
   ((-0.3147125244140625), 7), (0.3603668212890625, 2), (0.3055572509765625, 1)]

/-- The indices of the `ac_fixed` parameters of `SoP_ac_fixed` of `LGS/bis/code37.c`, in the order
they are declared. -/
def acParams_LGS_bis_code37 : List Nat := [5, 6, 0, 3, 8, 4, 7, 2, 1]

/-- The terms `coefficient * v<k>` of the sum of `SoP_float` of `ss3/code6.c`, in the order they
are written. -/
def floatTerms_ss3_code6 : List (ℚ × Nat) :=
  [(0.253330707550048828125, 0), (0.0609569549560546875, 1), (0.176759243011474609375, 2),
   ((-0.3001334667205810546875), 3), (0.1632754802703857421875, 4), (0.382720947265625, 5),
   (0.4687969684600830078125, 6), ((-0.112518310546875), 7), (0.264287471771240234375, 8)]

/-- The products `c<k> * v<k>` of `SoP_ac_fixed` of `ss3/code6.c`, in the order they are
written, each with the literal of its constant. -/
def acProducts_ss3_code6 : List (ℚ × Nat) :=
  [(0.253330707550048828125, 0), (0.0609569549560546875, 1), (0.176759243011474609375, 2),
   ((-0.3001334667205810546875), 3), (0.1632754802703857421875, 4), (0.382720947265625, 5),
   (0.4687969684600830078125, 6), ((-0.112518310546875), 7), (0.264287471771240234375, 8)]

/-- The indices of the `ac_fixed` parameters of `SoP_ac_fixed` of `ss3/code6.c`, in the order
they are declared. -/
def acParams_ss3_code6 : List Nat := [0, 1, 2, 3, 4, 5, 6, 7, 8]

/-- The terms `coefficient * v<k>` of the sum of `SoP_float` of `ss5/code0.c`, in the order they
are written. -/
def floatTerms_ss5_code0 : List (ℚ × Nat) :=
  [((-0.11077821254730224609375), 0), ((-0.318149745464324951171875), 1),
   (0.024568974971771240234375, 2), ((-0.191798031330108642578125), 3),
   (0.25195217132568359375, 4), (0.484873235225677490234375, 5),
   ((-0.081983089447021484375), 6), (0.239941895008087158203125, 7),
   ((-0.21337544918060302734375), 8)]

/-- The products `c<k> * v<k>` of `SoP_ac_fixed` of `ss5/code0.c`, in the order they are
written, each with the literal of its constant. -/
def acProducts_ss5_code0 : List (ℚ × Nat) :=
  [((-0.11077821254730224609375), 0), ((-0.318149745464324951171875), 1),
   (0.024568974971771240234375, 2), ((-0.191798031330108642578125), 3),
   (0.25195217132568359375, 4), (0.484873235225677490234375, 5),
   ((-0.081983089447021484375), 6), (0.239941895008087158203125, 7),
   ((-0.21337544918060302734375), 8)]

/-- The indices of the `ac_fixed` parameters of `SoP_ac_fixed` of `ss5/code0.c`, in the order
they are declared. -/
def acParams_ss5_code0 : List Nat := [0, 1, 2, 3, 4, 5, 6, 7, 8]

/-- The terms `coefficient * v<k>` of the sum of `SoP_float` of `ss5/bis/code8.c`, in the order they
are written. -/
def floatTerms_ss5_bis_code8 : List (ℚ × Nat) :=
  [(6.98260498046875, 5), (4.472015380859375, 6), (9.55084228515625, 0),
   (11.200286865234375, 3), ((-0.9401397705078125), 8), (2.360076904296875, 4),
   (10.651458740234375, 7), (2.76476287841796875, 2), (10.5360565185546875, 1)]

/-- The products `c<k> * v<k>` of `SoP_ac_fixed` of `ss5/bis/code8.c`, in the order they are
written, each with the literal of its constant. -/
def acProducts_ss5_bis_code8 : List (ℚ × Nat) :=
  [(6.98260498046875, 5), (4.472015380859375, 6), (9.55084228515625, 0),
   (11.200286865234375, 3), ((-0.9401397705078125), 8), (2.360076904296875, 4),
   (10.651458740234375, 7), (2.76476287841796875, 2), (10.5360565185546875, 1)]

/-- The indices of the `ac_fixed` parameters of `SoP_ac_fixed` of `ss5/bis/code8.c`, in the order
they are declared. -/
def acParams_ss5_bis_code8 : List Nat := [5, 6, 0, 3, 8, 4, 7, 2, 1]

/-- The terms `coefficient * v<k>` of the sum of `SoP_float` of `ss6/bis/log/code3.c`,
in the order they are written. -/
def floatTerms_ss6_bis_log_code3 : List (ℚ × Nat) :=
  [(0.3917083740234375, 6), ((-0.146331787109375), 8), ((-0.045719146728515625), 4),
   (0.9490966796875, 1), (0.4874725341796875, 5), (1.1043701171875, 7), (1.4510498046875, 3),
   (0.517974853515625, 2), (1.28887939453125, 0)]

/-- The products `c<k> * v<k>` of `SoP_ac_fixed` of `ss6/bis/log/code3.c`, in the order they are
written, each with the literal of its constant. -/
def acProducts_ss6_bis_log_code3 : List (ℚ × Nat) :=
  [(0.3917083740234375, 6), ((-0.146331787109375), 8), ((-0.045719146728515625), 4),
   (0.9490966796875, 1), (0.4874725341796875, 5), (1.1043701171875, 7), (1.4510498046875, 3),
   (0.517974853515625, 2), (1.28887939453125, 0)]

/-- The indices of the `ac_fixed` parameters of `SoP_ac_fixed` of `ss6/bis/log/code3.c`,
in the order they are declared. -/
def acParams_ss6_bis_log_code3 : List Nat := [6, 8, 4, 1, 5, 7, 3, 2, 0]

/-- The terms `coefficient * v<k>` of the sum of `SoP_float` of `code4.c`, in the order
they are written. -/
def floatTerms_tags01_code4 : List (ℚ × Nat) :=
  [((-0.14199066162109375), 1), (0.0002717077732086181640625, 2), (0.880828857421875, 0)]

/-- The products `c<k> * v<k>` of the commented-out `SoP_ac_fixed` of `code4.c`, in the
order they are written, each with the literal of its constant. -/
def acProducts_tags01_code4 : List (ℚ × Nat) :=
  [((-0.14199066162109375), 1), (0.0002717077732086181640625, 2), (0.880828857421875, 0)]

/-- The commented-out `SoP_ac_fixed` of `code4.c` has no `ac_fixed` parameter list. -/
def acParams_tags01_code4 : List Nat := []

/-- The leaf products `(variable, integer constant, shift)` of a generated integer
function, in the order of the statements. -/
def Program.leaves (p : Program) : List (Nat × Int × Nat) :=
  p.body.filterMap (fun st => match st with
    | Stmt.leaf _ m v s => some (v, m, s)
    | _ => none)

/-- A weighted sum given by its terms `(coefficient, variable)`. -/
def evalTerms (terms : List (ℚ × Nat)) (inp : Nat → ℚ) : ℚ :=
  (terms.map (fun t => t.1 * inp t.2)).sum

/-- Inputs `v0, v1, ...` of `SoP_float`. -/
def inputsQ (vs : List ℚ) : Nat → ℚ := fun i => vs.getD i 0

/-- One generated stage: its tap table, the terms of `SoP_float`, the products and
the parameters of `SoP_ac_fixed`, and the statements of the integer function. -/
structure Stage where
  taps : List Tap
  floatTerms : List (ℚ × Nat)
  acProducts : List (ℚ × Nat)
  acParams : List Nat
  prog : Program

/-- The stage of `rhoDFIIt_code13`. -/
def stage_rhoDFIIt_code13 : Stage :=
  ⟨taps_rhoDFIIt_code13, floatTerms_rhoDFIIt_code13,
   acProducts_rhoDFIIt_code13, acParams_rhoDFIIt_code13,
   prog_rhoDFIIt_code13⟩

/-- The stage of `rhoDFIIt_bis_code3`. -/
def stage_rhoDFIIt_bis_code3 : Stage :=
  ⟨taps_rhoDFIIt_bis_code3, floatTerms_rhoDFIIt_bis_code3,
   acProducts_rhoDFIIt_bis_code3, acParams_rhoDFIIt_bis_code3,
   prog_rhoDFIIt_bis_code3⟩

/-- The stage of `rhoDFIIt_bis_code6`. -/
def stage_rhoDFIIt_bis_code6 : Stage :=
  ⟨taps_rhoDFIIt_bis_code6, floatTerms_rhoDFIIt_bis_code6,
   acProducts_rhoDFIIt_bis_code6, acParams_rhoDFIIt_bis_code6,
   prog_rhoDFIIt_bis_code6⟩

/-- The stage of `LGS_bis_code28`. -/
def stage_LGS_bis_code28 : Stage :=
  ⟨taps_LGS_bis_code28, floatTerms_LGS_bis_code28,
   acProducts_LGS_bis_code28, acParams_LGS_bis_code28,
   prog_LGS_bis_code28⟩

/-- The stage of `LGS_bis_code30`. -/
def stage_LGS_bis_code30 : Stage :=
  ⟨taps_LGS_bis_code30, floatTerms_LGS_bis_code30,
   acProducts_LGS_bis_code30, acParams_LGS_bis_code30,
   prog_LGS_bis_code30⟩

/-- The stage of `LGS_bis_code37`. -/
def stage_LGS_bis_code37 : Stage :=
  ⟨taps_LGS_bis_code37, floatTerms_LGS_bis_code37,
   acProducts_LGS_bis_code37, acParams_LGS_bis_code37,
   prog_LGS_bis_code37⟩

/-- The stage of `ss3_code6`. -/
def stage_ss3_code6 : Stage :=
  ⟨taps_ss3_code6, floatTerms_ss3_code6,
   acProducts_ss3_code6, acParams_ss3_code6,
   prog_ss3_code6⟩

/-- The stage of `ss5_code0`. -/
def stage_ss5_code0 : Stage :=
  ⟨taps_ss5_code0, floatTerms_ss5_code0,
   acProducts_ss5_code0, acParams_ss5_code0,
   prog_ss5_code0⟩

/-- The stage of `ss5_bis_code8`. -/
def stage_ss5_bis_code8 : Stage :=
  ⟨taps_ss5_bis_code8, floatTerms_ss5_bis_code8,
   acProducts_ss5_bis_code8, acParams_ss5_bis_code8,
   prog_ss5_bis_code8⟩

/-- The stage of `ss6_bis_log_code3`. -/
def stage_ss6_bis_log_code3 : Stage :=
  ⟨taps_ss6_bis_log_code3, floatTerms_ss6_bis_log_code3,
   acProducts_ss6_bis_log_code3, acParams_ss6_bis_log_code3,
   prog_ss6_bis_log_code3⟩

/-- The stage of `tags01_code4`. -/
def stage_tags01_code4 : Stage :=
  ⟨taps_tags01_code4, floatTerms_tags01_code4,
   acProducts_tags01_code4, acParams_tags01_code4,
   prog_tags01_code4⟩

/-- Every generated stage. -/
def allStages : List Stage :=
  [stage_rhoDFIIt_code13,
   stage_rhoDFIIt_bis_code3,
   stage_rhoDFIIt_bis_code6,
   stage_LGS_bis_code28,
   stage_LGS_bis_code30,
   stage_LGS_bis_code37,
   stage_ss3_code6,
   stage_ss5_code0,
   stage_ss5_bis_code8,
   stage_ss6_bis_log_code3,
   stage_tags01_code4]

/-- The input variables of the taps of a stage, in the order of the leaves of the
integer function. -/
def Stage.leafOrder (st : Stage) : List Nat := st.taps.map Tap.var

/-! ## `fipogen2/LTI/WCPG_wrapper/_pyWCPG.c` -/

/-- The arguments of `WCPG_pyWCPG` once `PyArg_ParseTuple(args, "OOOOOiii", ...)` has
succeeded: the five array objects after `PyArray_FROM_OTF` (`none` when the
conversion returned `NULL`) and the three cardinalities. -/
structure WcpgArgs where
  W_loc : Option (List ℚ)
  A_loc : Option (List ℚ)
  B_loc : Option (List ℚ)
  C_loc : Option (List ℚ)
  D_loc : Option (List ℚ)
  n : Int
  p : Int
  q : Int

/-- What a call of `WCPG_pyWCPG` hands back: `NULL`, no return at all
(`exit(EXIT_FAILURE)`), a Python integer, or a two-dimensional array object with
its dimensions and data. -/
inductive PyResult where
  | null : PyResult
  | exitFailure : PyResult
  | int (v : Int) : PyResult
  | array (dim0 dim1 : Int) (data : List ℚ) : PyResult
  deriving DecidableEq, Repr

/-- The external routine `WCPG_ABCD(W, A, B, C, D, n, p, q)`, taken as an oracle: it
returns its `int` status and the content it leaves in the buffer `W`. -/
abbrev WcpgOracle := List ℚ → List ℚ → List ℚ → List ℚ → Int → Int → Int → Int × List ℚ

/-- The function `WCPG_pyWCPG` of `_pyWCPG.c`.  `parsed` is `none` when
`PyArg_ParseTuple` fails; `handle` and `symbol` tell whether `dlopen` and `dlsym`
succeeded.  The call `(*WCPG_ABCD)(W, A, B, C, D, loc_n, loc_p, loc_q) ;` is an
expression statement: the status it returns is not stored.  The result `Wobj` is
the array of dimensions `q, p` built over the local buffer `W`. -/
def WCPG_pyWCPG (parsed : Option WcpgArgs) (handle symbol : Bool) (WCPG_ABCD : WcpgOracle) :
    PyResult :=
  match parsed with
  | none => PyResult.null
  | some a =>
    match a.W_loc, a.A_loc, a.B_loc, a.C_loc, a.D_loc with
    | some _, some A, some B, some C, some D =>
      if !handle then PyResult.exitFailure
      else if !symbol then PyResult.exitFailure
      else
        let W := (WCPG_ABCD A B C D a.n a.p a.q).2
        PyResult.array a.q a.p W
    | _, _, _, _, _ => PyResult.null

/-- The read `buf[idx]` of a buffer of `double`: `none` when `idx` lies outside the
buffer. -/
def readBuf (buf : List ℚ) (idx : Int) : Option ℚ :=
  if idx < 0 then none else buf[idx.toNat]?

/-- The `int` index `k + j`, with `k = stride*i`, formed by the loops of `WCPG_pyWCPG`. -/
def loopIndex (stride i j : Int) : Int := add32 (mul32 stride i) j

/-- The loop nest shared by the reshape loop and the print loops of `WCPG_pyWCPG`:
`for (i=0; i<rows; i++) { k = stride*i; for (j=0; j<cols; j++) ... buf[k+j] ... }`,
as the values read, row by row. -/
def readRows (buf : List ℚ) (rows cols stride : Int) : List (List (Option ℚ)) :=
  (List.range rows.toNat).map (fun i =>
    (List.range cols.toNat).map (fun j => readBuf buf (loopIndex stride i j)))

/-- The array `tmp_tab[q][p]` after the reshape loop (lines 155-164):
`for (i=0 ; i<q ; i++) { k = q*i ; for (j=0 ; j<p ; j++) tmp_tab[i][j] = W[k+j]; }`,
where `W` is the local buffer `double W[q*p]`.  The array is not used afterwards:
the result `Wobj` is built over `W` itself. -/
def tmp_tab (W : List ℚ) (q p : Int) : List (List (Option ℚ)) := readRows W q p q

/-- The values printed under `A = ` (lines 192-206): `k = n*i`, `A[k+j]` for `j < n`. -/
def printed_A (A : List ℚ) (n : Int) : List (List (Option ℚ)) := readRows A n n n

/-- The values printed under `B = ` (lines 210-224): `i < n`, `k = n*i`, `B[k+j]` for
`j < p`. -/
def printed_B (B : List ℚ) (n p : Int) : List (List (Option ℚ)) := readRows B n p n

/-- The values printed under `C = ` (lines 228-242): `i < q`, `k = q*i`, `C[k+j]` for
`j < n`. -/
def printed_C (C : List ℚ) (n q : Int) : List (List (Option ℚ)) := readRows C q n q

/-- The values printed under `D = ` (lines 246-260): `i < q`, `k = q*i`, `D[k+j]` for
`j < p`. -/
def printed_D (D : List ℚ) (q p : Int) : List (List (Option ℚ)) := readRows D q p q

/-- The values printed under `W = ` (lines 264-278): `i < q`, `k = q*i`, `W[k+j]` for
`j < p`. -/
def printed_W (W : List ℚ) (q p : Int) : List (List (Option ℚ)) := readRows W q p q

/-- Stated from the claim: the row-major `q`-by-`p` matrix held in a buffer, whose
element at row `i`, column `j` is `buf[p*i + j]`. -/
def rowMajor (buf : List ℚ) (q p : Int) : List (List (Option ℚ)) :=
  (List.range q.toNat).map (fun i =>
    (List.range p.toNat).map (fun j => readBuf buf (p * i + j)))

/-! ## Basic facts on the machine operations -/

theorem asr_eq (x : Int) (k : Nat) : asr x k = x / 2 ^ k := by
  unfold asr
  rw [Int.shiftRight_eq_div_pow]
  norm_cast

theorem asr_spec (x : Int) (k : Nat) :
    2 ^ k * asr x k ≤ x ∧ x < 2 ^ k * (asr x k + 1) := by
  rw [asr_eq]
  have hp : (0 : Int) < 2 ^ k := by positivity
  constructor
  · have := Int.ediv_mul_le x (ne_of_gt hp)
    linarith
  · have := Int.lt_ediv_add_one_mul_self x hp
    linarith

theorem wrap32_id (x : Int) (h : -2147483648 ≤ x ∧ x ≤ 2147483647) : wrapSigned 32 x = x := by
  unfold wrapSigned
  norm_num
  omega

theorem mul32_id (a b : Int) (h : -2147483648 ≤ a * b ∧ a * b ≤ 2147483647) :
    mul32 a b = a * b :=
  wrap32_id _ h

theorem add32_id (a b : Int) (h : -2147483648 ≤ a + b ∧ a + b ≤ 2147483647) :
    add32 a b = a + b :=
  wrap32_id _ h

theorem toInt16_id (a : Int) (h : -32768 ≤ a ∧ a ≤ 32767) : toInt16 a = a := by
  unfold toInt16 wrapSigned
  norm_num
  omega

theorem acConst_zero (q : QMode) (W : Nat) (I : Int) :
    acConst q W I 0 = ⟨wrapSigned W 0, (W : Int) - I⟩ := by
  cases q <;> simp [acConst, truncRat]

theorem truncRat_intCast (q : QMode) (m : Int) : truncRat q (m : ℚ) = m := by
  cases q <;> simp [truncRat]

theorem acConst_exact (q : QMode) (W : Nat) (I : Int) (c : ℚ) (m : Int)
    (h : c * 2 ^ ((W : Int) - I) = (m : ℚ)) (hm : wrapSigned W m = m) :
    acConst q W I c = ⟨m, (W : Int) - I⟩ := by
  unfold acConst
  rw [h, truncRat_intCast, hm]

theorem tdiv_pow_cases (x : Int) (k : Nat) :
    (0 ≤ x → Int.tdiv x (2 ^ k) = x / 2 ^ k) ∧ (x < 0 → Int.tdiv x (2 ^ k) = -((-x) / 2 ^ k)) := by
  have hp : (0 : Int) ≤ 2 ^ k := by positivity
  constructor
  · intro hx
    exact Int.tdiv_eq_ediv hx hp
  · intro hx
    have h := Int.tdiv_eq_ediv (a := -x) (b := 2 ^ k) (by omega) hp
    rw [Int.neg_tdiv] at h
    omega

theorem wrapSigned_id (w : Nat) (x : Int) (hw : 0 < w)
    (h : -2 ^ (w - 1) ≤ x ∧ x < 2 ^ (w - 1)) : wrapSigned w x = x := by
  unfold wrapSigned
  have h2 : (2 : Int) ^ w = 2 * 2 ^ (w - 1) := by
    obtain ⟨n, rfl⟩ : ∃ n, w = n + 1 := ⟨w - 1, by omega⟩
    simp [pow_succ, mul_comm]
  rw [Int.emod_eq_of_lt (by omega) (by omega)]
  omega

theorem dropBits_negInf_spec (x : Int) (k : Nat) :
    2 ^ k * dropBits QMode.towardNegInf x k ≤ x
      ∧ x < 2 ^ k * (dropBits QMode.towardNegInf x k + 1) :=
  asr_spec x k

theorem dropBits_zero_spec (x : Int) (k : Nat) :
    (0 ≤ x → 2 ^ k * dropBits QMode.towardZero x k ≤ x
        ∧ x < 2 ^ k * (dropBits QMode.towardZero x k + 1))
      ∧ (x < 0 → 2 ^ k * (dropBits QMode.towardZero x k - 1) < x
        ∧ x ≤ 2 ^ k * dropBits QMode.towardZero x k) := by
  obtain ⟨hpos, hneg⟩ := tdiv_pow_cases x k
  have hp : (0 : Int) < 2 ^ k := by positivity
  simp only [dropBits]
  constructor
  · intro hx
    rw [hpos hx, ← asr_eq]
    exact asr_spec x k
  · intro hx
    rw [hneg hx, ← asr_eq]
    obtain ⟨a, b⟩ := asr_spec (-x) k
    constructor <;> nlinarith

theorem wrap32_range (x : Int) : InInt32 (wrapSigned 32 x) := by
  unfold InInt32 wrapSigned
  norm_num
  omega

theorem tmod_id_of_abs_lt (r k : Int) (h : |r| < k) : Int.tmod r k = r := by
  rcases le_or_lt 0 r with hr | hr
  · exact Int.tmod_eq_of_lt hr (by rw [abs_of_nonneg hr] at h; exact h)
  · have h1 : Int.tmod (-r) k = -r :=
      Int.tmod_eq_of_lt (by omega) (by rw [abs_of_neg hr] at h; exact h)
    have h2 : Int.tmod (-r) k = -Int.tmod r k := by
      rw [Int.tmod_def, Int.tmod_def, Int.neg_tdiv]
      ring
    omega

theorem mod32_id (r k : Int) (hr : InInt32 r) (h : |r| < k) : mod32 r k = r := by
  unfold mod32
  rw [tmod_id_of_abs_lt r k h]
  exact wrap32_id r hr

theorem asr_wrap32_range (x : Int) (k : Nat) (hk : k ≤ 31) :
    -2 ^ (31 - k) ≤ asr (wrapSigned 32 x) k ∧ asr (wrapSigned 32 x) k < 2 ^ (31 - k) := by
  obtain ⟨h1, h2⟩ := wrap32_range x
  obtain ⟨a, b⟩ := asr_spec (wrapSigned 32 x) k
  generalize asr (wrapSigned 32 x) k = q at *
  generalize wrapSigned 32 x = y at *
  have hp : (2 : Int) ^ 31 = 2 ^ k * 2 ^ (31 - k) := by
    rw [← pow_add]
    congr 1
    omega
  have hk0 : (0 : Int) < 2 ^ k := by positivity
  norm_num at hp
  constructor
  · by_contra hc
    push_neg at hc
    have : q + 1 ≤ -2 ^ (31 - k) := by omega
    have := mul_le_mul_of_nonneg_left this hk0.le
    nlinarith
  · by_contra hc
    push_neg at hc
    have := mul_le_mul_of_nonneg_left hc hk0.le
    nlinarith

theorem wrap32_add_left (a b : Int) : wrapSigned 32 (wrapSigned 32 a + b) = wrapSigned 32 (a + b) := by
  unfold wrapSigned
  norm_num
  omega

theorem wrap32_add_right (a b : Int) :
    wrapSigned 32 (a + wrapSigned 32 b) = wrapSigned 32 (a + b) := by
  unfold wrapSigned
  norm_num
  omega

/-! ## `rhoDFIIt/code13.c`: error bound and concrete scenario -/

namespace rhoDFIIt.code13

/-- The reference value is the weighted sum stated with the rescaled coefficients. -/
theorem S_out_eq (v0 v1 v2 v3 : Int) :
    S_out v0 v1 v2 v3 =
      0.795928955078125 * (v1 : ℚ) / 16 + 0.023296356201171875 * (v2 : ℚ)
        + 0.12245845794677734375 * (v0 : ℚ) / 2 + 1 * (v3 : ℚ) / 2 := by
  unfold S_out SoP_float
  ring

theorem S_out_scaled (v0 v1 v2 v3 : Int) :
    S_out v0 v1 v2 v3 =
      ((208648 * v1 + 97712 * v2 + 256814 * v0 + 2097152 * v3 : Int) : ℚ) / 4194304 := by
  unfold S_out SoP_float
  push_cast
  ring

/-- Without overflow of `256814*v0`, every 32-bit operation of `C_int` is exact. -/
theorem C_int_root_exact (v0 v1 v2 v3 : Int) (h0 : InInt16 v0) (h1 : InInt16 v1)
    (h2 : InInt16 v2) (h3 : InInt16 v3) (hov : InInt32 (256814 * v0)) :
    C_int_root v0 v1 v2 v3 =
      ((52162 * v1 / 2 ^ 18 + 6107 * v2 / 2 ^ 16)
        + (256814 * v0 / 2 ^ 20 + 16384 * v3 / 2 ^ 13)) / 2 ^ 2 := by
  unfold InInt16 InInt32 at *
  simp only [C_int_root]
  rw [mul32_id 52162 v1 (by omega), mul32_id 6107 v2 (by omega), mul32_id 256814 v0 (by omega),
    mul32_id 16384 v3 (by omega)]
  simp only [← asr_eq]
  obtain ⟨a1, b1⟩ := asr_spec (52162 * v1) 18
  obtain ⟨a2, b2⟩ := asr_spec (6107 * v2) 16
  obtain ⟨a0, b0⟩ := asr_spec (256814 * v0) 20
  obtain ⟨a3, b3⟩ := asr_spec (16384 * v3) 13
  generalize asr (52162 * v1) 18 = p1 at *
  generalize asr (6107 * v2) 16 = p2 at *
  generalize asr (256814 * v0) 20 = p0 at *
  generalize asr (16384 * v3) 13 = p3 at *
  norm_num at a1 b1 a2 b2 a0 b0 a3 b3
  rw [add32_id p1 p2 (by omega), add32_id p0 p3 (by omega), add32_id _ _ (by omega)]

/-- Integer form of the error bound of `C_int_root`, scaled by `2^22`. -/
theorem C_int_root_bound (v0 v1 v2 v3 : Int) (h0 : InInt16 v0) (h1 : InInt16 v1)
    (h2 : InInt16 v2) (h3 : InInt16 v3) (hov : InInt32 (256814 * v0)) :
    (4194304 * C_int_root v0 v1 v2 v3 ≤ 208648 * v1 + 97712 * v2 + 256814 * v0 + 2097152 * v3
      ∧ 208648 * v1 + 97712 * v2 + 256814 * v0 + 2097152 * v3
          < 4194304 * (C_int_root v0 v1 v2 v3 + 2))
      ∧ InInt16 (C_int_root v0 v1 v2 v3) := by
  rw [C_int_root_exact v0 v1 v2 v3 h0 h1 h2 h3 hov]
  unfold InInt16 InInt32 at *
  simp only [← asr_eq]
  obtain ⟨a1, b1⟩ := asr_spec (52162 * v1) 18
  obtain ⟨a2, b2⟩ := asr_spec (6107 * v2) 16
  obtain ⟨a0, b0⟩ := asr_spec (256814 * v0) 20
  obtain ⟨a3, b3⟩ := asr_spec (16384 * v3) 13
  generalize asr (52162 * v1) 18 = p1 at *
  generalize asr (6107 * v2) 16 = p2 at *
  generalize asr (256814 * v0) 20 = p0 at *
  generalize asr (16384 * v3) 13 = p3 at *
  obtain ⟨a4, b4⟩ := asr_spec (p1 + p2 + (p0 + p3)) 2
  generalize asr (p1 + p2 + (p0 + p3)) 2 = q at *
  norm_num at a1 b1 a2 b2 a0 b0 a3 b3 a4 b4
  refine ⟨⟨?_, ?_⟩, ?_, ?_⟩ <;> omega

/-- The tap table of `rhoDFIIt/code13.c` lists the constants of `C_int` and
`SoP_float` in the order of the leaves of `C_int`. -/
theorem code13_from_taps :
    ∃ t1 t2 t0 t3 : Tap, taps_rhoDFIIt_code13 = [t1, t2, t0, t3]
      ∧ (∀ v0 v1 v2 v3 : Int, C_int_root v0 v1 v2 v3 =
          asr (add32 (add32 (t1.leafProduct v1) (t2.leafProduct v2))
            (add32 (t0.leafProduct v0) (t3.leafProduct v3))) 2)
      ∧ (∀ v0 v1 v2 v3 : ℚ, SoP_float v0 v1 v2 v3 =
          t1.coeff * v1 + t2.coeff * v2 + t0.coeff * v0 + t3.coeff * v3) :=
  ⟨_, _, _, _, rfl, fun _ _ _ _ => rfl, fun _ _ _ _ => rfl⟩

/-- C1, refuted at `(v0,v1,v2,v3) = (32767,0,0,0)`: the input is 16-bit and inside the
20-bit format declared for `v0`, the reference value `S` (about `2006.3`) fits the
output, but the product `256814*v0` leaves the `int32_t` register and `C_int` returns
`-42`.  The sign already flips at `v0 = 8363`, the first value whose product
overflows: `C_int` returns `-512` where `S` is about `512.06`, against `511` at
`v0 = 8362`. -/
theorem C1_product_overflow :
    (InInt16 32767 ∧ InInt16 0 ∧ (-2 ^ 19 ≤ (32767 : Int) ∧ (32767 : Int) < 2 ^ 19)
        ∧ ¬ InInt32 (256814 * 32767)
        ∧ C_int 32767 0 0 0 = -42
        ∧ S_out 32767 0 0 0 = 4207512169 / 2097152
        ∧ (2006 ≤ S_out 32767 0 0 0 ∧ S_out 32767 0 0 0 < 2007) ∧ InInt16 2006
        ∧ ¬ (|((C_int 32767 0 0 0 : Int) : ℚ) - S_out 32767 0 0 0| < 2))
      ∧ (InInt16 8363 ∧ ¬ InInt32 (256814 * 8363)
        ∧ C_int 8363 0 0 0 = -512
        ∧ S_out 8363 0 0 0 = 1073867741 / 2097152
        ∧ ¬ (|((C_int 8363 0 0 0 : Int) : ℚ) - S_out 8363 0 0 0| < 2))
      ∧ (InInt32 (256814 * 8362) ∧ C_int 8362 0 0 0 = 511
        ∧ S_out 8362 0 0 0 = 536869667 / 1048576) := by
  have hc : C_int 32767 0 0 0 = -42 := by decide
  have hs : S_out 32767 0 0 0 = 4207512169 / 2097152 := by
    rw [S_out_scaled]
    norm_num
  have hc' : C_int 8363 0 0 0 = -512 := by decide
  have hs' : S_out 8363 0 0 0 = 1073867741 / 2097152 := by
    rw [S_out_scaled]
    norm_num
  have hs'' : S_out 8362 0 0 0 = 536869667 / 1048576 := by
    rw [S_out_scaled]
    norm_num
  refine ⟨⟨by decide, by decide, by decide, by decide, hc, hs, ?_, by decide, ?_⟩,
    ⟨by decide, by decide, hc', hs', ?_⟩, by decide, by decide, hs''⟩
  · rw [hs]
    constructor <;> norm_num
  · rw [hc, hs]
    norm_num [abs_lt]
  · rw [hc', hs']
    norm_num [abs_lt]

/-- On every 16-bit input `(v0,v1,v2,v3)` on which the product `256814*v0` fits the
32-bit register (`-8362 <= v0 <= 8362`), `C_int` differs by less than 2 units from
`S = 0.795928955078125*v1/16 + 0.023296356201171875*v2 + 0.12245845794677734375*v0/2
+ 1*v3/2` (the `SoP_float` sum of the taps rescaled from their input formats to
the output format), and `C_int` never exceeds `S`. -/
theorem code13_error_bound_no_overflow (v0 v1 v2 v3 : Int) (h0 : InInt16 v0) (h1 : InInt16 v1)
    (h2 : InInt16 v2) (h3 : InInt16 v3) (hov : InInt32 (256814 * v0)) :
    |((C_int v0 v1 v2 v3 : Int) : ℚ) - S_out v0 v1 v2 v3| < 2
      ∧ ((C_int v0 v1 v2 v3 : Int) : ℚ) ≤ S_out v0 v1 v2 v3
      ∧ S_out v0 v1 v2 v3 =
          0.795928955078125 * (v1 : ℚ) / 16 + 0.023296356201171875 * (v2 : ℚ)
            + 0.12245845794677734375 * (v0 : ℚ) / 2 + 1 * (v3 : ℚ) / 2 := by
  obtain ⟨⟨hlo, hhi⟩, hr⟩ := C_int_root_bound v0 v1 v2 v3 h0 h1 h2 h3 hov
  have hC : C_int v0 v1 v2 v3 = C_int_root v0 v1 v2 v3 := toInt16_id _ hr
  have hlo' : ((4194304 * C_int_root v0 v1 v2 v3 : Int) : ℚ)
      ≤ ((208648 * v1 + 97712 * v2 + 256814 * v0 + 2097152 * v3 : Int) : ℚ) := by
    exact_mod_cast hlo
  have hhi' : ((208648 * v1 + 97712 * v2 + 256814 * v0 + 2097152 * v3 : Int) : ℚ)
      < ((4194304 * (C_int_root v0 v1 v2 v3 + 2) : Int) : ℚ) := by
    exact_mod_cast hhi
  refine ⟨?_, ?_, S_out_eq v0 v1 v2 v3⟩
  · rw [hC, S_out_scaled, abs_lt]
    generalize ((208648 * v1 + 97712 * v2 + 256814 * v0 + 2097152 * v3 : Int) : ℚ) = N at *
    push_cast at hlo' hhi'
    constructor <;> linarith
  · rw [hC, S_out_scaled]
    generalize ((208648 * v1 + 97712 * v2 + 256814 * v0 + 2097152 * v3 : Int) : ℚ) = N at *
    push_cast at hlo'
    linarith

/-- The error bound at the input `(8362, -32768, 32767, -1)`, the largest `v0` whose
product fits 32 bits. -/
theorem code13_error_bound_no_overflow_at_8362 :
    |((C_int 8362 (-32768) 32767 (-1) : Int) : ℚ) - S_out 8362 (-32768) 32767 (-1)| < 2
      ∧ ((C_int 8362 (-32768) 32767 (-1) : Int) : ℚ) ≤ S_out 8362 (-32768) 32767 (-1)
      ∧ S_out 8362 (-32768) 32767 (-1) =
          0.795928955078125 * ((-32768 : Int) : ℚ) / 16
            + 0.023296356201171875 * ((32767 : Int) : ℚ)
            + 0.12245845794677734375 * ((8362 : Int) : ℚ) / 2 + 1 * ((-1 : Int) : ℚ) / 2 :=
  code13_error_bound_no_overflow 8362 (-32768) 32767 (-1) (by decide) (by decide) (by decide)
    (by decide) (by decide)

/-- C2: `C_int` of `rhoDFIIt/code13.c` computes the four-leaf two-level tree
`((p1 + p2) + (p0 + p3)) >> 2` with `p1 = (52162*v1)>>18`, `p2 = (6107*v2)>>16`,
`p0 = (256814*v0)>>20`, `p3 = (16384*v3)>>13` (in 32-bit registers for every input,
and as plain integers whenever `256814*v0` fits 32 bits); at
`(v0,v1,v2,v3) = (100,-50,200,10)` it returns `13`, the reference value is
`6970365/524288 = 13.2949...`, and the two differ by less than 2. -/
theorem C2_concrete_scenario :
    (∀ v0 v1 v2 v3 : Int,
        C_int v0 v1 v2 v3 =
          toInt16 (asr (add32 (add32 (asr (mul32 52162 v1) 18) (asr (mul32 6107 v2) 16))
            (add32 (asr (mul32 256814 v0) 20) (asr (mul32 16384 v3) 13))) 2))
      ∧ (∀ v0 v1 v2 v3 : Int, InInt16 v0 → InInt16 v1 → InInt16 v2 → InInt16 v3 →
          InInt32 (256814 * v0) →
          C_int v0 v1 v2 v3 =
            ((52162 * v1 / 2 ^ 18 + 6107 * v2 / 2 ^ 16)
              + (256814 * v0 / 2 ^ 20 + 16384 * v3 / 2 ^ 13)) / 2 ^ 2)
      ∧ C_int 100 (-50) 200 10 = 13
      ∧ S_out 100 (-50) 200 10 =
          0.795928955078125 * (-50) / 16 + 0.023296356201171875 * 200
            + 0.12245845794677734375 * 100 / 2 + 10 / 2
      ∧ S_out 100 (-50) 200 10 = 6970365 / 524288
      ∧ (13.2949 < S_out 100 (-50) 200 10 ∧ S_out 100 (-50) 200 10 < 13.2950)
      ∧ |((C_int 100 (-50) 200 10 : Int) : ℚ) - S_out 100 (-50) 200 10| < 2 := by
  have hc : C_int 100 (-50) 200 10 = 13 := by decide
  have hs : S_out 100 (-50) 200 10 = 6970365 / 524288 := by
    rw [S_out_scaled]
    norm_num
  refine ⟨fun _ _ _ _ => rfl, ?_, hc, ?_, hs, ?_, ?_⟩
  · intro v0 v1 v2 v3 h0 h1 h2 h3 hov
    obtain ⟨_, hr⟩ := C_int_root_bound v0 v1 v2 v3 h0 h1 h2 h3 hov
    have hC : C_int v0 v1 v2 v3 = C_int_root v0 v1 v2 v3 := toInt16_id _ hr
    rw [hC, C_int_root_exact v0 v1 v2 v3 h0 h1 h2 h3 hov]
  · rw [hs]
    norm_num
  · rw [hs]
    norm_num
  · rw [hc, hs]
    norm_num [abs_lt]

/-- C2 at the scenario input: the tree evaluated over plain integers. -/
theorem C2_concrete_scenario_witness :
    C_int 100 (-50) 200 10 =
      ((52162 * (-50) / 2 ^ 18 + 6107 * 200 / 2 ^ 16)
        + (256814 * 100 / 2 ^ 20 + 16384 * 10 / 2 ^ 13)) / 2 ^ 2 :=
  C2_concrete_scenario.2.1 100 (-50) 200 10 (by decide) (by decide) (by decide) (by decide)
    (by decide)

end rhoDFIIt.code13

/-! ## `ss6/bis/log/code3.c`: the two fixed-point renderings -/

namespace ss6.bis.log.code3

theorem SoP_ac_fixed_r16_at (q : QMode) :
    SoP_ac_fixed_r16 q 0 0 0 0 0 0 0 0 1000 = ⟨84468000, 23⟩ := by
  unfold SoP_ac_fixed_r16
  rw [acConst_exact q 16 0 0.3917083740234375 25671 (by norm_num) (by decide),
    acConst_exact q 16 (-1) (-0.146331787109375) (-19180) (by norm_num) (by decide),
    acConst_exact q 16 (-3) (-0.045719146728515625) (-23970) (by norm_num) (by decide),
    acConst_exact q 16 1 0.9490966796875 31100 (by norm_num) (by decide),
    acConst_exact q 16 0 0.4874725341796875 31947 (by norm_num) (by decide),
    acConst_exact q 16 2 1.1043701171875 18094 (by norm_num) (by decide),
    acConst_exact q 16 2 1.4510498046875 23774 (by norm_num) (by decide),
    acConst_exact q 16 1 0.517974853515625 16973 (by norm_num) (by decide),
    acConst_exact q 16 2 1.28887939453125 21117 (by norm_num) (by decide)]
  cases q <;> decide

theorem SoP_ac_fixed_const (q : QMode) (v6 v8 v4 v1 v5 v7 v3 v2 v0 : Int) :
    SoP_ac_fixed q v6 v8 v4 v1 v5 v7 v3 v2 v0 = 0 := by
  unfold SoP_ac_fixed
  simp only [acConst_zero]
  cases q <;> decide

/-- C3: `SoP_ac_fixed` of `ss6/bis/log/code3.c` returns `s + sd` where `sd` is never
assigned, so its result is the raw value `0` for every input and under either
truncation convention; at the 16-bit input `v0 = 1000` (other taps `0`) `C_int`
returns `322`, so the two differ by more than one unit.  The register tree
`r0 .. r16` that the function computes and drops holds `84468000 * 2^-23` there
(`1288` once stored with the 7 fractional bits of `s`). -/
theorem C3_backend_divergence :
    (∀ (q : QMode) (v6 v8 v4 v1 v5 v7 v3 v2 v0 : Int),
        SoP_ac_fixed q v6 v8 v4 v1 v5 v7 v3 v2 v0 = 0)
      ∧ InInt16 1000 ∧ InInt16 0
      ∧ C_int 1000 0 0 0 0 0 0 0 0 = 322
      ∧ (∀ q : QMode,
          ¬ (|C_int 1000 0 0 0 0 0 0 0 0 - SoP_ac_fixed q 0 0 0 0 0 0 0 0 1000| ≤ 1))
      ∧ (∀ q : QMode, SoP_ac_fixed_r16 q 0 0 0 0 0 0 0 0 1000 = ⟨84468000, 23⟩)
      ∧ (∀ q : QMode,
          (acStore q 16 9 (SoP_ac_fixed_r16 q 0 0 0 0 0 0 0 0 1000)).raw = 1288) := by
  have hc : C_int 1000 0 0 0 0 0 0 0 0 = 322 := by decide
  refine ⟨SoP_ac_fixed_const, by decide, by decide, hc, ?_, SoP_ac_fixed_r16_at, ?_⟩
  · intro q
    rw [hc, SoP_ac_fixed_const]
    decide
  · intro q
    rw [SoP_ac_fixed_r16_at]
    cases q <;> decide

end ss6.bis.log.code3

/-! ## `LGS/bis/code37.c`: the halving shifts -/

namespace LGS.bis.code37

/-- C4: in `C_int` of `LGS/bis/code37.c` the taps `v5, v6, v0, v3, v8` pass two
halving shifts and the taps `v4, v7, v2, v1` one, on top of the final shift by 4
that alone aligns the leaves to the output format.  At the 16-bit input `v4 = 32767`
(other taps `0`, no product overflows) `C_int` returns `-54` against the reference
`S = -225142057/2097152` (about `-107.36`); at `v5 = 32767` it returns `-92` against
`S = -1533004095/4194304` (about `-365.50`).  Both miss `S` by far more than 2, and
the two taps, which share one input format, are not weighted in the ratio of
their coefficients. -/
theorem C4_halving_shifts_break_bound :
    InInt16 32767 ∧ InInt16 0 ∧ InInt32 (-13742 * 32767) ∧ InInt32 (-46785 * 32767)
      ∧ C_int 0 0 0 0 32767 0 0 0 0 = -54
      ∧ S_out 0 0 0 0 32767 0 0 0 0 = -225142057 / 2097152
      ∧ ¬ (|((C_int 0 0 0 0 32767 0 0 0 0 : Int) : ℚ) - S_out 0 0 0 0 32767 0 0 0 0| < 2)
      ∧ C_int 0 0 0 0 0 32767 0 0 0 = -92
      ∧ S_out 0 0 0 0 0 32767 0 0 0 = -1533004095 / 4194304
      ∧ ¬ (|((C_int 0 0 0 0 0 32767 0 0 0 : Int) : ℚ) - S_out 0 0 0 0 0 32767 0 0 0| < 2) := by
  have hc4 : C_int 0 0 0 0 32767 0 0 0 0 = -54 := by decide
  have hs4 : S_out 0 0 0 0 32767 0 0 0 0 = -225142057 / 2097152 := by
    norm_num [S_out, SoP_float]
  have hc5 : C_int 0 0 0 0 0 32767 0 0 0 = -92 := by decide
  have hs5 : S_out 0 0 0 0 0 32767 0 0 0 = -1533004095 / 4194304 := by
    norm_num [S_out, SoP_float]
  refine ⟨by decide, by decide, by decide, by decide, hc4, hs4, ?_, hc5, hs5, ?_⟩
  · rw [hc4, hs4]
    norm_num [abs_lt]
  · rw [hc5, hs5]
    norm_num [abs_lt]

end LGS.bis.code37

/-! ## `LGS/bis/code30.c`: backend equivalence and output width -/

namespace LGS.bis.code30

/-- The tap table of `LGS/bis/code30.c` lists the constants of `C_int` and
`SoP_float` in the order of the leaves of `C_int`. -/
theorem code30_from_taps :
    ∃ t0 t1 : Tap, taps_LGS_bis_code30 = [t0, t1]
      ∧ (∀ v0 v1 : Int, C_int_root v0 v1 =
          asr (add32 (t0.leafProduct v0) (t1.leafProduct v1)) 1)
      ∧ (∀ v0 v1 : ℚ, SoP_float v0 v1 = t0.coeff * v0 + t1.coeff * v1) :=
  ⟨_, _, rfl, fun _ _ => rfl, fun _ _ => rfl⟩

theorem SoP_ac_fixed_eq (q : QMode) (v0 v1 : Int) :
    SoP_ac_fixed q v0 v1 =
      wrapSigned 18 (dropBits q (wrapSigned 19 (dropBits q
        (wrapSigned 19 (dropBits q (1046958 * v0) 25) * 64 + 1024 * v1) 6)) 1) := by
  unfold SoP_ac_fixed
  rw [acConst_exact q 21 (-5) 0.0156008899211883544921875 1046958 (by norm_num) (by decide),
    acConst_exact q 12 2 1 1024 (by norm_num) (by decide)]
  simp only [acConst_zero]
  norm_num [acStore, AcValue.add, AcValue.mul, acInput, wrapSigned,
    show Int.toNat 25 = 25 from rfl, show Int.toNat 6 = 6 from rfl]

theorem SoP_ac_fixed_at_32767_0 (q : QMode) : SoP_ac_fixed q 32767 0 = 511 := by
  rw [SoP_ac_fixed_eq]
  cases q <;> decide

theorem SoP_ac_fixed_at_2051_4095 (q : QMode) : SoP_ac_fixed q 2051 4095 = 32791 := by
  rw [SoP_ac_fixed_eq]
  cases q <;> decide

theorem SoP_ac_fixed_at_2052_0 (q : QMode) : SoP_ac_fixed q 2052 0 = 32 := by
  rw [SoP_ac_fixed_eq]
  cases q <;> decide

theorem SoP_ac_fixed_at_2051_0 (q : QMode) : SoP_ac_fixed q 2051 0 = 31 := by
  rw [SoP_ac_fixed_eq]
  cases q <;> decide

/-- C5, refuted at `(v0,v1) = (32767,0)`: the input is 16-bit and inside the declared
18-bit and 13-bit formats, but the product `1046958*v0` leaves the `int32_t`
register: `C_int` returns `-1` where `SoP_ac_fixed` returns the raw value `511`
(under either truncation convention).  At `v0 = 2052`, the first value whose product
overflows, `C_int` returns `-32` against `32`; at `v0 = 2051` both return `31`. -/
theorem C5_product_overflow :
    (InInt16 32767 ∧ (-2 ^ 17 ≤ (32767 : Int) ∧ (32767 : Int) < 2 ^ 17)
        ∧ (-4096 ≤ (0 : Int) ∧ (0 : Int) ≤ 4095) ∧ ¬ InInt32 (1046958 * 32767)
        ∧ C_int 32767 0 = -1
        ∧ (∀ q : QMode, SoP_ac_fixed q 32767 0 = 511)
        ∧ (∀ q : QMode, ¬ (|C_int 32767 0 - SoP_ac_fixed q 32767 0| ≤ 1)))
      ∧ (InInt16 2052 ∧ ¬ InInt32 (1046958 * 2052)
        ∧ C_int 2052 0 = -32
        ∧ (∀ q : QMode, SoP_ac_fixed q 2052 0 = 32)
        ∧ (∀ q : QMode, ¬ (|C_int 2052 0 - SoP_ac_fixed q 2052 0| ≤ 1)))
      ∧ (InInt32 (1046958 * 2051) ∧ C_int 2051 0 = 31
        ∧ (∀ q : QMode, SoP_ac_fixed q 2051 0 = 31)) := by
  have hc : C_int 32767 0 = -1 := by decide
  have hc' : C_int 2052 0 = -32 := by decide
  refine ⟨⟨by decide, by decide, by decide, by decide, hc, SoP_ac_fixed_at_32767_0, ?_⟩,
    ⟨by decide, by decide, hc', SoP_ac_fixed_at_2052_0, ?_⟩,
    by decide, by decide, SoP_ac_fixed_at_2051_0⟩
  · intro q
    rw [hc, SoP_ac_fixed_at_32767_0]
    decide
  · intro q
    rw [hc', SoP_ac_fixed_at_2052_0]
    decide

/-- Both truncation conventions, on the inputs free of overflow and of return
truncation. -/
theorem code30_equivalence_modes (q : QMode) (v0 v1 : Int) (h0 : InInt16 v0)
    (h1 : -4096 ≤ v1 ∧ v1 ≤ 4095) (hov : InInt32 (1046958 * v0))
    (hr : InInt16 (C_int_root v0 v1)) :
    |C_int v0 v1 - SoP_ac_fixed q v0 v1| ≤ 1
      ∧ (q = QMode.towardNegInf → C_int v0 v1 = SoP_ac_fixed q v0 v1) := by
  have hC : C_int v0 v1 = C_int_root v0 v1 := toInt16_id _ hr
  rw [hC, SoP_ac_fixed_eq]
  unfold InInt16 InInt32 at *
  simp only [C_int_root] at *
  rw [mul32_id 1046958 v0 (by omega), mul32_id 1024 v1 (by omega)] at *
  obtain ⟨a0, b0⟩ := asr_spec (1046958 * v0) 25
  obtain ⟨a1, b1⟩ := asr_spec (1024 * v1) 6
  generalize asr (1046958 * v0) 25 = p0 at *
  generalize asr (1024 * v1) 6 = p1 at *
  norm_num at a0 b0 a1 b1
  rw [add32_id p0 p1 (by omega)] at *
  obtain ⟨a2, b2⟩ := asr_spec (p0 + p1) 1
  generalize asr (p0 + p1) 1 = c at *
  norm_num at a2 b2
  cases q
  · obtain ⟨e1, f1⟩ := dropBits_negInf_spec (1046958 * v0) 25
    generalize dropBits QMode.towardNegInf (1046958 * v0) 25 = d1 at *
    norm_num at e1 f1
    rw [wrapSigned_id 19 d1 (by norm_num) (by norm_num; omega)]
    obtain ⟨e2, f2⟩ := dropBits_negInf_spec (d1 * 64 + 1024 * v1) 6
    generalize dropBits QMode.towardNegInf (d1 * 64 + 1024 * v1) 6 = d2 at *
    norm_num at e2 f2
    rw [wrapSigned_id 19 d2 (by norm_num) (by norm_num; omega)]
    obtain ⟨e3, f3⟩ := dropBits_negInf_spec d2 1
    generalize dropBits QMode.towardNegInf d2 1 = d3 at *
    norm_num at e3 f3
    rw [wrapSigned_id 18 d3 (by norm_num) (by norm_num; omega)]
    refine ⟨?_, fun _ => ?_⟩
    · rw [abs_le]
      constructor <;> omega
    · omega
  · obtain ⟨e1, f1⟩ := dropBits_zero_spec (1046958 * v0) 25
    generalize dropBits QMode.towardZero (1046958 * v0) 25 = d1 at *
    norm_num at e1 f1
    rw [wrapSigned_id 19 d1 (by norm_num) (by norm_num; omega)]
    obtain ⟨e2, f2⟩ := dropBits_zero_spec (d1 * 64 + 1024 * v1) 6
    generalize dropBits QMode.towardZero (d1 * 64 + 1024 * v1) 6 = d2 at *
    norm_num at e2 f2
    rw [wrapSigned_id 19 d2 (by norm_num) (by norm_num; omega)]
    obtain ⟨e3, f3⟩ := dropBits_zero_spec d2 1
    generalize dropBits QMode.towardZero d2 1 = d3 at *
    norm_num at e3 f3
    rw [wrapSigned_id 18 d3 (by norm_num) (by norm_num; omega)]
    refine ⟨?_, fun h => by cases h⟩
    rw [abs_le]
    constructor <;> omega

/-- For every 16-bit `v0` whose product `1046958*v0` fits the 32-bit register
(`-2051 <= v0 <= 2051`) and every `v1` in the declared 13-bit range, whenever the
value `(r0 + r1) >> 1` fits the `int16_t` return type, the value returned by
`C_int(v0,v1)` is within one unit of the raw value of `SoP_ac_fixed(v0,v1)` in its
output format `ac_fixed<18,11,true>` (under either truncation convention; the two
are equal when truncation is toward minus infinity). -/
theorem code30_backend_equivalence_no_overflow (q : QMode) (v0 v1 : Int) (h0 : InInt16 v0)
    (h1 : -4096 ≤ v1 ∧ v1 ≤ 4095) (hov : InInt32 (1046958 * v0))
    (hr : InInt16 (C_int_root v0 v1)) :
    |C_int v0 v1 - SoP_ac_fixed q v0 v1| ≤ 1
      ∧ C_int v0 v1 = SoP_ac_fixed QMode.towardNegInf v0 v1 :=
  ⟨(code30_equivalence_modes q v0 v1 h0 h1 hov hr).1,
    (code30_equivalence_modes QMode.towardNegInf v0 v1 h0 h1 hov hr).2 rfl⟩

/-- The two renderings of `LGS/bis/code30.c` at the input `(v0,v1) = (-2051, 4091)`. -/
theorem code30_backend_equivalence_no_overflow_at_m2051_4091 :
    |C_int (-2051) 4091 - SoP_ac_fixed QMode.towardZero (-2051) 4091| ≤ 1
      ∧ C_int (-2051) 4091 = SoP_ac_fixed QMode.towardNegInf (-2051) 4091 :=
  code30_backend_equivalence_no_overflow QMode.towardZero (-2051) 4091 (by decide) (by decide)
    (by decide) (by decide)

/-- C7: at `(v0,v1) = (2051, 4095)`, where `|1046958*v0| < 2^31` and `v1` is in the
declared 13-bit range, the value `(r0 + r1) >> 1` computed by `C_int` is `32791`,
outside `[-32768, 32767]`; the `int16_t` return value is `-32745`, although the
declared 18-bit output format holds `32791` and `SoP_ac_fixed` returns it. -/
theorem C7_return_truncates :
    InInt16 2051 ∧ |1046958 * (2051 : Int)| < 2 ^ 31 ∧ (-4096 ≤ (4095 : Int) ∧ (4095 : Int) ≤ 4095)
      ∧ C_int_root 2051 4095 = 32791
      ∧ ¬ InInt16 (C_int_root 2051 4095)
      ∧ C_int 2051 4095 = -32745
      ∧ C_int 2051 4095 ≠ C_int_root 2051 4095
      ∧ (-2 ^ 17 ≤ C_int_root 2051 4095 ∧ C_int_root 2051 4095 < 2 ^ 17)
      ∧ (∀ q : QMode, SoP_ac_fixed q 2051 4095 = 32791) := by
  refine ⟨by decide, by decide, by decide, by decide, by decide, by decide, by decide,
    by decide, SoP_ac_fixed_at_2051_4095⟩

end LGS.bis.code30

/-! ## `tags/0.1/Generated/Code/code4.c`: register widths -/

namespace tags01.code4

theorem SoP_int_root_eq (x0 x1 x2 : Int) :
    SoP_int_root x0 x1 x2 = asr (wrapSigned 32 (SoP_int_intermediates x0 x1 x2).sum2) 16 := by
  rfl

/-- C6, as stated, fails: at the 16-bit input `(x0,x1,x2) = (32767,-32768,32767)`
the last sum `(r2 >> 1) + (r0 << 1)` of `SoP_int` is `2198764346`, above `2^31 - 1`;
it is stored truncated and the value handed to `return` is `-31986`. -/
theorem C6_counterexample :
    InInt16 32767 ∧ InInt16 (-32768)
      ∧ (SoP_int_intermediates 32767 (-32768) 32767).sum2 = 2198764346
      ∧ ¬ InInt32 (SoP_int_intermediates 32767 (-32768) 32767).sum2
      ∧ SoP_int_root 32767 (-32768) 32767 = -31986 := by
  refine ⟨by decide, by decide, by decide, by decide, by decide⟩

/-- C6, amended: for every 16-bit input `(x0,x1,x2)` the products `c*x1`, `c*x2`,
`c*x0`, the sum `r0 + (r1>>7)` and the shift `r0<<1` of `SoP_int` lie in the signed
32-bit range of their registers; the last sum `(r2>>1) + (r0<<1)` lies in the
32-bit range whenever `-31878 ≤ x0 ≤ 31878`, and within 33 bits in any case. -/
theorem C6_register_widths (x0 x1 x2 : Int) (h0 : InInt16 x0) (h1 : InInt16 x1)
    (h2 : InInt16 x2) :
    InInt32 (SoP_int_intermediates x0 x1 x2).prod1
      ∧ InInt32 (SoP_int_intermediates x0 x1 x2).prod2
      ∧ InInt32 (SoP_int_intermediates x0 x1 x2).prod0
      ∧ InInt32 (SoP_int_intermediates x0 x1 x2).sum1
      ∧ InInt32 (SoP_int_intermediates x0 x1 x2).shl0
      ∧ (-31878 ≤ x0 ∧ x0 ≤ 31878 → InInt32 (SoP_int_intermediates x0 x1 x2).sum2)
      ∧ (-2 ^ 32 ≤ (SoP_int_intermediates x0 x1 x2).sum2
          ∧ (SoP_int_intermediates x0 x1 x2).sum2 < 2 ^ 32) := by
  unfold InInt16 InInt32 at *
  have c1 : toInt16 (-18611) = -18611 := by decide
  have c2 : toInt16 18234 = 18234 := by decide
  have c0 : toInt16 28863 = 28863 := by decide
  simp only [SoP_int_intermediates, c1, c2, c0]
  rw [wrap32_id (-18611 * x1) (by omega), wrap32_id (18234 * x2) (by omega),
    wrap32_id (28863 * x0) (by omega)]
  obtain ⟨a1, b1⟩ := asr_spec (18234 * x2) 7
  generalize asr (18234 * x2) 7 = p at *
  norm_num at a1 b1
  rw [wrap32_id (-18611 * x1 + p) (by omega), wrap32_id (28863 * x0 * 2 ^ 1) (by omega)]
  obtain ⟨a2, b2⟩ := asr_spec (-18611 * x1 + p) 1
  generalize asr (-18611 * x1 + p) 1 = h at *
  norm_num at a2 b2
  refine ⟨by omega, by omega, by omega, by omega, by omega, ?_, ?_⟩
  · intro hx
    omega
  · norm_num
    omega
/-- C6, amended, at the input `(31878, -32768, 32767)`. -/
theorem C6_register_widths_witness :
    InInt32 (SoP_int_intermediates 31878 (-32768) 32767).prod1
      ∧ InInt32 (SoP_int_intermediates 31878 (-32768) 32767).prod2
      ∧ InInt32 (SoP_int_intermediates 31878 (-32768) 32767).prod0
      ∧ InInt32 (SoP_int_intermediates 31878 (-32768) 32767).sum1
      ∧ InInt32 (SoP_int_intermediates 31878 (-32768) 32767).shl0
      ∧ (-31878 ≤ (31878 : Int) ∧ (31878 : Int) ≤ 31878 →
          InInt32 (SoP_int_intermediates 31878 (-32768) 32767).sum2)
      ∧ (-2 ^ 32 ≤ (SoP_int_intermediates 31878 (-32768) 32767).sum2
          ∧ (SoP_int_intermediates 31878 (-32768) 32767).sum2 < 2 ^ 32) :=
  C6_register_widths 31878 (-32768) 32767 (by decide) (by decide) (by decide)

end tags01.code4


/-! ## The single-tap stages `rhoDFIIt/bis/code3.c` and `rhoDFIIt/bis/code6.c` -/

namespace rhoDFIIt.bis.code3

theorem code3_C_int_noReturn (v0 : Int) :
    C_int v0 = Outcome.noReturn (asr (mul32 231626 v0) 18) := rfl

/-- The register `r0` of `rhoDFIIt/bis/code3.c` holds `floor(231626*v0 / 2^18)`, within
one unit below `0.88358306884765625*v0`, whenever the product fits 32 bits. -/
theorem code3_r0_value (v0 : Int) (hov : InInt32 (231626 * v0)) :
    asr (mul32 231626 v0) 18 = 231626 * v0 / 2 ^ 18
      ∧ SoP_float v0 - 1 < ((asr (mul32 231626 v0) 18 : Int) : ℚ)
      ∧ ((asr (mul32 231626 v0) 18 : Int) : ℚ) ≤ SoP_float v0 := by
  unfold InInt32 at hov
  rw [mul32_id 231626 v0 (by omega)]
  refine ⟨asr_eq _ _, ?_, ?_⟩
  · obtain ⟨_, b⟩ := asr_spec (231626 * v0) 18
    have b' : ((231626 * v0 : Int) : ℚ) < ((2 ^ 18 * (asr (231626 * v0) 18 + 1) : Int) : ℚ) := by
      exact_mod_cast b
    unfold SoP_float
    push_cast at b'
    linarith
  · obtain ⟨a, _⟩ := asr_spec (231626 * v0) 18
    have a' : ((2 ^ 18 * asr (231626 * v0) 18 : Int) : ℚ) ≤ ((231626 * v0 : Int) : ℚ) := by
      exact_mod_cast a
    unfold SoP_float
    push_cast at a'
    linarith

end rhoDFIIt.bis.code3

namespace rhoDFIIt.bis.code6

theorem code6_C_int_noReturn (v0 : Int) :
    C_int v0 = Outcome.noReturn (asr (mul32 99782 v0) 17) := rfl

/-- The register `r0` of `rhoDFIIt/bis/code6.c` holds `floor(99782*v0 / 2^17)`, within
one unit below `0.7612762451171875*v0`, whenever the product fits 32 bits. -/
theorem code6_r0_value (v0 : Int) (hov : InInt32 (99782 * v0)) :
    asr (mul32 99782 v0) 17 = 99782 * v0 / 2 ^ 17
      ∧ SoP_float v0 - 1 < ((asr (mul32 99782 v0) 17 : Int) : ℚ)
      ∧ ((asr (mul32 99782 v0) 17 : Int) : ℚ) ≤ SoP_float v0 := by
  unfold InInt32 at hov
  rw [mul32_id 99782 v0 (by omega)]
  refine ⟨asr_eq _ _, ?_, ?_⟩
  · obtain ⟨_, b⟩ := asr_spec (99782 * v0) 17
    have b' : ((99782 * v0 : Int) : ℚ) < ((2 ^ 17 * (asr (99782 * v0) 17 + 1) : Int) : ℚ) := by
      exact_mod_cast b
    unfold SoP_float
    push_cast at b'
    linarith
  · obtain ⟨a, _⟩ := asr_spec (99782 * v0) 17
    have a' : ((2 ^ 17 * asr (99782 * v0) 17 : Int) : ℚ) ≤ ((99782 * v0 : Int) : ℚ) := by
      exact_mod_cast a
    unfold SoP_float
    push_cast at a'
    linarith

end rhoDFIIt.bis.code6

/-- C8: in `rhoDFIIt/bis/code3.c` and `rhoDFIIt/bis/code6.c` the statement
`return r0;` stands on the comment line `// The result is returned 	return r0;`, so
`C_int` assigns `r0` and ends without returning a value, for every input; at
`v0 = 1` nothing is returned where the claim expects `floor(231626/2^18)`,
respectively `floor(99782/2^17)`. -/
theorem C8_missing_return :
    (∀ v0 x : Int, rhoDFIIt.bis.code3.C_int v0 ≠ Outcome.returned x)
      ∧ (∀ v0 x : Int, rhoDFIIt.bis.code6.C_int v0 ≠ Outcome.returned x)
      ∧ InInt16 1
      ∧ rhoDFIIt.bis.code3.C_int 1 = Outcome.noReturn 0
      ∧ rhoDFIIt.bis.code3.C_int 1 ≠ Outcome.returned (231626 * 1 / 2 ^ 18)
      ∧ rhoDFIIt.bis.code6.C_int 1 = Outcome.noReturn 0
      ∧ rhoDFIIt.bis.code6.C_int 1 ≠ Outcome.returned (99782 * 1 / 2 ^ 17) := by
  refine ⟨?_, ?_, by decide, by decide, by decide, by decide, by decide⟩
  · intro v0 x h
    rw [rhoDFIIt.bis.code3.code3_C_int_noReturn] at h
    cases h
  · intro v0 x h
    rw [rhoDFIIt.bis.code6.code6_C_int_noReturn] at h
    cases h

/-! ## Coefficient quantization -/

theorem le_round_of_le (x : ℚ) (n : Int) (h : (n : ℚ) ≤ x) : n ≤ round x := by
  rw [round_eq, Int.le_floor]
  linarith

theorem round_le_of_le (x : ℚ) (n : Int) (h : x ≤ (n : ℚ)) : round x ≤ n := by
  rw [round_eq, ← Int.lt_add_one_iff, Int.floor_lt]
  push_cast
  linarith

theorem abs_round_ge (x : ℚ) (n : Int) (h : (n : ℚ) ≤ |x|) : n ≤ |round x| := by
  rcases le_or_lt 0 x with hx | hx
  · rw [abs_of_nonneg hx] at h
    exact le_trans (le_round_of_le x n h) (le_abs_self _)
  · rw [abs_of_neg hx] at h
    have h2 : round x ≤ -n := round_le_of_le x (-n) (by push_cast; linarith)
    have h3 := neg_abs_le (round x)
    omega

theorem abs_round_le (x : ℚ) (n : Int) (h : |x| ≤ (n : ℚ)) : |round x| ≤ n := by
  rw [abs_le] at h ⊢
  constructor
  · exact le_round_of_le x (-n) (by push_cast; linarith)
  · exact round_le_of_le x n h.2

theorem two_zpow_pos (s : Int) : (0 : ℚ) < 2 ^ s := by positivity

theorem mantissaAt_dyadic (m f : Int) : mantissaAt ((m : ℚ) * 2 ^ (-f)) f = m := by
  unfold mantissaAt
  rw [mul_assoc, ← zpow_add₀ (by norm_num : (2 : ℚ) ≠ 0)]
  simp

theorem log_dyadic (m f : Int) (b : Nat) (hb : 2 ≤ b) (hlo : 2 ^ (b - 2) ≤ |m|)
    (hhi : |m| < 2 ^ (b - 1)) :
    Int.log 2 |(m : ℚ) * 2 ^ (-f)| = (b : Int) - 2 - f := by
  have hpos : (0 : ℚ) < 2 ^ (-f) := two_zpow_pos _
  have habs : |(m : ℚ) * 2 ^ (-f)| = ((|m| : Int) : ℚ) * 2 ^ (-f) := by
    rw [abs_mul, abs_of_pos hpos]
    push_cast
    rfl
  have hlo' : ((2 : ℚ) ^ (b - 2) : ℚ) ≤ ((|m| : Int) : ℚ) := by exact_mod_cast hlo
  have hhi' : ((|m| : Int) : ℚ) < ((2 : ℚ) ^ (b - 1) : ℚ) := by exact_mod_cast hhi
  have hcpos : (0 : ℚ) < |(m : ℚ) * 2 ^ (-f)| := by
    rw [habs]
    have : (0 : ℚ) < 2 ^ (b - 2) := by positivity
    have := lt_of_lt_of_le this hlo'
    positivity
  have e1 : ((2 : ℕ) : ℚ) ^ ((b : Int) - 2 - f) ≤ |(m : ℚ) * 2 ^ (-f)| := by
    rw [habs]
    have : ((2 : ℕ) : ℚ) ^ ((b : Int) - 2 - f) = (2 : ℚ) ^ (b - 2) * 2 ^ (-f) := by
      rw [← zpow_natCast, ← zpow_add₀ (by norm_num : (2 : ℚ) ≠ 0)]
      congr 1
      omega
    rw [this]
    exact mul_le_mul_of_nonneg_right hlo' hpos.le
  have e2 : |(m : ℚ) * 2 ^ (-f)| < ((2 : ℕ) : ℚ) ^ ((b : Int) - 1 - f) := by
    rw [habs]
    have : ((2 : ℕ) : ℚ) ^ ((b : Int) - 1 - f) = (2 : ℚ) ^ (b - 1) * 2 ^ (-f) := by
      rw [← zpow_natCast, ← zpow_add₀ (by norm_num : (2 : ℚ) ≠ 0)]
      congr 1
      omega
    rw [this]
    exact mul_lt_mul_of_pos_right hhi' hpos
  have g1 := (Int.zpow_le_iff_le_log (by norm_num : 1 < 2) hcpos).1 e1
  have g2 := (Int.lt_zpow_iff_log_lt (by norm_num : 1 < 2) hcpos).1 e2
  omega

theorem quantize_dyadic (m f : Int) (b : Nat) (hb : 2 ≤ b) (hlo : 2 ^ (b - 2) ≤ |m|)
    (hhi : |m| < 2 ^ (b - 1)) :
    quantize ((m : ℚ) * 2 ^ (-f)) b = (m, f) := by
  unfold quantize
  simp only [log_dyadic m f b hb hlo hhi]
  have hs : (b : Int) - 2 - ((b : Int) - 2 - f) = f := by omega
  rw [hs, mantissaAt_dyadic, if_pos (show FitsBudget b m from hhi)]

theorem not_fits_above_dyadic (m f : Int) (b : Nat) (hb : 2 ≤ b) (hlo : 2 ^ (b - 2) ≤ |m|)
    (s : Int) (hs : f < s) :
    ¬ FitsBudget b (mantissaAt ((m : ℚ) * 2 ^ (-f)) s) := by
  unfold FitsBudget mantissaAt
  rw [not_lt]
  apply abs_round_ge
  obtain ⟨k, rfl⟩ : ∃ k : Nat, s = f + (k + 1) := ⟨(s - f - 1).toNat, by omega⟩
  rw [mul_assoc, ← zpow_add₀ (by norm_num : (2 : ℚ) ≠ 0)]
  have he : -f + (f + ((k : Int) + 1)) = ((k + 1 : Nat) : Int) := by push_cast; omega
  rw [he, zpow_natCast, abs_mul, abs_of_pos (by positivity : (0 : ℚ) < 2 ^ (k + 1))]
  have hlo' : ((2 : ℚ) ^ (b - 2) : ℚ) ≤ |(m : ℚ)| := by exact_mod_cast hlo
  have h1 : (2 : ℚ) ^ (b - 1) = 2 ^ (b - 2) * 2 := by
    obtain ⟨n, rfl⟩ : ∃ n, b = n + 2 := ⟨b - 2, by omega⟩
    simp [pow_succ]
  have h2 : (2 : ℚ) ≤ 2 ^ (k + 1) := by
    have : (1 : ℚ) ≤ 2 ^ k := one_le_pow₀ (by norm_num)
    rw [pow_succ]
    linarith
  push_cast
  rw [h1]
  exact mul_le_mul hlo' h2 (by norm_num) (abs_nonneg _)

theorem not_fits_of_large (c : ℚ) (b : Nat) (hc : c ≠ 0) (hb : 2 ≤ b) (s : Int)
    (hs : (b : Int) - 1 - Int.log 2 |c| ≤ s) : ¬ FitsBudget b (mantissaAt c s) := by
  unfold FitsBudget mantissaAt
  rw [not_lt]
  apply abs_round_ge
  have hcpos : (0 : ℚ) < |c| := abs_pos.mpr hc
  have h1 : ((2 : ℕ) : ℚ) ^ Int.log 2 |c| ≤ |c| := Int.zpow_log_le_self (by norm_num) hcpos
  rw [abs_mul, abs_of_pos (two_zpow_pos s)]
  have h2 : (2 : ℚ) ^ ((b : Int) - 1) ≤ 2 ^ (Int.log 2 |c| + s) :=
    zpow_le_zpow_right₀ (by norm_num) (by omega)
  have h3 : (2 : ℚ) ^ ((b : Int) - 1) = (2 : ℚ) ^ (b - 1) := by
    rw [← zpow_natCast]
    congr 1
    omega
  push_cast
  rw [← h3]
  refine le_trans h2 ?_
  rw [zpow_add₀ (by norm_num : (2 : ℚ) ≠ 0)]
  have h1' : (2 : ℚ) ^ Int.log 2 |c| ≤ |c| := by exact_mod_cast h1
  exact mul_le_mul_of_nonneg_right h1' (two_zpow_pos s).le

theorem fits_of_small (c : ℚ) (b : Nat) (hb : 2 ≤ b) (s : Int)
    (hs : s ≤ (b : Int) - 3 - Int.log 2 |c|) : FitsBudget b (mantissaAt c s) := by
  unfold FitsBudget mantissaAt
  have h2 : |c| < ((2 : ℕ) : ℚ) ^ (Int.log 2 |c| + 1) := Int.lt_zpow_succ_log_self (by norm_num) _
  have h2' : |c| < (2 : ℚ) ^ (Int.log 2 |c| + 1) := by exact_mod_cast h2
  have h3 : (2 : ℚ) ^ (Int.log 2 |c| + 1 + s) ≤ 2 ^ ((b : Int) - 2) :=
    zpow_le_zpow_right₀ (by norm_num) (by omega)
  have h4 : (2 : ℚ) ^ ((b : Int) - 2) = (2 : ℚ) ^ (b - 2) := by
    rw [← zpow_natCast]
    congr 1
    omega
  have h5 : |c * 2 ^ s| ≤ (((2 : Int) ^ (b - 2) : Int) : ℚ) := by
    rw [abs_mul, abs_of_pos (two_zpow_pos s)]
    push_cast
    rw [← h4]
    refine le_trans ?_ h3
    rw [zpow_add₀ (by norm_num : (2 : ℚ) ≠ 0)]
    exact mul_le_mul_of_nonneg_right h2'.le (two_zpow_pos s).le
  have h6 := abs_round_le _ _ h5
  have h7 : (2 : Int) ^ (b - 2) < 2 ^ (b - 1) := by
    obtain ⟨n, rfl⟩ : ∃ n, b = n + 2 := ⟨b - 2, by omega⟩
    have : (0 : Int) < 2 ^ n := by positivity
    simp [pow_succ]
  omega

theorem quantize_largest (c : ℚ) (b : Nat) (hc : c ≠ 0) (hb : 2 ≤ b) :
    FitsBudget b (quantize c b).1 ∧ (quantize c b).1 = mantissaAt c (quantize c b).2
      ∧ ∀ s : Int, (quantize c b).2 < s → ¬ FitsBudget b (mantissaAt c s) := by
  unfold quantize
  by_cases h : FitsBudget b (mantissaAt c ((b : Int) - 2 - Int.log 2 |c|))
  · simp only [if_pos h]
    refine ⟨h, trivial, fun s hs => not_fits_of_large c b hc hb s (by omega)⟩
  · simp only [if_neg h]
    refine ⟨fits_of_small c b hb _ (by omega), trivial, fun s hs => ?_⟩
    rcases eq_or_lt_of_le (show (b : Int) - 2 - Int.log 2 |c| ≤ s by omega) with he | hl
    · rw [← he]
      exact h
    · exact not_fits_of_large c b hc hb s (by omega)

theorem allTaps_wellQuantized : ∀ t ∈ allTaps, t.WellQuantized := by
  simp only [allTaps, taps_rhoDFIIt_code13, taps_rhoDFIIt_bis_code3, taps_rhoDFIIt_bis_code6,
    taps_LGS_bis_code28, taps_LGS_bis_code30, taps_LGS_bis_code37, taps_ss3_code6,
    taps_ss5_code0, taps_ss5_bis_code8, taps_ss6_bis_log_code3, taps_tags01_code4,
    List.cons_append, List.nil_append, List.forall_mem_cons, Tap.WellQuantized, Tap.fracBits]
  norm_num [abs_of_pos, abs_of_neg]

/-- C9: for every tap of every generated stage, with `c` the `SoP_float`
coefficient, `W, I` the declared constant format and `m` the integer constant of
the integer function: `m = c * 2^(W-I)` exactly, `m` fits `W` bits,
`2^(W-2) ≤ |m| < 2^(W-1)`, `2^(W-I)` is the largest power-of-two scale at which the
rounded mantissa stays below `2^(W-1)` in magnitude, and re-quantizing
`m * 2^-(W-I)` at budget `W` returns the pair `(m, W-I)`. -/
theorem C9_quantization_idempotent (t : Tap) (ht : t ∈ allTaps) :
    (t.mant : ℚ) = t.coeff * 2 ^ t.fracBits
      ∧ (-2 ^ (t.cW - 1) ≤ t.mant ∧ t.mant < 2 ^ (t.cW - 1))
      ∧ (2 ^ (t.cW - 2) ≤ |t.mant| ∧ |t.mant| < 2 ^ (t.cW - 1))
      ∧ (mantissaAt t.coeff t.fracBits = t.mant ∧ FitsBudget t.cW t.mant
          ∧ ∀ s : Int, t.fracBits < s → ¬ FitsBudget t.cW (mantissaAt t.coeff s))
      ∧ quantize ((t.mant : ℚ) * 2 ^ (-t.fracBits)) t.cW = (t.mant, t.fracBits) := by
  obtain ⟨hex, hb, hlo, hhi⟩ := allTaps_wellQuantized t ht
  have hc : t.coeff = (t.mant : ℚ) * 2 ^ (-t.fracBits) := by
    rw [hex, mul_assoc, ← zpow_add₀ (by norm_num : (2 : ℚ) ≠ 0)]
    simp
  have habs := abs_lt.mp hhi
  refine ⟨hex, ⟨by omega, by omega⟩, ⟨hlo, hhi⟩, ⟨?_, hhi, ?_⟩,
    quantize_dyadic t.mant t.fracBits t.cW hb hlo hhi⟩
  · rw [hc]
    exact mantissaAt_dyadic t.mant t.fracBits
  · intro s hs
    rw [hc]
    exact not_fits_above_dyadic t.mant t.fracBits t.cW hb hlo s hs

/-- C9 at the four taps of `rhoDFIIt/code13.c`: `(m, W, I) = (52162, 17, 1)` in full,
and the re-quantization of `(6107, 14, -4)`, `(256814, 19, -2)`, `(16384, 16, 2)`. -/
theorem C9_quantization_idempotent_witness :
    ((tap_code13_c1.mant : ℚ) = tap_code13_c1.coeff * 2 ^ tap_code13_c1.fracBits
      ∧ (-2 ^ (tap_code13_c1.cW - 1) ≤ tap_code13_c1.mant
          ∧ tap_code13_c1.mant < 2 ^ (tap_code13_c1.cW - 1))
      ∧ (2 ^ (tap_code13_c1.cW - 2) ≤ |tap_code13_c1.mant|
          ∧ |tap_code13_c1.mant| < 2 ^ (tap_code13_c1.cW - 1))
      ∧ (mantissaAt tap_code13_c1.coeff tap_code13_c1.fracBits = tap_code13_c1.mant
          ∧ FitsBudget tap_code13_c1.cW tap_code13_c1.mant
          ∧ ∀ s : Int, tap_code13_c1.fracBits < s →
              ¬ FitsBudget tap_code13_c1.cW (mantissaAt tap_code13_c1.coeff s))
      ∧ quantize ((tap_code13_c1.mant : ℚ) * 2 ^ (-tap_code13_c1.fracBits)) tap_code13_c1.cW
          = (tap_code13_c1.mant, tap_code13_c1.fracBits))
      ∧ quantize ((tap_code13_c2.mant : ℚ) * 2 ^ (-tap_code13_c2.fracBits)) tap_code13_c2.cW
          = (tap_code13_c2.mant, tap_code13_c2.fracBits)
      ∧ quantize ((tap_code13_c0.mant : ℚ) * 2 ^ (-tap_code13_c0.fracBits)) tap_code13_c0.cW
          = (tap_code13_c0.mant, tap_code13_c0.fracBits)
      ∧ quantize ((tap_code13_c3.mant : ℚ) * 2 ^ (-tap_code13_c3.fracBits)) tap_code13_c3.cW
          = (tap_code13_c3.mant, tap_code13_c3.fracBits) :=
  ⟨C9_quantization_idempotent tap_code13_c1
      (by simp [allTaps, taps_rhoDFIIt_code13, tap_code13_c1]),
    (C9_quantization_idempotent tap_code13_c2
      (by simp [allTaps, taps_rhoDFIIt_code13, tap_code13_c2])).2.2.2.2,
    (C9_quantization_idempotent tap_code13_c0
      (by simp [allTaps, taps_rhoDFIIt_code13, tap_code13_c0])).2.2.2.2,
    (C9_quantization_idempotent tap_code13_c3
      (by simp [allTaps, taps_rhoDFIIt_code13, tap_code13_c3])).2.2.2.2⟩

/-! ## Taps with coefficient exactly 1 -/

/-- C10, as stated, fails in its last part: the shift emitted next to the
unit-coefficient mantissa is `6` in `LGS/bis/code30.c` and `13` in
`rhoDFIIt/code13.c`, while the mantissas have `10` and `14` fractional bits. -/
theorem C10_counterexample :
    tap_code30_c1 ∈ taps_LGS_bis_code30 ∧ tap_code30_c1.coeff = 1
      ∧ (tap_code30_c1.shift : Int) = 6 ∧ tap_code30_c1.fracBits = 10
      ∧ (tap_code30_c1.shift : Int) ≠ tap_code30_c1.fracBits
      ∧ tap_code13_c3 ∈ taps_rhoDFIIt_code13 ∧ tap_code13_c3.coeff = 1
      ∧ (tap_code13_c3.shift : Int) = 13 ∧ tap_code13_c3.fracBits = 14
      ∧ (tap_code13_c3.shift : Int) ≠ tap_code13_c3.fracBits := by
  refine ⟨by simp [taps_LGS_bis_code30, tap_code30_c1], rfl, by decide, by decide, by decide,
    by simp [taps_rhoDFIIt_code13, tap_code13_c3], rfl, by decide, by decide, by decide⟩

/-- C10, amended: in `LGS/bis/code30.c` the tap with coefficient 1 uses the mantissa
`1024 = 2^10` (format `ac_fixed<12,2>`, 10 fractional bits) and for every 16-bit
`v1` its partial product `(1024*v1) >> 6` equals `16*v1` exactly; in
`rhoDFIIt/code13.c` the tap with coefficient 1 uses the mantissa `16384 = 2^14`
(format `ac_fixed<16,2>`) and `(16384*v3) >> 13` equals `2*v3` exactly; the emitted
shift is the mantissa's fractional bit count less the leaf gain (`6 = 10 - 4`,
`13 = 14 - 1`). -/
theorem C10_unit_coefficient (v : Int) (hv : InInt16 v) :
    (tap_code30_c1 ∈ taps_LGS_bis_code30 ∧ tap_code30_c1.coeff = 1
        ∧ tap_code30_c1.mant = 2 ^ 10 ∧ tap_code30_c1.fracBits = 10
        ∧ (tap_code30_c1.mant : ℚ) * 2 ^ (-tap_code30_c1.fracBits) = 1
        ∧ asr (mul32 tap_code30_c1.mant v) tap_code30_c1.shift = 16 * v
        ∧ asr (mul32 1024 v) 6 = 16 * v
        ∧ (tap_code30_c1.shift : Int) = tap_code30_c1.fracBits - 4)
      ∧ (tap_code13_c3 ∈ taps_rhoDFIIt_code13 ∧ tap_code13_c3.coeff = 1
        ∧ tap_code13_c3.mant = 2 ^ 14 ∧ tap_code13_c3.fracBits = 14
        ∧ (tap_code13_c3.mant : ℚ) * 2 ^ (-tap_code13_c3.fracBits) = 1
        ∧ asr (mul32 tap_code13_c3.mant v) tap_code13_c3.shift = 2 * v
        ∧ asr (mul32 16384 v) 13 = 2 * v
        ∧ (tap_code13_c3.shift : Int) = tap_code13_c3.fracBits - 1) := by
  unfold InInt16 at hv
  have h30 : asr (mul32 1024 v) 6 = 16 * v := by
    rw [mul32_id 1024 v (by omega), asr_eq]
    omega
  have h13 : asr (mul32 16384 v) 13 = 2 * v := by
    rw [mul32_id 16384 v (by omega), asr_eq]
    omega
  refine ⟨⟨by simp [taps_LGS_bis_code30, tap_code30_c1], rfl, by decide, by decide, ?_, h30,
    h30, by decide⟩, ⟨by simp [taps_rhoDFIIt_code13, tap_code13_c3], rfl, by decide, by decide,
    ?_, h13, h13, by decide⟩⟩
  · norm_num [tap_code30_c1, Tap.fracBits]
  · norm_num [tap_code13_c3, Tap.fracBits]

/-- C10, amended, at the input `v = -32768`. -/
theorem C10_unit_coefficient_witness :
    asr (mul32 1024 (-32768)) 6 = 16 * (-32768) ∧ asr (mul32 16384 (-32768)) 13 = 2 * (-32768) :=
  ⟨(C10_unit_coefficient (-32768) (by decide)).1.2.2.2.2.2.2.1,
    (C10_unit_coefficient (-32768) (by decide)).2.2.2.2.2.2.2.1⟩

/-! ## Mantissa, shift and coefficient in `rhoDFIIt/code13.c` -/

/-- C11, as stated, fails: for the tap `c1` of `rhoDFIIt/code13.c` the pair
`(m, s) = (52162, 18)` gives `m * 2^-s = c1 / 4`, a relative error of `3/4`, far above
`2^-(b-2) = 2^-15` for the mantissa width `b = 17`. -/
theorem C11_counterexample :
    tap_code13_c1 ∈ taps_rhoDFIIt_code13
      ∧ tap_code13_c1.mant = 52162 ∧ tap_code13_c1.shift = 18 ∧ tap_code13_c1.cW = 17
      ∧ tap_code13_c1.coeff = 0.795928955078125
      ∧ (tap_code13_c1.mant : ℚ) * 2 ^ (-(tap_code13_c1.shift : Int)) = tap_code13_c1.coeff / 4
      ∧ ¬ (|(tap_code13_c1.mant : ℚ) * 2 ^ (-(tap_code13_c1.shift : Int)) - tap_code13_c1.coeff|
            ≤ 2 ^ (-((tap_code13_c1.cW : Int) - 2)) * |tap_code13_c1.coeff|) := by
  refine ⟨by simp [taps_rhoDFIIt_code13, tap_code13_c1], rfl, rfl, rfl, rfl, ?_, ?_⟩
  · norm_num [tap_code13_c1]
  · norm_num [tap_code13_c1, abs_of_pos, abs_of_neg]

/-- C11, amended: for every tap of `rhoDFIIt/code13.c`, with `m` the integer mantissa,
`f = W - I` the fractional bit count of the constant's declared format and `s` the
right shift emitted next to the product: `m * 2^-f` equals the `SoP_float` coefficient
exactly (so within the relative error `2^-(b-2)`), while `m * 2^-s` is the coefficient
times `2^(f-s)`, where `f - s` is `-2`, `2` or `1`: the emitted shift also aligns
the leaf to the accumulator scale. -/
theorem C11_mantissa_represents_coefficient (t : Tap) (ht : t ∈ taps_rhoDFIIt_code13) :
    (t.mant : ℚ) * 2 ^ (-t.fracBits) = t.coeff
      ∧ |(t.mant : ℚ) * 2 ^ (-t.fracBits) - t.coeff| ≤ 2 ^ (-((t.cW : Int) - 2)) * |t.coeff|
      ∧ (t.mant : ℚ) * 2 ^ (-(t.shift : Int)) = t.coeff * 2 ^ (t.fracBits - t.shift)
      ∧ (t.fracBits - t.shift = -2 ∨ t.fracBits - t.shift = 2 ∨ t.fracBits - t.shift = 1) := by
  have hex : (t.mant : ℚ) * 2 ^ (-t.fracBits) = t.coeff := by
    have h := (allTaps_wellQuantized t (by simp [allTaps, ht])).1
    rw [h, mul_assoc, ← zpow_add₀ (by norm_num : (2 : ℚ) ≠ 0)]
    simp
  refine ⟨hex, ?_, ?_, ?_⟩
  · rw [hex, sub_self, abs_zero]
    positivity
  · rw [← hex, mul_assoc, ← zpow_add₀ (by norm_num : (2 : ℚ) ≠ 0)]
    congr 2
    ring
  · simp only [taps_rhoDFIIt_code13, List.mem_cons, List.mem_singleton, List.not_mem_nil,
      or_false] at ht
    rcases ht with rfl | rfl | rfl | rfl <;> simp [Tap.fracBits]

/-- C11, amended, at the tap `c1` of `rhoDFIIt/code13.c`. -/
theorem C11_mantissa_represents_coefficient_witness :
    (tap_code13_c1.mant : ℚ) * 2 ^ (-tap_code13_c1.fracBits) = tap_code13_c1.coeff
      ∧ |(tap_code13_c1.mant : ℚ) * 2 ^ (-tap_code13_c1.fracBits) - tap_code13_c1.coeff|
          ≤ 2 ^ (-((tap_code13_c1.cW : Int) - 2)) * |tap_code13_c1.coeff|
      ∧ (tap_code13_c1.mant : ℚ) * 2 ^ (-(tap_code13_c1.shift : Int))
          = tap_code13_c1.coeff * 2 ^ (tap_code13_c1.fracBits - tap_code13_c1.shift)
      ∧ (tap_code13_c1.fracBits - tap_code13_c1.shift = -2
          ∨ tap_code13_c1.fracBits - tap_code13_c1.shift = 2
          ∨ tap_code13_c1.fracBits - tap_code13_c1.shift = 1) :=
  C11_mantissa_represents_coefficient tap_code13_c1
    (by simp [taps_rhoDFIIt_code13, tap_code13_c1])

/-! ## `LGS/bis/code28.c`: the modulo step -/

namespace LGS.bis.code28

/-- The modulo step is the first statement after the two leaf products of `C_int`. -/
theorem code28_root_step (v0 v1 : Int) :
    C_int_root v0 v1 =
      asr (add32 (mod32 (asr (mul32 378302 v0) 5) 262144) (asr (mul32 275886 v1) 5)) 1 :=
  rfl

/-- The step `r0 % 262144` on a register: the truncating remainder, which needs no
wraparound, written with the floor remainder on either sign of `r0`. -/
theorem mod_step_eq (r0 : Int) :
    mod32 r0 262144 = Int.tmod r0 262144 ∧
    (0 ≤ r0 → Int.tmod r0 262144 = r0 % 262144)
      ∧ (r0 < 0 → Int.tmod r0 262144 = -((-r0) % 262144)) := by
  have hpos : 0 ≤ r0 → Int.tmod r0 262144 = r0 % 262144 := fun h0 =>
    Int.tmod_eq_emod h0 (by norm_num)
  have hneg : r0 < 0 → Int.tmod r0 262144 = -((-r0) % 262144) := by
    intro h0
    have h1 : Int.tmod (-r0) 262144 = (-r0) % 262144 := Int.tmod_eq_emod (by omega) (by norm_num)
    have h2 : Int.tmod (-r0) 262144 = -Int.tmod r0 262144 := by
      rw [Int.tmod_def, Int.tmod_def, Int.neg_tdiv]
      ring
    omega
  refine ⟨?_, hpos, hneg⟩
  unfold mod32
  apply wrap32_id
  show -2147483648 ≤ Int.tmod r0 262144 ∧ Int.tmod r0 262144 ≤ 2147483647
  rcases le_or_lt 0 r0 with h0 | h0
  · rw [hpos h0]
    omega
  · rw [hneg h0]
    omega

/-- C12, amended: for every register value `r0` the step `r0 = r0 % 262144` of `C_int`
of `LGS/bis/code28.c` yields the C remainder: the value congruent to `r0` modulo
`2^18` that has the sign of `r0` and a magnitude below `2^18` (so the results range
over `(-2^18, 2^18)`); for `r0 >= 0` it is `r0 mod 2^18`, and it leaves `r0` unchanged
exactly when `|r0| < 2^18`. -/
theorem C12_remainder_step (r0 : Int) :
    (r0 - mod32 r0 262144) % 262144 = 0
      ∧ |mod32 r0 262144| < 262144
      ∧ (0 ≤ r0 → mod32 r0 262144 = r0 % 262144)
      ∧ (r0 < 0 → mod32 r0 262144 = -((-r0) % 262144))
      ∧ (mod32 r0 262144 = r0 ↔ |r0| < 262144) := by
  obtain ⟨he, hpos, hneg⟩ := mod_step_eq r0
  rw [he]
  rcases le_or_lt 0 r0 with h0 | h0
  · rw [hpos h0, abs_lt, abs_lt]
    refine ⟨by omega, by omega, fun _ => rfl, fun hc => by omega, by omega⟩
  · rw [hneg h0, abs_lt, abs_lt]
    refine ⟨by omega, by omega, fun hc => by omega, fun _ => rfl, by omega⟩

/-- C12, as stated, fails: no width `w` makes the step `r0 = r0 % 262144` the `w`-bit
two's-complement wraparound on the 32-bit values, and its results do not lie in any
interval of `2^18` consecutive integers: `262143` and `-262143` are both left
unchanged, and `262144` is sent to `0`. -/
theorem C12_counterexample :
    (¬ ∃ w : Nat, ∀ r0 : Int, InInt32 r0 → mod32 r0 262144 = wrapSigned w r0)
      ∧ (¬ ∃ a : Int, ∀ r0 : Int, InInt32 r0 →
          a ≤ mod32 r0 262144 ∧ mod32 r0 262144 < a + 262144)
      ∧ InInt32 262143 ∧ InInt32 (-262143) ∧ InInt32 262144
      ∧ mod32 262143 262144 = 262143 ∧ mod32 (-262143) 262144 = -262143
      ∧ mod32 262144 262144 = 0 := by
  have e1 : mod32 262143 262144 = 262143 := by decide
  have e2 : mod32 (-262143) 262144 = -262143 := by decide
  have e3 : mod32 262144 262144 = 0 := by decide
  refine ⟨?_, ?_, by decide, by decide, by decide, e1, e2, e3⟩
  · rintro ⟨w, hw⟩
    have h1 := hw 262143 (by decide)
    have h3 := hw 262144 (by decide)
    rw [e1] at h1
    rw [e3] at h3
    rcases Nat.lt_or_ge w 20 with hlt | hge
    · interval_cases w <;> revert h1 h3 <;> decide
    · have : wrapSigned w 262144 = 262144 := by
        apply wrapSigned_id w 262144 (by omega)
        have : (2 : Int) ^ 19 ≤ 2 ^ (w - 1) := pow_le_pow_right₀ (by norm_num) (by omega)
        norm_num at this
        constructor <;> omega
      omega
  · rintro ⟨a, ha⟩
    have h1 := ha 262143 (by decide)
    have h2 := ha (-262143) (by decide)
    rw [e1] at h1
    rw [e2] at h2
    omega

/-- For every `v0` in the declared 5-bit range `[-16, 15]`, `r0 = (378302*v0) >> 5`
satisfies `|r0| < 262144`, so `r0 % 262144 = r0` and `C_int(v0,v1)` is the function
without the modulo line, `(((378302*v0) >> 5) + ((275886*v1) >> 5)) >> 1` (over the
32-bit registers and the `int16_t` return for every `v1`; over plain integers when
`v1` is in its declared range `[-16, 15]` too and the result fits the return type);
at the 16-bit `v0 = 100`, outside the range, the modulo step changes `r0` from
`1182193` to `133617`. -/
theorem code28_modulo_in_declared_range (v0 v1 : Int) (h0 : -16 ≤ v0 ∧ v0 ≤ 15) :
    |asr (mul32 378302 v0) 5| < 262144
      ∧ asr (mul32 378302 v0) 5 = 378302 * v0 / 2 ^ 5
      ∧ mod32 (asr (mul32 378302 v0) 5) 262144 = asr (mul32 378302 v0) 5
      ∧ C_int_root v0 v1 = asr (add32 (asr (mul32 378302 v0) 5) (asr (mul32 275886 v1) 5)) 1
      ∧ C_int v0 v1
          = toInt16 (asr (add32 (asr (mul32 378302 v0) 5) (asr (mul32 275886 v1) 5)) 1)
      ∧ C_int v0 v1 = toInt16 (C_int_root_noMod v0 v1)
      ∧ (-16 ≤ v1 ∧ v1 ≤ 15 →
          C_int_root v0 v1 = (378302 * v0 / 2 ^ 5 + 275886 * v1 / 2 ^ 5) / 2 ^ 1)
      ∧ (-16 ≤ v1 ∧ v1 ≤ 15 → InInt16 (C_int_root v0 v1) →
          C_int v0 v1 = (378302 * v0 / 2 ^ 5 + 275886 * v1 / 2 ^ 5) / 2 ^ 1)
      ∧ (InInt16 100 ∧ ¬ (-16 ≤ (100 : Int) ∧ (100 : Int) ≤ 15)
          ∧ asr (mul32 378302 100) 5 = 1182193
          ∧ mod32 (asr (mul32 378302 100) 5) 262144 = 133617
          ∧ mod32 (asr (mul32 378302 100) 5) 262144 ≠ asr (mul32 378302 100) 5) := by
  have hm : mul32 378302 v0 = 378302 * v0 := mul32_id _ _ (by omega)
  obtain ⟨a0, b0⟩ := asr_spec (378302 * v0) 5
  norm_num at a0 b0
  have habs : |asr (mul32 378302 v0) 5| < 262144 := by
    rw [hm, abs_lt]
    omega
  have hmod : mod32 (asr (mul32 378302 v0) 5) 262144 = asr (mul32 378302 v0) 5 :=
    mod32_id _ _ (by rw [hm]; unfold InInt32; omega) habs
  have hroot : C_int_root v0 v1
      = asr (add32 (asr (mul32 378302 v0) 5) (asr (mul32 275886 v1) 5)) 1 := by
    simp only [C_int_root]
    rw [hmod]
  have hplain : -16 ≤ v1 ∧ v1 ≤ 15 →
      C_int_root v0 v1 = (378302 * v0 / 2 ^ 5 + 275886 * v1 / 2 ^ 5) / 2 ^ 1 := by
    intro hv1
    rw [hroot, hm, mul32_id 275886 v1 (by omega)]
    obtain ⟨a1, b1⟩ := asr_spec (275886 * v1) 5
    norm_num at a1 b1
    rw [add32_id _ _ (by omega)]
    simp only [asr_eq]
  refine ⟨habs, by rw [hm, asr_eq], hmod, hroot, by unfold C_int; rw [hroot], ?_, hplain,
    ?_, by decide, by decide, by decide, by decide, by decide⟩
  · unfold C_int
    rw [hroot]
    rfl
  · intro hv1 hr
    unfold C_int
    rw [toInt16_id _ hr]
    exact hplain hv1

/-- The modulo line of `LGS/bis/code28.c` at the input `(v0,v1) = (-16, 15)`. -/
theorem code28_modulo_in_declared_range_at_m16_15 :
    |asr (mul32 378302 (-16)) 5| < 262144
      ∧ mod32 (asr (mul32 378302 (-16)) 5) 262144 = asr (mul32 378302 (-16)) 5
      ∧ C_int (-16) 15 = toInt16 (asr (add32 (asr (mul32 378302 (-16)) 5)
          (asr (mul32 275886 15) 5)) 1)
      ∧ C_int (-16) 15 = (378302 * (-16) / 2 ^ 5 + 275886 * 15 / 2 ^ 5) / 2 ^ 1 :=
  ⟨(code28_modulo_in_declared_range (-16) 15 (by decide)).1,
    (code28_modulo_in_declared_range (-16) 15 (by decide)).2.2.1,
    (code28_modulo_in_declared_range (-16) 15 (by decide)).2.2.2.2.1,
    (code28_modulo_in_declared_range (-16) 15 (by decide)).2.2.2.2.2.2.2.1 (by decide)
      (by decide)⟩

/-- The storage steps of `SoP_ac_fixed` of `LGS/bis/code28.c` on raw integers. -/
theorem code28_SoP_ac_fixed_eq (q : QMode) (v0 v1 : Int) :
    SoP_ac_fixed q v0 v1 =
      wrapSigned 17 (dropBits q (wrapSigned 18 (dropBits q
        (wrapSigned 18 (dropBits q (378302 * v0) 5) * 32 + 275886 * v1) 5)) 1) := by
  unfold SoP_ac_fixed
  rw [acConst_exact q 20 3 2.8862152099609375 378302 (by norm_num) (by decide),
    acConst_exact q 20 4 4.209686279296875 275886 (by norm_num) (by decide)]
  simp only [acConst_zero]
  norm_num [acStore, AcValue.add, AcValue.mul, acInput, wrapSigned,
    show Int.toNat 5 = 5 from rfl, show Int.toNat 1 = 1 from rfl]

theorem code28_SoP_ac_fixed_at_0_15 (q : QMode) : SoP_ac_fixed q 0 15 = 64660 := by
  rw [code28_SoP_ac_fixed_eq]
  cases q <;> decide

/-- C19, refuted at `(v0,v1) = (0, 15)`, both inside the declared 5-bit ranges
`[-16, 15]`: no product overflows, `r0 = 0` is left unchanged by the modulo line, and
the value `(((378302*v0) >> 5) + ((275886*v1) >> 5)) >> 1` is `64660`; the declared
17-bit output format holds it and `SoP_ac_fixed` returns it, but it is outside
`[-32768, 32767]` and the `int16_t` return of `C_int` gives `-876`. -/
theorem C19_return_truncates :
    ((-16 ≤ (0 : Int) ∧ (0 : Int) ≤ 15) ∧ (-16 ≤ (15 : Int) ∧ (15 : Int) ≤ 15))
      ∧ (InInt32 (378302 * 0) ∧ InInt32 (275886 * 15))
      ∧ (|asr (mul32 378302 0) 5| < 262144
        ∧ mod32 (asr (mul32 378302 0) 5) 262144 = asr (mul32 378302 0) 5)
      ∧ (378302 * 0 / 2 ^ 5 + 275886 * 15 / 2 ^ 5) / 2 ^ 1 = (64660 : Int)
      ∧ C_int_root 0 15 = 64660
      ∧ C_int_root_noMod 0 15 = 64660
      ∧ (-2 ^ 16 ≤ C_int_root 0 15 ∧ C_int_root 0 15 < 2 ^ 16)
      ∧ ¬ InInt16 (C_int_root 0 15)
      ∧ C_int 0 15 = -876
      ∧ C_int 0 15 ≠ (378302 * 0 / 2 ^ 5 + 275886 * 15 / 2 ^ 5) / 2 ^ 1
      ∧ (∀ q : QMode, SoP_ac_fixed q 0 15 = 64660) := by
  refine ⟨by decide, by decide, by decide, by decide, by decide, by decide, by decide,
    by decide, by decide, by decide, code28_SoP_ac_fixed_at_0_15⟩

end LGS.bis.code28

/-! ## The statement lists and the generated functions -/

/-- The statement list of `rhoDFIIt/code13.c` computes the value of `C_int`. -/
theorem prog_rhoDFIIt_code13_rootValue (v0 v1 v2 v3 : Int) :
    prog_rhoDFIIt_code13.rootValue (inputs [v0, v1, v2, v3])
      = rhoDFIIt.code13.C_int_root v0 v1 v2 v3 :=
  rfl

/-- The statement list of `LGS/bis/code28.c` computes the value of `C_int`. -/
theorem prog_LGS_bis_code28_rootValue (v0 v1 : Int) :
    prog_LGS_bis_code28.rootValue (inputs [v0, v1]) = LGS.bis.code28.C_int_root v0 v1 :=
  rfl

/-- The statement list of `LGS/bis/code30.c` computes the value of `C_int`. -/
theorem prog_LGS_bis_code30_rootValue (v0 v1 : Int) :
    prog_LGS_bis_code30.rootValue (inputs [v0, v1]) = LGS.bis.code30.C_int_root v0 v1 :=
  rfl

/-- The statement list of `LGS/bis/code37.c` computes the value of `C_int`. -/
theorem prog_LGS_bis_code37_rootValue (v0 v1 v2 v3 v4 v5 v6 v7 v8 : Int) :
    prog_LGS_bis_code37.rootValue (inputs [v0, v1, v2, v3, v4, v5, v6, v7, v8])
      = LGS.bis.code37.C_int_root v0 v1 v2 v3 v4 v5 v6 v7 v8 :=
  rfl

/-- The statement list of `ss3/code6.c` computes the value of `C_int`. -/
theorem prog_ss3_code6_rootValue (v0 v1 v2 v3 v4 v5 v6 v7 v8 : Int) :
    prog_ss3_code6.rootValue (inputs [v0, v1, v2, v3, v4, v5, v6, v7, v8])
      = ss3.code6.C_int_root v0 v1 v2 v3 v4 v5 v6 v7 v8 :=
  rfl

/-- The statement list of `ss5/code0.c` computes the value of `C_int`. -/
theorem prog_ss5_code0_rootValue (v0 v1 v2 v3 v4 v5 v6 v7 v8 : Int) :
    prog_ss5_code0.rootValue (inputs [v0, v1, v2, v3, v4, v5, v6, v7, v8])
      = ss5.code0.C_int_root v0 v1 v2 v3 v4 v5 v6 v7 v8 :=
  rfl

/-- The statement list of `ss5/bis/code8.c` computes the value of `C_int`. -/
theorem prog_ss5_bis_code8_rootValue (v0 v1 v2 v3 v4 v5 v6 v7 v8 : Int) :
    prog_ss5_bis_code8.rootValue (inputs [v0, v1, v2, v3, v4, v5, v6, v7, v8])
      = ss5.bis.code8.C_int_root v0 v1 v2 v3 v4 v5 v6 v7 v8 :=
  rfl

/-- The statement list of `ss6/bis/log/code3.c` computes the value of `C_int`. -/
theorem prog_ss6_bis_log_code3_rootValue (v0 v1 v2 v3 v4 v5 v6 v7 v8 : Int) :
    prog_ss6_bis_log_code3.rootValue (inputs [v0, v1, v2, v3, v4, v5, v6, v7, v8])
      = ss6.bis.log.code3.C_int_root v0 v1 v2 v3 v4 v5 v6 v7 v8 :=
  rfl

/-- The statement list of `rhoDFIIt/bis/code3.c` leaves in `r0` the value of `C_int`. -/
theorem prog_rhoDFIIt_bis_code3_rootValue (v0 : Int) :
    Outcome.noReturn (prog_rhoDFIIt_bis_code3.rootValue (inputs [v0]))
        = rhoDFIIt.bis.code3.C_int v0
      ∧ prog_rhoDFIIt_bis_code3.returns = false :=
  ⟨rfl, rfl⟩

/-- The statement list of `rhoDFIIt/bis/code6.c` leaves in `r0` the value of `C_int`. -/
theorem prog_rhoDFIIt_bis_code6_rootValue (v0 : Int) :
    Outcome.noReturn (prog_rhoDFIIt_bis_code6.rootValue (inputs [v0]))
        = rhoDFIIt.bis.code6.C_int v0
      ∧ prog_rhoDFIIt_bis_code6.returns = false :=
  ⟨rfl, rfl⟩

/-- The statement list of `tags/0.1/Generated/Code/code4.c` computes the value of
`SoP_int`. -/
theorem prog_tags01_code4_rootValue (x0 x1 x2 : Int) :
    prog_tags01_code4.rootValue (inputs [x0, x1, x2]) = tags01.code4.SoP_int_root x0 x1 x2 := by
  have c1 : toInt16 (-18611) = -18611 := by decide
  have c2 : toInt16 18234 = 18234 := by decide
  have c0 : toInt16 28863 = 28863 := by decide
  simp only [tags01.code4.SoP_int_root, c1, c2, c0]
  rfl

/-- The term table of `SoP_float` of `rhoDFIIt/code13.c` evaluates to the function. -/
theorem floatTerms_rhoDFIIt_code13_eval (v0 v1 v2 v3 : ℚ) :
    evalTerms floatTerms_rhoDFIIt_code13 (inputsQ [v0, v1, v2, v3])
      = rhoDFIIt.code13.SoP_float v0 v1 v2 v3 := by
  simp [evalTerms, floatTerms_rhoDFIIt_code13, inputsQ, rhoDFIIt.code13.SoP_float]
  ring

/-- The term table of `SoP_float` of `LGS/bis/code37.c` evaluates to the function. -/
theorem floatTerms_LGS_bis_code37_eval (v0 v1 v2 v3 v4 v5 v6 v7 v8 : ℚ) :
    evalTerms floatTerms_LGS_bis_code37 (inputsQ [v0, v1, v2, v3, v4, v5, v6, v7, v8])
      = LGS.bis.code37.SoP_float v0 v1 v2 v3 v4 v5 v6 v7 v8 := by
  simp [evalTerms, floatTerms_LGS_bis_code37, inputsQ, LGS.bis.code37.SoP_float]
  ring

/-! ## The order of the additions -/

/-- C13, as stated, fails: the nine leaf products of `C_int` of `ss3/code6.c` are added
as one left-leaning chain `(((((((l0+l1)+l2)+l3)+l4)+l5)+l6)+l7)+l8`, not as the
pairwise reduction `(((l0+l1)+(l2+l3)) + ((l4+l5)+(l6+l7))) + l8`. -/
theorem C13_counterexample :
    prog_ss3_code6.leafVars = [0, 1, 2, 3, 4, 5, 6, 7, 8]
      ∧ prog_ss3_code6.addTree
          = some (nd (nd (nd (nd (nd (nd (nd (nd (lf 0) (lf 1)) (lf 2)) (lf 3)) (lf 4)) (lf 5))
              (lf 6)) (lf 7)) (lf 8))
      ∧ pairwiseTree prog_ss3_code6.leafVars
          = some (nd (nd (nd (nd (lf 0) (lf 1)) (nd (lf 2) (lf 3)))
              (nd (nd (lf 4) (lf 5)) (nd (lf 6) (lf 7)))) (lf 8))
      ∧ prog_ss3_code6.addTree ≠ pairwiseTree prog_ss3_code6.leafVars := by
  decide

/-- C13, amended: in the generated integer functions with at most four leaf products
the additions form the bottom-up left-to-right pairwise reduction of the leaves taken
in the order of the statements: `(l1+l2)+(l0+l3)` in `rhoDFIIt/code13.c`, `l0+l1` in
`LGS/bis/code28.c` and `LGS/bis/code30.c`, the single leaf in `rhoDFIIt/bis/code3.c`
and `rhoDFIIt/bis/code6.c`, `(l1+l2)+l0` in `tags/0.1/Generated/Code/code4.c`.  In the
five functions with nine leaves they do not: `ss3/code6.c` and `ss5/code0.c` add the
leaves as one left-leaning chain, `LGS/bis/code37.c` and `ss5/bis/code8.c` form
`(((l5+l6)+l0)+(l3+l8)) + (((l4+l7)+l2)+l1)`, and `ss6/bis/log/code3.c` forms
`(((l6+l8)+l4)+l1) + ((((l5+l7)+l3)+l2)+l0)`. -/
theorem C13_addition_order :
    (prog_rhoDFIIt_code13.addTree = some (nd (nd (lf 1) (lf 2)) (nd (lf 0) (lf 3)))
        ∧ prog_rhoDFIIt_code13.addTree = pairwiseTree prog_rhoDFIIt_code13.leafVars)
      ∧ (prog_rhoDFIIt_bis_code3.addTree = some (lf 0)
        ∧ prog_rhoDFIIt_bis_code3.addTree = pairwiseTree prog_rhoDFIIt_bis_code3.leafVars)
      ∧ (prog_rhoDFIIt_bis_code6.addTree = some (lf 0)
        ∧ prog_rhoDFIIt_bis_code6.addTree = pairwiseTree prog_rhoDFIIt_bis_code6.leafVars)
      ∧ (prog_LGS_bis_code28.addTree = some (nd (lf 0) (lf 1))
        ∧ prog_LGS_bis_code28.addTree = pairwiseTree prog_LGS_bis_code28.leafVars)
      ∧ (prog_LGS_bis_code30.addTree = some (nd (lf 0) (lf 1))
        ∧ prog_LGS_bis_code30.addTree = pairwiseTree prog_LGS_bis_code30.leafVars)
      ∧ (prog_tags01_code4.addTree = some (nd (nd (lf 1) (lf 2)) (lf 0))
        ∧ prog_tags01_code4.addTree = pairwiseTree prog_tags01_code4.leafVars)
      ∧ (prog_ss3_code6.addTree
          = some (nd (nd (nd (nd (nd (nd (nd (nd (lf 0) (lf 1)) (lf 2)) (lf 3)) (lf 4)) (lf 5))
              (lf 6)) (lf 7)) (lf 8))
        ∧ prog_ss3_code6.addTree ≠ pairwiseTree prog_ss3_code6.leafVars)
      ∧ (prog_ss5_code0.addTree
          = some (nd (nd (nd (nd (nd (nd (nd (nd (lf 0) (lf 1)) (lf 2)) (lf 3)) (lf 4)) (lf 5))
              (lf 6)) (lf 7)) (lf 8))
        ∧ prog_ss5_code0.addTree ≠ pairwiseTree prog_ss5_code0.leafVars)
      ∧ (prog_LGS_bis_code37.addTree
          = some (nd (nd (nd (nd (lf 5) (lf 6)) (lf 0)) (nd (lf 3) (lf 8)))
              (nd (nd (nd (lf 4) (lf 7)) (lf 2)) (lf 1)))
        ∧ prog_LGS_bis_code37.addTree ≠ pairwiseTree prog_LGS_bis_code37.leafVars)
      ∧ (prog_ss5_bis_code8.addTree
          = some (nd (nd (nd (nd (lf 5) (lf 6)) (lf 0)) (nd (lf 3) (lf 8)))
              (nd (nd (nd (lf 4) (lf 7)) (lf 2)) (lf 1)))
        ∧ prog_ss5_bis_code8.addTree ≠ pairwiseTree prog_ss5_bis_code8.leafVars)
      ∧ (prog_ss6_bis_log_code3.addTree
          = some (nd (nd (nd (nd (lf 6) (lf 8)) (lf 4)) (lf 1))
              (nd (nd (nd (nd (lf 5) (lf 7)) (lf 3)) (lf 2)) (lf 0)))
        ∧ prog_ss6_bis_log_code3.addTree ≠ pairwiseTree prog_ss6_bis_log_code3.leafVars)
      ∧ allStages.map (fun st => (st.prog.leafVars.length,
            decide (st.prog.addTree = pairwiseTree st.prog.leafVars)))
          = [(4, true), (1, true), (1, true), (2, true), (2, true), (9, false), (9, false),
             (9, false), (9, false), (9, false), (3, true)] := by
  decide

/-! ## The order of the taps in the three renderings -/

/-- C14, as stated, fails: in `rhoDFIIt/code13.c` the terms of `SoP_float` and the leaf
products of `C_int` come in the order `v1, v2, v0, v3`, and in `LGS/bis/code37.c` the
terms, the leaves and the products of `SoP_ac_fixed` come in the order
`v5, v6, v0, v3, v8, v4, v7, v2, v1`; neither is `v0, v1, ..., v(N-1)`. -/
theorem C14_counterexample :
    (floatTerms_rhoDFIIt_code13.map Prod.snd = [1, 2, 0, 3]
        ∧ prog_rhoDFIIt_code13.leafVars = [1, 2, 0, 3]
        ∧ prog_rhoDFIIt_code13.leafVars ≠ List.range 4)
      ∧ (floatTerms_LGS_bis_code37.map Prod.snd = [5, 6, 0, 3, 8, 4, 7, 2, 1]
        ∧ prog_LGS_bis_code37.leafVars = [5, 6, 0, 3, 8, 4, 7, 2, 1]
        ∧ acProducts_LGS_bis_code37.map Prod.snd = [5, 6, 0, 3, 8, 4, 7, 2, 1]
        ∧ prog_LGS_bis_code37.leafVars ≠ List.range 9) := by
  refine ⟨⟨?_, by decide, by decide⟩, ?_, by decide, ?_, by decide⟩ <;> rfl

/-- C14, amended: in every generated stage the k-th term of the weighted sum of
`SoP_float`, the k-th leaf product of the integer function and the k-th product of
`SoP_ac_fixed` refer to the same tap: same input variable, same coefficient (the
integer function holds its mantissa and shift), and where `SoP_ac_fixed` is not
commented out its parameters are declared in that order too.  That common order is
`v0, v1, ..., v(N-1)` in `rhoDFIIt/bis/code3.c`, `rhoDFIIt/bis/code6.c`,
`LGS/bis/code28.c`, `LGS/bis/code30.c`, `ss3/code6.c` and `ss5/code0.c`; it is
`v1, v2, v0, v3` in `rhoDFIIt/code13.c`, `v5, v6, v0, v3, v8, v4, v7, v2, v1` in
`LGS/bis/code37.c` and `ss5/bis/code8.c`, `v6, v8, v4, v1, v5, v7, v3, v2, v0` in
`ss6/bis/log/code3.c` and `x1, x2, x0` in `tags/0.1/Generated/Code/code4.c`. -/
theorem C14_common_tap_order (st : Stage) (h : st ∈ allStages) :
    st.floatTerms = st.taps.map (fun t => (t.coeff, t.var))
      ∧ st.acProducts = st.taps.map (fun t => (t.coeff, t.var))
      ∧ st.prog.leaves = st.taps.map (fun t => (t.var, t.mant, t.shift))
      ∧ st.prog.leafVars = st.leafOrder
      ∧ (st.acParams = [] ∨ st.acParams = st.leafOrder)
      ∧ (st.leafOrder = List.range st.taps.length ∨ st.leafOrder = [1, 2, 0, 3]
          ∨ st.leafOrder = [5, 6, 0, 3, 8, 4, 7, 2, 1]
          ∨ st.leafOrder = [6, 8, 4, 1, 5, 7, 3, 2, 0] ∨ st.leafOrder = [1, 2, 0])
      ∧ allStages.map (fun s => (s.leafOrder, decide (s.leafOrder = List.range s.taps.length)))
          = [([1, 2, 0, 3], false), ([0], true), ([0], true), ([0, 1], true), ([0, 1], true),
             ([5, 6, 0, 3, 8, 4, 7, 2, 1], false), ([0, 1, 2, 3, 4, 5, 6, 7, 8], true),
             ([0, 1, 2, 3, 4, 5, 6, 7, 8], true), ([5, 6, 0, 3, 8, 4, 7, 2, 1], false),
             ([6, 8, 4, 1, 5, 7, 3, 2, 0], false), ([1, 2, 0], false)] := by
  simp only [allStages, List.mem_cons, List.mem_singleton, List.not_mem_nil, or_false] at h
  rcases h with rfl | rfl | rfl | rfl | rfl | rfl | rfl | rfl | rfl | rfl | rfl <;>
    exact ⟨rfl, rfl, rfl, by decide, by decide, by decide, by decide⟩

/-- C14, amended, at the stage of `rhoDFIIt/code13.c`. -/
theorem C14_common_tap_order_witness :
    stage_rhoDFIIt_code13.floatTerms
        = stage_rhoDFIIt_code13.taps.map (fun t => (t.coeff, t.var))
      ∧ stage_rhoDFIIt_code13.acProducts
        = stage_rhoDFIIt_code13.taps.map (fun t => (t.coeff, t.var))
      ∧ stage_rhoDFIIt_code13.prog.leaves
        = stage_rhoDFIIt_code13.taps.map (fun t => (t.var, t.mant, t.shift))
      ∧ stage_rhoDFIIt_code13.prog.leafVars = stage_rhoDFIIt_code13.leafOrder :=
  ⟨(C14_common_tap_order stage_rhoDFIIt_code13 (by simp [allStages])).1,
   (C14_common_tap_order stage_rhoDFIIt_code13 (by simp [allStages])).2.1,
   (C14_common_tap_order stage_rhoDFIIt_code13 (by simp [allStages])).2.2.1,
   (C14_common_tap_order stage_rhoDFIIt_code13 (by simp [allStages])).2.2.2.1⟩

/-! ## `_pyWCPG.c`: the status of the external routine -/

/-- C15, refuted at a failing call: with every argument accepted and the library and
symbol found, an oracle that reports status `0` and an oracle that reports status `1`
with the same buffer content give the same result of `WCPG_pyWCPG`, the `q`-by-`p`
array object over `W`; for every call the result is unchanged when the status the
routine reports is replaced by `0`, and it is never a Python integer. -/
theorem C15_status_discarded :
    WCPG_pyWCPG (some ⟨some [0], some [1], some [1], some [1], some [0], 1, 1, 1⟩) true true
        (fun _ _ _ _ _ _ _ => (0, [7]))
      = PyResult.array 1 1 [7]
    ∧ WCPG_pyWCPG (some ⟨some [0], some [1], some [1], some [1], some [0], 1, 1, 1⟩) true true
        (fun _ _ _ _ _ _ _ => (1, [7]))
      = PyResult.array 1 1 [7]
    ∧ (∀ (a : WcpgArgs) (handle symbol : Bool) (f : WcpgOracle),
        WCPG_pyWCPG (some a) handle symbol f
          = WCPG_pyWCPG (some a) handle symbol (fun A B C D n p q => (0, (f A B C D n p q).2)))
    ∧ (∀ (parsed : Option WcpgArgs) (handle symbol : Bool) (f : WcpgOracle) (v : Int),
        WCPG_pyWCPG parsed handle symbol f ≠ PyResult.int v) := by
  refine ⟨rfl, rfl, ?_, ?_⟩
  · intro a handle symbol f
    rfl
  · intro parsed handle symbol f v
    unfold WCPG_pyWCPG
    rcases parsed with _ | ⟨W, A, B, C, D, n, p, q⟩
    · simp
    · cases W <;> cases A <;> cases B <;> cases C <;> cases D <;>
        cases handle <;> cases symbol <;> simp

/-! ## `tags/0.1/Generated/Code/code4.c`: error bound -/

namespace tags01.code4

/-- The reference value of `code4.c` as one fraction over `2^24`. -/
theorem code4_S_out_scaled (x0 x1 x2 : Int) :
    S_out x0 x1 x2 = ((14777856 * x0 - 2382208 * x1 + 18234 * x2 : Int) : ℚ) / 16777216 := by
  unfold S_out SoP_float_sum
  push_cast
  norm_num
  ring

/-- Integer form of the error bound of `SoP_int`, scaled by `2^24`. -/
theorem SoP_int_root_bound (x0 x1 x2 : Int) (h0 : InInt16 x0) (h1 : InInt16 x1)
    (h2 : InInt16 x2) (hs : InInt32 (SoP_int_intermediates x0 x1 x2).sum2) :
    (16777216 * SoP_int_root x0 x1 x2 ≤ 14777856 * x0 - 2382208 * x1 + 18234 * x2
      ∧ 14777856 * x0 - 2382208 * x1 + 18234 * x2 < 16777216 * (SoP_int_root x0 x1 x2 + 2))
      ∧ InInt16 (SoP_int_root x0 x1 x2) := by
  unfold InInt16 InInt32 at *
  have c1 : toInt16 (-18611) = -18611 := by decide
  have c2 : toInt16 18234 = 18234 := by decide
  have c0 : toInt16 28863 = 28863 := by decide
  simp only [SoP_int_intermediates, SoP_int_root, c1, c2, c0, mul32, add32, shl32] at *
  rw [wrap32_id (-18611 * x1) (by omega), wrap32_id (18234 * x2) (by omega),
    wrap32_id (28863 * x0) (by omega)] at *
  obtain ⟨a1, b1⟩ := asr_spec (18234 * x2) 7
  generalize asr (18234 * x2) 7 = p at *
  norm_num at a1 b1
  rw [wrap32_id (-18611 * x1 + p) (by omega), wrap32_id (28863 * x0 * 2 ^ 1) (by omega)] at *
  obtain ⟨a2, b2⟩ := asr_spec (-18611 * x1 + p) 1
  generalize asr (-18611 * x1 + p) 1 = h at *
  norm_num at a2 b2
  rw [wrap32_id (h + 28863 * x0 * 2 ^ 1) (by omega)]
  obtain ⟨a3, b3⟩ := asr_spec (h + 28863 * x0 * 2 ^ 1) 16
  generalize asr (h + 28863 * x0 * 2 ^ 1) 16 = q at *
  norm_num at a3 b3 hs
  refine ⟨⟨?_, ?_⟩, ?_, ?_⟩ <;> omega

/-- C16: for every 16-bit input `(x0,x1,x2)` for which the sum `(r2 >> 1) + (r0 << 1)`
lies in the 32-bit range, `S - 2 < SoP_int <= S`, where
`S = 0.880828857421875*x0 + (-0.14199066162109375)*x1 + 4*0.0002717077732086181640625*x2
= (2*28863*x0 - 18611*x1/2 + 18234*x2/256) / 65536` is the weighted sum of `SoP_float` at
the output scale, and the `int16_t` return conversion does not truncate. -/
theorem C16_error_bound (x0 x1 x2 : Int) (h0 : InInt16 x0) (h1 : InInt16 x1)
    (h2 : InInt16 x2) (hs : InInt32 (SoP_int_intermediates x0 x1 x2).sum2) :
    (S_out x0 x1 x2 - 2 < ((SoP_int x0 x1 x2 : Int) : ℚ)
        ∧ ((SoP_int x0 x1 x2 : Int) : ℚ) ≤ S_out x0 x1 x2)
      ∧ S_out x0 x1 x2 = 0.880828857421875 * (x0 : ℚ) + (-0.14199066162109375) * (x1 : ℚ)
          + 4 * 0.0002717077732086181640625 * (x2 : ℚ)
      ∧ S_out x0 x1 x2 = (2 * 28863 * (x0 : ℚ) - 18611 * (x1 : ℚ) / 2 + 18234 * (x2 : ℚ) / 256)
          / 65536
      ∧ InInt16 (SoP_int_root x0 x1 x2)
      ∧ SoP_int x0 x1 x2 = SoP_int_root x0 x1 x2 := by
  obtain ⟨⟨hlo, hhi⟩, hr⟩ := SoP_int_root_bound x0 x1 x2 h0 h1 h2 hs
  have hC : SoP_int x0 x1 x2 = SoP_int_root x0 x1 x2 := toInt16_id _ hr
  have hlo' : ((16777216 * SoP_int_root x0 x1 x2 : Int) : ℚ)
      ≤ ((14777856 * x0 - 2382208 * x1 + 18234 * x2 : Int) : ℚ) := by
    exact_mod_cast hlo
  have hhi' : ((14777856 * x0 - 2382208 * x1 + 18234 * x2 : Int) : ℚ)
      < ((16777216 * (SoP_int_root x0 x1 x2 + 2) : Int) : ℚ) := by
    exact_mod_cast hhi
  refine ⟨?_, ?_, ?_, hr, hC⟩
  · rw [hC, code4_S_out_scaled]
    generalize ((14777856 * x0 - 2382208 * x1 + 18234 * x2 : Int) : ℚ) = N at *
    push_cast at hlo' hhi'
    constructor <;> linarith
  · unfold S_out SoP_float_sum
    norm_num
    ring
  · unfold S_out SoP_float_sum
    norm_num
    ring

/-- C16 at the input `(31878, -32768, 32767)`. -/
theorem C16_error_bound_witness :
    (S_out 31878 (-32768) 32767 - 2 < ((SoP_int 31878 (-32768) 32767 : Int) : ℚ)
        ∧ ((SoP_int 31878 (-32768) 32767 : Int) : ℚ) ≤ S_out 31878 (-32768) 32767)
      ∧ InInt16 (SoP_int_root 31878 (-32768) 32767)
      ∧ SoP_int 31878 (-32768) 32767 = SoP_int_root 31878 (-32768) 32767 :=
  ⟨(C16_error_bound 31878 (-32768) 32767 (by decide) (by decide) (by decide) (by decide)).1,
    (C16_error_bound 31878 (-32768) 32767 (by decide) (by decide) (by decide)
      (by decide)).2.2.2⟩

end tags01.code4

/-! ## `ss6/bis/log/code3.c`: the modulo lines -/

namespace ss6.bis.log.code3

/-- C17: for every 16-bit input vector each of the seven modulo reductions of `C_int` of
`ss6/bis/log/code3.c` (`% 8589934592` twice, `% 2147483648` once, `% 1073741824` four
times) leaves its operand unchanged, so `C_int` equals the function with all modulo
lines deleted, which is the wrapped 32-bit sum of the nine products `m_i*v_i`
shifted right by 16. -/
theorem C17_modulo_noops (v0 v1 v2 v3 v4 v5 v6 v7 v8 : Int) (h0 : InInt16 v0)
    (h1 : InInt16 v1) (h2 : InInt16 v2) (h3 : InInt16 v3) (h4 : InInt16 v4) (h5 : InInt16 v5)
    (h6 : InInt16 v6) (h7 : InInt16 v7) (h8 : InInt16 v8) :
    (mod32 (mul32 (-23970) v4) 8589934592 = mul32 (-23970) v4
      ∧ mod32 (add32 (add32 (mul32 25671 v6) (mul32 (-19180) v8)) (mul32 (-23970) v4)) 8589934592
          = add32 (add32 (mul32 25671 v6) (mul32 (-19180) v8)) (mul32 (-23970) v4)
      ∧ mod32 (mul32 31100 v1) 2147483648 = mul32 31100 v1
      ∧ mod32 (mul32 18094 v7) 1073741824 = mul32 18094 v7
      ∧ mod32 (mul32 23774 v3) 1073741824 = mul32 23774 v3
      ∧ mod32 (mul32 16973 v2) 1073741824 = mul32 16973 v2
      ∧ mod32 (mul32 21117 v0) 1073741824 = mul32 21117 v0)
      ∧ C_int_root v0 v1 v2 v3 v4 v5 v6 v7 v8 = C_int_root_noMod v0 v1 v2 v3 v4 v5 v6 v7 v8
      ∧ C_int_root_noMod v0 v1 v2 v3 v4 v5 v6 v7 v8
          = asr (wrapSigned 32 (25671 * v6 + -19180 * v8 + -23970 * v4 + 31100 * v1
              + (31947 * v5 + 18094 * v7 + 23774 * v3 + 16973 * v2 + 21117 * v0))) 16
      ∧ C_int v0 v1 v2 v3 v4 v5 v6 v7 v8
          = toInt16 (asr (wrapSigned 32 (25671 * v6 + -19180 * v8 + -23970 * v4 + 31100 * v1
              + (31947 * v5 + 18094 * v7 + 23774 * v3 + 16973 * v2 + 21117 * v0))) 16) := by
  unfold InInt16 at *
  have m4 : mod32 (mul32 (-23970) v4) 8589934592 = mul32 (-23970) v4 := by
    rw [mul32_id _ _ (by omega)]
    exact mod32_id _ _ (by unfold InInt32; omega) (by rw [abs_lt]; omega)
  have ms : mod32 (add32 (add32 (mul32 25671 v6) (mul32 (-19180) v8)) (mul32 (-23970) v4))
      8589934592 = add32 (add32 (mul32 25671 v6) (mul32 (-19180) v8)) (mul32 (-23970) v4) := by
    have hr : InInt32 (add32 (add32 (mul32 25671 v6) (mul32 (-19180) v8))
        (mul32 (-23970) v4)) := wrap32_range _
    refine mod32_id _ _ hr ?_
    unfold InInt32 at hr
    rw [abs_lt]
    omega
  have m1 : mod32 (mul32 31100 v1) 2147483648 = mul32 31100 v1 := by
    rw [mul32_id _ _ (by omega)]
    exact mod32_id _ _ (by unfold InInt32; omega) (by rw [abs_lt]; omega)
  have m7 : mod32 (mul32 18094 v7) 1073741824 = mul32 18094 v7 := by
    rw [mul32_id _ _ (by omega)]
    exact mod32_id _ _ (by unfold InInt32; omega) (by rw [abs_lt]; omega)
  have m3 : mod32 (mul32 23774 v3) 1073741824 = mul32 23774 v3 := by
    rw [mul32_id _ _ (by omega)]
    exact mod32_id _ _ (by unfold InInt32; omega) (by rw [abs_lt]; omega)
  have m2 : mod32 (mul32 16973 v2) 1073741824 = mul32 16973 v2 := by
    rw [mul32_id _ _ (by omega)]
    exact mod32_id _ _ (by unfold InInt32; omega) (by rw [abs_lt]; omega)
  have m0 : mod32 (mul32 21117 v0) 1073741824 = mul32 21117 v0 := by
    rw [mul32_id _ _ (by omega)]
    exact mod32_id _ _ (by unfold InInt32; omega) (by rw [abs_lt]; omega)
  have hroot : C_int_root v0 v1 v2 v3 v4 v5 v6 v7 v8
      = C_int_root_noMod v0 v1 v2 v3 v4 v5 v6 v7 v8 := by
    simp only [C_int_root, C_int_root_noMod]
    rw [m4, ms, m1, m7, m3, m2, m0]
  have hsum : C_int_root_noMod v0 v1 v2 v3 v4 v5 v6 v7 v8
      = asr (wrapSigned 32 (25671 * v6 + -19180 * v8 + -23970 * v4 + 31100 * v1
          + (31947 * v5 + 18094 * v7 + 23774 * v3 + 16973 * v2 + 21117 * v0))) 16 := by
    simp only [C_int_root_noMod]
    rw [mul32_id 25671 v6 (by omega), mul32_id (-19180) v8 (by omega),
      mul32_id (-23970) v4 (by omega), mul32_id 31100 v1 (by omega),
      mul32_id 31947 v5 (by omega), mul32_id 18094 v7 (by omega),
      mul32_id 23774 v3 (by omega), mul32_id 16973 v2 (by omega),
      mul32_id 21117 v0 (by omega)]
    simp only [add32, wrap32_add_left, wrap32_add_right]
  refine ⟨⟨m4, ms, m1, m7, m3, m2, m0⟩, hroot, hsum, ?_⟩
  unfold C_int
  rw [hroot, hsum]

/-- C17 at the input with every tap at `-32768`. -/
theorem C17_modulo_noops_witness :
    C_int_root (-32768) (-32768) (-32768) (-32768) (-32768) (-32768) (-32768) (-32768) (-32768)
      = C_int_root_noMod (-32768) (-32768) (-32768) (-32768) (-32768) (-32768) (-32768)
          (-32768) (-32768) :=
  (C17_modulo_noops (-32768) (-32768) (-32768) (-32768) (-32768) (-32768) (-32768) (-32768)
    (-32768) (by decide) (by decide) (by decide) (by decide) (by decide) (by decide)
    (by decide) (by decide) (by decide)).2.1

end ss6.bis.log.code3

/-! ## `ss5/bis/code8.c`: the modulo line -/

namespace ss5.bis.code8

/-- C18: for every `v1` (16-bit or not: the product is wrapped to 32 bits) the value
`r2 = (690491*v1) >> 18` of `C_int` of `ss5/bis/code8.c` satisfies `|r2| < 1048576`, so
the step `r2 = r2 % 1048576` leaves `r2` unchanged and `C_int` equals the same function
with that line removed. -/
theorem C18_modulo_noop (v0 v1 v2 v3 v4 v5 v6 v7 v8 : Int) :
    |asr (mul32 690491 v1) 18| < 1048576
      ∧ mod32 (asr (mul32 690491 v1) 18) 1048576 = asr (mul32 690491 v1) 18
      ∧ C_int_root v0 v1 v2 v3 v4 v5 v6 v7 v8 = C_int_root_noMod v0 v1 v2 v3 v4 v5 v6 v7 v8
      ∧ C_int v0 v1 v2 v3 v4 v5 v6 v7 v8
          = toInt16 (C_int_root_noMod v0 v1 v2 v3 v4 v5 v6 v7 v8) := by
  have hb := asr_wrap32_range (690491 * v1) 18 (by norm_num)
  norm_num at hb
  have habs : |asr (mul32 690491 v1) 18| < 1048576 := by
    unfold mul32
    rw [abs_lt]
    omega
  have hmod : mod32 (asr (mul32 690491 v1) 18) 1048576 = asr (mul32 690491 v1) 18 :=
    mod32_id _ _ (by unfold InInt32 mul32; omega) habs
  have hroot : C_int_root v0 v1 v2 v3 v4 v5 v6 v7 v8
      = C_int_root_noMod v0 v1 v2 v3 v4 v5 v6 v7 v8 := by
    unfold C_int_root C_int_root_noMod
    simp only []
    rw [hmod]
  refine ⟨habs, hmod, hroot, ?_⟩
  unfold C_int
  rw [hroot]

end ss5.bis.code8

/-! ## `rhoDFIIt/code13.c`: the return conversion -/

namespace rhoDFIIt.code13

/-- C20: for every input `(v0,v1,v2,v3)` with 16-bit `v1, v2, v3` (and any `v0`: its
product is wrapped to 32 bits), the value `r0 >> 2` computed by `C_int` of
`rhoDFIIt/code13.c` lies in `[-32768, 32767]`, so the `int16_t` result equals it. -/
theorem C20_return_lossless (v0 v1 v2 v3 : Int) (h1 : InInt16 v1)
    (h2 : InInt16 v2) (h3 : InInt16 v3) :
    InInt16 (C_int_root v0 v1 v2 v3) ∧ C_int v0 v1 v2 v3 = C_int_root v0 v1 v2 v3 := by
  have key : InInt16 (C_int_root v0 v1 v2 v3) := by
    unfold InInt16 at *
    have hb := asr_wrap32_range (256814 * v0) 20 (by norm_num)
    norm_num at hb
    simp only [C_int_root]
    rw [mul32_id 52162 v1 (by omega), mul32_id 6107 v2 (by omega), mul32_id 16384 v3 (by omega)]
    unfold mul32
    obtain ⟨a1, b1⟩ := asr_spec (52162 * v1) 18
    obtain ⟨a2, b2⟩ := asr_spec (6107 * v2) 16
    obtain ⟨a3, b3⟩ := asr_spec (16384 * v3) 13
    generalize asr (52162 * v1) 18 = p1 at *
    generalize asr (6107 * v2) 16 = p2 at *
    generalize asr (wrapSigned 32 (256814 * v0)) 20 = p0 at *
    generalize asr (16384 * v3) 13 = p3 at *
    norm_num at a1 b1 a2 b2 a3 b3
    rw [add32_id p1 p2 (by omega), add32_id p0 p3 (by omega), add32_id _ _ (by omega)]
    obtain ⟨a4, b4⟩ := asr_spec (p1 + p2 + (p0 + p3)) 2
    generalize asr (p1 + p2 + (p0 + p3)) 2 = q at *
    norm_num at a4 b4
    constructor <;> omega
  exact ⟨key, toInt16_id _ key⟩

/-- C20 at an input whose product `256814*v0` overflows. -/
theorem C20_return_lossless_witness :
    InInt16 (C_int_root 32767 (-32768) (-32768) (-32768))
      ∧ C_int 32767 (-32768) (-32768) (-32768) = C_int_root 32767 (-32768) (-32768) (-32768) :=
  C20_return_lossless 32767 (-32768) (-32768) (-32768) (by decide) (by decide) (by decide)

end rhoDFIIt.code13

/-! ## `rhoDFIIt/code13.c`: the unit-coefficient tap -/

namespace rhoDFIIt.code13

/-- With 16-bit `v1, v2, v3` no sum of `C_int` wraps: the leaf of `v3` is `2*v3`, the
root is the sum of the four leaves shifted right by 2, and it fits the return type. -/
theorem code13_root_unit_tap (v0 v1 v2 v3 : Int) (h1 : InInt16 v1) (h2 : InInt16 v2)
    (h3 : InInt16 v3) :
    asr (mul32 16384 v3) 13 = 2 * v3
      ∧ C_int_root v0 v1 v2 v3
          = asr (asr (mul32 52162 v1) 18 + asr (mul32 6107 v2) 16
              + (asr (mul32 256814 v0) 20 + 2 * v3)) 2
      ∧ InInt16 (C_int_root v0 v1 v2 v3) := by
  unfold InInt16 at *
  have hb := asr_wrap32_range (256814 * v0) 20 (by norm_num)
  norm_num at hb
  have e3 : asr (mul32 16384 v3) 13 = 2 * v3 := by
    rw [mul32_id 16384 v3 (by omega)]
    obtain ⟨a3, b3⟩ := asr_spec (16384 * v3) 13
    norm_num at a3 b3
    omega
  have hroot : C_int_root v0 v1 v2 v3
      = asr (asr (mul32 52162 v1) 18 + asr (mul32 6107 v2) 16
          + (asr (mul32 256814 v0) 20 + 2 * v3)) 2 := by
    simp only [C_int_root]
    rw [e3, mul32_id 52162 v1 (by omega), mul32_id 6107 v2 (by omega)]
    unfold mul32
    obtain ⟨a1, b1⟩ := asr_spec (52162 * v1) 18
    obtain ⟨a2, b2⟩ := asr_spec (6107 * v2) 16
    generalize asr (52162 * v1) 18 = p1 at *
    generalize asr (6107 * v2) 16 = p2 at *
    generalize asr (wrapSigned 32 (256814 * v0)) 20 = p0 at *
    norm_num at a1 b1 a2 b2
    rw [add32_id p1 p2 (by omega), add32_id p0 (2 * v3) (by omega), add32_id _ _ (by omega)]
  refine ⟨e3, hroot, ?_⟩
  rw [hroot, mul32_id 52162 v1 (by omega), mul32_id 6107 v2 (by omega)]
  unfold mul32
  obtain ⟨a1, b1⟩ := asr_spec (52162 * v1) 18
  obtain ⟨a2, b2⟩ := asr_spec (6107 * v2) 16
  generalize asr (52162 * v1) 18 = p1 at *
  generalize asr (6107 * v2) 16 = p2 at *
  generalize asr (wrapSigned 32 (256814 * v0)) 20 = p0 at *
  norm_num at a1 b1 a2 b2
  obtain ⟨a4, b4⟩ := asr_spec (p1 + p2 + (p0 + 2 * v3)) 2
  generalize asr (p1 + p2 + (p0 + 2 * v3)) 2 = q at *
  norm_num at a4 b4
  constructor <;> omega

/-- C21: for every input `(v0,v1,v2,v3)` with 16-bit `v1, v2, v3` and `v3 <= 32765` (and
any `v0`: its product is wrapped to 32 bits), the tap with coefficient 1 contributes
exactly `2*v3` before the final `>> 2`, and
`C_int(v0,v1,v2,v3+2) = C_int(v0,v1,v2,v3) + 1`. -/
theorem C21_unit_tap_step (v0 v1 v2 v3 : Int) (h1 : InInt16 v1) (h2 : InInt16 v2)
    (h3 : InInt16 v3) (h : v3 ≤ 32765) :
    asr (mul32 16384 v3) 13 = 2 * v3
      ∧ asr (mul32 16384 (v3 + 2)) 13 = 2 * v3 + 4
      ∧ C_int_root v0 v1 v2 (v3 + 2) = C_int_root v0 v1 v2 v3 + 1
      ∧ C_int v0 v1 v2 (v3 + 2) = C_int v0 v1 v2 v3 + 1 := by
  have h3' : InInt16 (v3 + 2) := by
    unfold InInt16 at *
    constructor <;> omega
  obtain ⟨e, r, b⟩ := code13_root_unit_tap v0 v1 v2 v3 h1 h2 h3
  obtain ⟨e', r', b'⟩ := code13_root_unit_tap v0 v1 v2 (v3 + 2) h1 h2 h3'
  have hstep : C_int_root v0 v1 v2 (v3 + 2) = C_int_root v0 v1 v2 v3 + 1 := by
    rw [r, r']
    generalize asr (mul32 52162 v1) 18 + asr (mul32 6107 v2) 16 = s
    generalize asr (mul32 256814 v0) 20 = p0
    obtain ⟨a, c⟩ := asr_spec (s + (p0 + 2 * v3)) 2
    obtain ⟨a', c'⟩ := asr_spec (s + (p0 + 2 * (v3 + 2))) 2
    norm_num at a c a' c'
    omega
  refine ⟨e, by rw [e']; ring, hstep, ?_⟩
  unfold C_int
  rw [toInt16_id _ b', toInt16_id _ b, hstep]

/-- C21 at the largest admissible `v3`, with a product `256814*v0` that overflows. -/
theorem C21_unit_tap_step_witness :
    C_int 32767 (-32768) 32767 (32765 + 2) = C_int 32767 (-32768) 32767 32765 + 1 :=
  (C21_unit_tap_step 32767 (-32768) 32767 32765 (by decide) (by decide) (by decide)
    (by decide)).2.2.2

end rhoDFIIt.code13

/-! ## `_pyWCPG.c`: the indices of the reshape and print loops -/

/-- Without `int` overflow the index formed by the loops is `stride*i + j`. -/
theorem loopIndex_eq (s i j : Int) (hs : 0 < s) (hs' : s ≤ 46340) (hi : 0 ≤ i) (hi' : i < s)
    (hj : 0 ≤ j) (hj' : j ≤ 46340) : loopIndex s i j = s * i + j := by
  have h1 : 0 ≤ s * i := mul_nonneg hs.le hi
  have h2 : s * i ≤ 46340 * 46340 := by nlinarith
  unfold loopIndex
  rw [mul32_id s i (by constructor <;> omega), add32_id _ _ (by constructor <;> omega)]

/-- The indices `q*i + j` (`i < q`, `j < p`) stay below `q*p` exactly when `q = 1` or
`q <= p`. -/
theorem loopIndex_inBounds_iff (q p : Int) (hq : 0 < q) (hp : 0 < p) (hq' : q ≤ 46340)
    (hp' : p ≤ 46340) :
    (∀ i j : Int, 0 ≤ i → i < q → 0 ≤ j → j < p → loopIndex q i j < q * p)
      ↔ (q = 1 ∨ q ≤ p) := by
  constructor
  · intro h
    by_contra hc
    push_neg at hc
    obtain ⟨hq1, hpq⟩ := hc
    have hq2 : 2 ≤ q := by omega
    have := h (q - 1) (p - 1) (by omega) (by omega) (by omega) (by omega)
    rw [loopIndex_eq q (q - 1) (p - 1) hq hq' (by omega) (by omega) (by omega) (by omega)] at this
    nlinarith
  · intro h i j hi hi' hj hj'
    rw [loopIndex_eq q i j hq hq' hi hi' hj (by omega)]
    rcases h with rfl | h
    · have : i = 0 := by omega
      subst this
      omega
    · nlinarith

/-- The index `q*i + j` is the row-major index `p*i + j` on every row exactly when
`q = 1` or `q = p`. -/
theorem loopIndex_rowMajor_iff (q p : Int) (hq : 0 < q) (hp : 0 < p) (hq' : q ≤ 46340)
    (hp' : p ≤ 46340) :
    (∀ i j : Int, 0 ≤ i → i < q → 0 ≤ j → j < p → loopIndex q i j = p * i + j)
      ↔ (q = 1 ∨ q = p) := by
  constructor
  · intro h
    by_contra hc
    push_neg at hc
    obtain ⟨hq1, hpq⟩ := hc
    have := h 1 0 (by omega) (by omega) (by omega) (by omega)
    rw [loopIndex_eq q 1 0 hq hq' (by omega) (by omega) (by omega) (by omega)] at this
    omega
  · intro h i j hi hi' hj hj'
    rw [loopIndex_eq q i j hq hq' hi hi' hj (by omega)]
    rcases h with rfl | rfl
    · have : i = 0 := by omega
      subst this
      ring
    · rfl

/-- C22, refuted at `p = 1`, `q = 2`: the reshape loop and the loops printing `D` and
`W` read index `q*1 + 0 = 2 = q*p`, one past the end of the two-element buffer; at
`p = 3`, `q = 2` the indices stay inside the buffer but `tmp_tab[1][0]` receives
`W[2]`, the element at row 0, column 2 of the row-major matrix, where row 1, column 0
is `W[3]`.  For cardinalities up to 46340 (no `int` overflow in `q*i + j`) every
index is below `q*p` exactly when `q = 1` or `q <= p`, and `tmp_tab` receives the
row-major elements exactly when `q = 1` or `q = p`. -/
theorem C22_reshape_reads_outside :
    (([10, 11] : List ℚ).length = 2 * 1 ∧ loopIndex 2 1 0 = 2 ∧ ¬ (loopIndex 2 1 0 < 2 * 1)
        ∧ tmp_tab [10, 11] 2 1 = [[some 10], [none]]
        ∧ printed_W [10, 11] 2 1 = [[some 10], [none]]
        ∧ printed_D [10, 11] 2 1 = [[some 10], [none]]
        ∧ rowMajor [10, 11] 2 1 = [[some 10], [some 11]])
      ∧ (tmp_tab [10, 11, 12, 13, 14, 15] 2 3
            = [[some 10, some 11, some 12], [some 12, some 13, some 14]]
        ∧ rowMajor [10, 11, 12, 13, 14, 15] 2 3
            = [[some 10, some 11, some 12], [some 13, some 14, some 15]])
      ∧ (tmp_tab [10, 11, 12, 13] 2 2 = rowMajor [10, 11, 12, 13] 2 2
        ∧ tmp_tab [10, 11, 12, 13] 2 2 = [[some 10, some 11], [some 12, some 13]])
      ∧ (∀ q p : Int, 0 < q → 0 < p → q ≤ 46340 → p ≤ 46340 →
          ((∀ i j : Int, 0 ≤ i → i < q → 0 ≤ j → j < p → loopIndex q i j < q * p)
            ↔ (q = 1 ∨ q ≤ p)))
      ∧ (∀ q p : Int, 0 < q → 0 < p → q ≤ 46340 → p ≤ 46340 →
          ((∀ i j : Int, 0 ≤ i → i < q → 0 ≤ j → j < p → loopIndex q i j = p * i + j)
            ↔ (q = 1 ∨ q = p))) := by
  refine ⟨⟨rfl, by decide, by decide, ?_, ?_, ?_, ?_⟩, ⟨?_, ?_⟩, ⟨?_, ?_⟩,
    loopIndex_inBounds_iff, loopIndex_rowMajor_iff⟩
  all_goals rfl

end FiXiF
